import Mathlib

/-!
# Site ground temperature models (EnergyPlus)

A shallow embedding of the two site ground temperature models

* `GroundTemperatureModeling/SiteBuildingSurfaceGroundTemperatures.cc`
* `GroundTemperatureModeling/SiteDeepGroundTemperatures.cc`

Each model is built once by its factory from the input file (or from a default
constant) and afterwards answers look-ups by month or by elapsed seconds.

Conventions of the embedding:

* `Real64` values are the finite values of the C++ `double`, taken as exact
  rationals: copies and order comparisons of finite doubles are exact, and
  the arithmetic of the seconds-to-month conversion is carried out exactly.
* Two properties depend on what exact rationals leave out: NaN fails every
  comparison, and the quotient `seconds / 31536000` of a tiny positive
  `seconds` is rounded to zero. For these the look-up by seconds is embedded
  a second time over `Double` (finite values, infinities and NaN, the
  division rounded to the nearest `double`), see
  `getGroundTempAtTimeInSecondsDouble`; where the rounded and the exact
  quotient have the same ceiling the two embeddings agree.
* Global mutable data touched by the factories (the model registry, the two
  "object input" flags, the error log and the initialisation output file) is
  gathered in one explicit `State` that is passed through.
* `ShowFatalError` ends the run; it is an outcome of a look-up, not a value.
-/

namespace EnergyPlus

/-- The C++ `Real64` (finite values, exact). -/
abbrev Real64 := ℚ

/-- Modelled from the spec: the class declarations (the `.hh` headers) are not
among the sources, so the size of the temperature array comes from the spec's
data model: exactly 12 values, addressed in the source with the 1-based indices
1..12 (January..December). Slot `j : Fin 12` is source index `j + 1`. -/
abbrev Array1D := Fin 12 → Real64

/-- The twelve slots in the order of the source loops `for ( int i = 1; i <= 12; ++i )`. -/
def monthSlots : List (Fin 12) := [0, 1, 2, 3, 4, 5, 6, 7, 8, 9, 10, 11]

/-- Read `a( i )` with the 1-based `int` index of the source; `none` when the
index is outside 1..12 (the read is then outside the array). -/
def Array1D.read (a : Array1D) (i : Int) : Option Real64 :=
  if h : 1 ≤ i ∧ i ≤ 12 then some (a ⟨(i - 1).toNat, by omega⟩) else none

/-- Scalar assignment `a = v`: every element becomes `v`. -/
def Array1D.assignScalar (_a : Array1D) (v : Real64) : Array1D := fun _ => v

/-- Element assignment `a( j + 1 ) = v`. -/
def Array1D.assign (a : Array1D) (j : Fin 12) (v : Real64) : Array1D :=
  fun k => if k = j then v else a k

/-- Class `SiteBuildingSurfaceGroundTemps` (with the `errorsFound` member of its base). -/
structure SiteBuildingSurfaceGroundTemps where
  errorsFound : Bool
  timeOfSimInMonths : Int
  buildingSurfaceGroundTemps : Array1D

/-- Class `SiteDeepGroundTemps` (with the `errorsFound` member of its base). -/
structure SiteDeepGroundTemps where
  errorsFound : Bool
  timeOfSimInMonths : Int
  deepGroundTemps : Array1D

/-- An element of the registry: a shared pointer to the base class, which
points to a model of one of the variants. -/
inductive BaseGroundTempsModel where
  | buildingSurface (m : SiteBuildingSurfaceGroundTemps)
  | deep (m : SiteDeepGroundTemps)

/-- Modelled from the spec: the message routines `ShowSevereError`, `ShowWarningError` and
`ShowContinueError` are not among the sources; by the spec's diagnostics contract they accept
severity-tagged text and return, so a call is recorded as an entry of the error log. -/
inductive Diagnostic where
  | ShowSevereError (msg : String)
  | ShowWarningError (msg : String)
  | ShowContinueError (msg : String)
deriving DecidableEq, Repr

/-- Modelled from the spec: the output library is not among the sources; one `gio::write`
to the initialisation output file is recorded as what is written: a string under a format, a
real number under a format, or the empty write ending the record. -/
inductive InitsWrite where
  | str (fmt : String) (s : String)
  | real (fmt : String) (v : Real64)
  | endRecord
deriving DecidableEq, Repr

/-- Modelled from the spec: the input processor is not among the sources; a factory sees
of it the number of objects of the variant's type found in the input (a count, never negative),
and what `GetObjectItem` leaves for object 1: the number of numeric fields `NumNums` and the
shared numeric buffer `rNumericArgs` (1-based). -/
structure InputProcessor where
  GetNumObjectsFound : Nat
  NumNums : Nat
  rNumericArgs : Nat → Real64

/-- The global data the factories read and write. -/
structure State where
  groundTempModels : List BaseGroundTempsModel
  GroundTempObjInput : Bool
  GroundTemp_DeepObjInput : Bool
  errorLog : List Diagnostic
  OutputFileInits : List InitsWrite

/-- Append one message to the error log. -/
def State.emit (w : State) (d : Diagnostic) : State :=
  { w with errorLog := w.errorLog ++ [d] }

/-- Append writes to the initialisation output file. -/
def State.write (w : State) (ws : List InitsWrite) : State :=
  { w with OutputFileInits := w.OutputFileInits ++ ws }

/-- Format `fmtA`. -/
def fmtA : String := "(A)"

/-- Format `fmtAN`. -/
def fmtAN : String := "(A,$)"

/-- The format under which one temperature of the record is written (comma, blank, F6.2). -/
def fmtTemp : String := "(\x27, \x27,F6.2,$)"

/-- What a factory call leaves: the global data, the model object it built
(`thisModel`), and the pointer it returns (`none` for `nullptr`). -/
structure FactoryResult (M : Type) where
  state : State
  thisModel : M
  returned : Option M

/-- Modelled from the spec: `ShowFatalError` is not among the sources; by the spec's
diagnostics contract a Fatal call terminates the run immediately and does not return, so
`fatal` is a final outcome of a look-up, carrying the message.
The other outcomes: `value`, the temperature returned; `undefinedRead`, the array was indexed
outside 1..12; `undefinedConversion`, a `double` outside the range of `int` was converted to
`int`. -/
inductive Outcome where
  | value (v : Real64)
  | undefinedRead
  | undefinedConversion
  | fatal (msg : String)
deriving DecidableEq, Repr

/-- C `ceil` on a finite value. -/
def ceil (x : Real64) : Real64 := ((⌈x⌉ : Int) : ℚ)

/-- Conversion `double` to `int`: truncation toward zero, defined only when
the result fits in 32 bits. -/
def toInt (x : Real64) : Option Int :=
  let t : Int := if 0 ≤ x then ⌊x⌋ else ⌈x⌉
  if -2147483648 ≤ t ∧ t ≤ 2147483647 then some t else none

/-- C `remainder( x, y )`: `x - n * y` with `n` the integer nearest to `x / y`,
ties going to the even integer. -/
def remainder (x y : Real64) : Real64 :=
  let q : Real64 := x / y
  let f : Int := ⌊q⌋
  let n : Int :=
    if q - f < 1 / 2 then f
    else if 1 / 2 < q - f then f + 1
    else if f % 2 = 0 then f else f + 1
  x - n * y

/-- Text `msg` contains `text` as a contiguous piece. -/
def ContainsText (msg text : String) : Prop :=
  ∃ pre suf : String, msg = pre ++ text ++ suf

/-- The messages appended to the error log between state `w` and the later state `w2`. -/
def emittedSince (w w2 : State) : List Diagnostic :=
  w2.errorLog.drop w.errorLog.length

/-- Whether a message is a warning. -/
def Diagnostic.isWarning : Diagnostic → Bool
  | .ShowWarningError _ => true
  | _ => false

/-- Whether a message is a severe error. -/
def Diagnostic.isSevere : Diagnostic → Bool
  | .ShowSevereError _ => true
  | _ => false

/-! ## Site:GroundTemperature:BuildingSurface -/

namespace SiteBuildingSurfaceGroundTemps

/-- The local `cCurrentModuleObject` of the factory. -/
def cCurrentModuleObject : String := "Site:GroundTemperature:BuildingSurface"

/-- The loop of the factory over `i = 1..12` (slots `j = i - 1`): store
`rNumericArgs( i )` and raise `genErrorMessage` when the stored value is below 15 or above 25.
The pair is (`thisModel`, `genErrorMessage`). -/
def assignLoop (inp : InputProcessor) :
    List (Fin 12) → SiteBuildingSurfaceGroundTemps × Bool → SiteBuildingSurfaceGroundTemps × Bool
  | [], acc => acc
  | j :: js, acc =>
    let thisModel : SiteBuildingSurfaceGroundTemps :=
      { acc.1 with buildingSurfaceGroundTemps :=
          Array1D.assign acc.1.buildingSurfaceGroundTemps j (inp.rNumericArgs (j.val + 1)) }
    let genErrorMessage : Bool :=
      if thisModel.buildingSurfaceGroundTemps j < 15 ∨ thisModel.buildingSurfaceGroundTemps j > 25
      then true else acc.2
    assignLoop inp js (thisModel, genErrorMessage)

/-- The first part of the factory: the three-way branch on the number of objects.
`fresh` is the object made by `new SiteBuildingSurfaceGroundTemps()`; the constructor is declared in the
header, which is not among the sources, so its result is a parameter. -/
def readInput (fresh : SiteBuildingSurfaceGroundTemps) (inp : InputProcessor) (w : State) :
    SiteBuildingSurfaceGroundTemps × State :=
  let numCurrObjects := inp.GetNumObjectsFound
  if numCurrObjects = 1 then
    let r1 : SiteBuildingSurfaceGroundTemps × State :=
      if inp.NumNums < 12 then
        ({ fresh with errorsFound := true },
          w.emit (.ShowSevereError (cCurrentModuleObject ++ ": Less than 12 values entered.")))
      else (fresh, w)
    let r2 := assignLoop inp monthSlots (r1.1, false)
    let w2 : State := { r1.2 with GroundTempObjInput := true }
    let w3 : State :=
      if r2.2 then
        (w2.emit (.ShowWarningError
          (cCurrentModuleObject ++ ": Some values fall outside the range of 15-25C."))).emit
          (.ShowContinueError
            "These values may be inappropriate.  Please consult the Input Output Reference for more details.")
      else w2
    (r2.1, w3)
  else if numCurrObjects > 1 then
    ({ fresh with errorsFound := true },
      w.emit (.ShowSevereError (cCurrentModuleObject ++ ": Too many objects entered. Only one allowed.")))
  else
    ({ fresh with
        buildingSurfaceGroundTemps := Array1D.assignScalar fresh.buildingSurfaceGroundTemps 18 }, w)

/-- The writes of the factory to the initialisation output file. -/
def writeInits (thisModel : SiteBuildingSurfaceGroundTemps) (w : State) : State :=
  w.write
    ([InitsWrite.str fmtA "! <Site:GroundTemperature:BuildingSurface>, Months From Jan to Dec \x7bC\x7d",
      InitsWrite.str fmtAN " Site:GroundTemperature:BuildingSurface"]
      ++ monthSlots.map (fun j => InitsWrite.real fmtTemp (thisModel.buildingSurfaceGroundTemps j))
      ++ [InitsWrite.endRecord])

/-- The factory `SiteBuildingSurfaceGroundTemps::BuildingSurfaceGTMFactory()`. -/
def BuildingSurfaceGTMFactory (fresh : SiteBuildingSurfaceGroundTemps) (inp : InputProcessor)
    (w : State) : FactoryResult SiteBuildingSurfaceGroundTemps :=
  let r := readInput fresh inp w
  let thisModel := r.1
  let w1 := writeInits thisModel r.2
  let found := true
  if found && !thisModel.errorsFound then
    { state := { w1 with groundTempModels := w1.groundTempModels ++ [.buildingSurface thisModel] },
      thisModel := thisModel, returned := some thisModel }
  else
    { state := w1.emit (.ShowContinueError
        "Site:GroundTemperature:BuildingSurface--Errors getting input for ground temperature model"),
      thisModel := thisModel, returned := none }

/-- The method `getGroundTemp()`: `buildingSurfaceGroundTemps( timeOfSimInMonths )`. -/
def getGroundTemp (self : SiteBuildingSurfaceGroundTemps) : Outcome :=
  match Array1D.read self.buildingSurfaceGroundTemps self.timeOfSimInMonths with
  | some v => .value v
  | none => .undefinedRead

/-- The method `getGroundTempAtTimeInSeconds( depth, seconds )`: the outcome and the object afterwards. -/
def getGroundTempAtTimeInSeconds (self : SiteBuildingSurfaceGroundTemps)
    (_depth : Real64) (seconds : Real64) : Outcome × SiteBuildingSurfaceGroundTemps :=
  let secPerMonth : Real64 := ((365 * 3600 * 24 / 12 : Int) : ℚ)
  if seconds > 0 ∧ seconds ≤ secPerMonth * 12 then
    match toInt (ceil (seconds / (secPerMonth * 12))) with
    | some month =>
      let self1 := { self with timeOfSimInMonths := month }
      (getGroundTemp self1, self1)
    | none => (.undefinedConversion, self)
  else if seconds > secPerMonth * 12 then
    match toInt (ceil (seconds / (secPerMonth * 12))) with
    | some month0 =>
      match toInt (remainder (month0 : ℚ) 12) with
      | some month =>
        let self1 := { self with timeOfSimInMonths := month }
        (getGroundTemp self1, self1)
      | none => (.undefinedConversion, self)
    | none => (.undefinedConversion, self)
  else
    (.fatal "Site:GroundTemperature:BuildingSurface--Invalid time passed to ground temperature model",
      self)

/-- The method `getGroundTempAtTimeInMonths( depth, month )`: the outcome and the object afterwards. -/
def getGroundTempAtTimeInMonths (self : SiteBuildingSurfaceGroundTemps)
    (_depth : Real64) (month : Int) : Outcome × SiteBuildingSurfaceGroundTemps :=
  let self1 := { self with timeOfSimInMonths := month }
  (getGroundTemp self1, self1)

end SiteBuildingSurfaceGroundTemps

/-! ## Site:GroundTemperature:Deep -/

namespace SiteDeepGroundTemps

/-- The local `cCurrentModuleObject` of the factory. -/
def cCurrentModuleObject : String := "Site:GroundTemperature:Deep"

/-- The loop of the factory over `i = 1..12` (slots `j = i - 1`): store `rNumericArgs( i )`. -/
def assignLoop (inp : InputProcessor) : List (Fin 12) → SiteDeepGroundTemps → SiteDeepGroundTemps
  | [], thisModel => thisModel
  | j :: js, thisModel =>
    assignLoop inp js
      { thisModel with deepGroundTemps :=
          Array1D.assign thisModel.deepGroundTemps j (inp.rNumericArgs (j.val + 1)) }

/-- The first part of the factory: the three-way branch on the number of objects.
`fresh` is the object made by `new SiteDeepGroundTemps()`; the constructor is declared in the
header, which is not among the sources, so its result is a parameter. -/
def readInput (fresh : SiteDeepGroundTemps) (inp : InputProcessor) (w : State) :
    SiteDeepGroundTemps × State :=
  let numCurrObjects := inp.GetNumObjectsFound
  if numCurrObjects = 1 then
    let r1 : SiteDeepGroundTemps × State :=
      if inp.NumNums < 12 then
        ({ fresh with errorsFound := true },
          w.emit (.ShowSevereError (cCurrentModuleObject ++ ": Less than 12 values entered.")))
      else (fresh, w)
    let thisModel := assignLoop inp monthSlots r1.1
    (thisModel, { r1.2 with GroundTemp_DeepObjInput := true })
  else if numCurrObjects > 1 then
    ({ fresh with errorsFound := true },
      w.emit (.ShowSevereError (cCurrentModuleObject ++ ": Too many objects entered. Only one allowed.")))
  else
    ({ fresh with deepGroundTemps := Array1D.assignScalar fresh.deepGroundTemps 16 }, w)

/-- The writes of the factory to the initialisation output file. -/
def writeInits (thisModel : SiteDeepGroundTemps) (w : State) : State :=
  w.write
    ([InitsWrite.str fmtA "! <Site:GroundTemperature:Deep>, Months From Jan to Dec \x7bC\x7d",
      InitsWrite.str fmtAN " Site:GroundTemperature:Deep"]
      ++ monthSlots.map (fun j => InitsWrite.real fmtTemp (thisModel.deepGroundTemps j))
      ++ [InitsWrite.endRecord])

/-- The factory `SiteDeepGroundTemps::DeepGTMFactory()`. -/
def DeepGTMFactory (fresh : SiteDeepGroundTemps) (inp : InputProcessor)
    (w : State) : FactoryResult SiteDeepGroundTemps :=
  let r := readInput fresh inp w
  let thisModel := r.1
  let w1 := writeInits thisModel r.2
  let found := true
  if found && !thisModel.errorsFound then
    { state := { w1 with groundTempModels := w1.groundTempModels ++ [.deep thisModel] },
      thisModel := thisModel, returned := some thisModel }
  else
    { state := w1.emit (.ShowContinueError
        "Site:GroundTemperature:Deep--Errors getting input for ground temperature model"),
      thisModel := thisModel, returned := none }

/-- The method `getGroundTemp()`: `deepGroundTemps( timeOfSimInMonths )`. -/
def getGroundTemp (self : SiteDeepGroundTemps) : Outcome :=
  match Array1D.read self.deepGroundTemps self.timeOfSimInMonths with
  | some v => .value v
  | none => .undefinedRead

/-- The method `getGroundTempAtTimeInSeconds( depth, seconds )`: the outcome and the object afterwards. -/
def getGroundTempAtTimeInSeconds (self : SiteDeepGroundTemps)
    (_depth : Real64) (seconds : Real64) : Outcome × SiteDeepGroundTemps :=
  let secPerMonth : Real64 := ((365 * 3600 * 24 / 12 : Int) : ℚ)
  if seconds > 0 ∧ seconds ≤ secPerMonth * 12 then
    match toInt (ceil (seconds / (secPerMonth * 12))) with
    | some month =>
      let self1 := { self with timeOfSimInMonths := month }
      (getGroundTemp self1, self1)
    | none => (.undefinedConversion, self)
  else if seconds > secPerMonth * 12 then
    match toInt (ceil (seconds / (secPerMonth * 12))) with
    | some month0 =>
      match toInt (remainder (month0 : ℚ) 12) with
      | some month =>
        let self1 := { self with timeOfSimInMonths := month }
        (getGroundTemp self1, self1)
      | none => (.undefinedConversion, self)
    | none => (.undefinedConversion, self)
  else
    (.fatal "Site:GroundTemperature:Deep--Invalid time passed to ground temperature model", self)

/-- The method `getGroundTempAtTimeInMonths( depth, month )`: the outcome and the object afterwards. -/
def getGroundTempAtTimeInMonths (self : SiteDeepGroundTemps)
    (_depth : Real64) (month : Int) : Outcome × SiteDeepGroundTemps :=
  let self1 := { self with timeOfSimInMonths := month }
  (getGroundTemp self1, self1)

end SiteDeepGroundTemps

/-! ## Sample inputs -/

/-- A state before any factory has run. -/
def emptyState : State :=
  { groundTempModels := [], GroundTempObjInput := false, GroundTemp_DeepObjInput := false,
    errorLog := [], OutputFileInits := [] }

/-- A freshly made BuildingSurface object without error. -/
def sampleBuildingSurface : SiteBuildingSurfaceGroundTemps :=
  { errorsFound := false, timeOfSimInMonths := 0, buildingSurfaceGroundTemps := fun _ => 13 }

/-- A freshly made Deep object without error. -/
def sampleDeep : SiteDeepGroundTemps :=
  { errorsFound := false, timeOfSimInMonths := 0, deepGroundTemps := fun _ => 13 }

/-- One object with 12 numeric fields; field `i` holds `15 + i / 2`, all within 15..25. -/
def inputTwelve : InputProcessor :=
  { GetNumObjectsFound := 1, NumNums := 12, rNumericArgs := fun i => 15 + (i : ℚ) / 2 }

/-- No object in the input. -/
def inputNone : InputProcessor :=
  { GetNumObjectsFound := 0, NumNums := 0, rNumericArgs := fun _ => 0 }

/-- Two objects in the input. -/
def inputTwo : InputProcessor :=
  { GetNumObjectsFound := 2, NumNums := 0, rNumericArgs := fun _ => 0 }

/-- One object with only 10 numeric fields; the buffer slots 11 and 12 hold 0. -/
def inputTen : InputProcessor :=
  { GetNumObjectsFound := 1, NumNums := 10,
    rNumericArgs := fun i => if i ≤ 10 then 15 + (i : ℚ) / 2 else 0 }

/-- One object with 12 numeric fields, the third being 10.0 (below 15), the others 20.0. -/
def inputOneLow : InputProcessor :=
  { GetNumObjectsFound := 1, NumNums := 12, rNumericArgs := fun i => if i = 3 then 10 else 20 }

/-! ## The seconds-to-month conversion -/

/-- The conversion of seconds to a month index as both variants of
`getGroundTempAtTimeInSeconds` compute it (their first two branches, which are the same text
in both files): the `int` month assigned to `timeOfSimInMonths`. `none` when a conversion to
`int` is outside its range, and for `seconds <= 0`, where no month is computed. -/
def monthOfSeconds (seconds : Real64) : Option Int :=
  let secPerMonth : Real64 := ((365 * 3600 * 24 / 12 : Int) : ℚ)
  if seconds > 0 ∧ seconds ≤ secPerMonth * 12 then
    toInt (ceil (seconds / (secPerMonth * 12)))
  else if seconds > secPerMonth * 12 then
    match toInt (ceil (seconds / (secPerMonth * 12))) with
    | some month0 => toInt (remainder (month0 : ℚ) 12)
    | none => none
  else none

/-- The remainder of `k` by 12 in the words of the specification: with `r = k mod 12` it is
`r` when `r` is 0..5, `r - 12` when `r` is 7..11, and for `r = 6` it is 6 when `k mod 24 = 6`
and -6 when `k mod 24 = 18`. -/
def wrapIndex (k : Int) : Int :=
  if k % 12 ≤ 5 then k % 12
  else if 7 ≤ k % 12 then k % 12 - 12
  else if k % 24 = 6 then 6
  else -6

/-! ## 32-bit evaluation of the month length -/

/-- The value a C `int` (32 bits, two-complement) holds for the mathematical result `z`. -/
def wrapInt32 (z : Int) : Int := (z + 2147483648) % 4294967296 - 2147483648

/-- The `int` expression `365 * 3600 * 24 / 12` of the source, evaluated left to right in
32-bit arithmetic with the truncating division of C. -/
def secPerMonthInt32 : Int :=
  Int.tdiv (wrapInt32 (wrapInt32 (365 * 3600) * 24)) 12

/-! ## Relating the messages of the two variants -/

/-- Whether the list of characters `p` is the beginning of the list `l`. -/
def startsWith : List Char → List Char → Bool
  | [], _ => true
  | _ :: _, [] => false
  | a :: p, b :: l => a == b && startsWith p l

/-- The text of a BuildingSurface message with the variant name replaced: a leading
"Site:GroundTemperature:BuildingSurface" (38 characters) becomes "Site:GroundTemperature:Deep";
any other text is left as it is. -/
def renameVariant (msg : String) : String :=
  if startsWith "Site:GroundTemperature:BuildingSurface".toList msg.toList then
    String.mk ("Site:GroundTemperature:Deep".toList ++ msg.toList.drop 38)
  else msg

/-- A message with the variant name replaced in its text. -/
def Diagnostic.renameVariant : Diagnostic → Diagnostic
  | .ShowSevereError msg => .ShowSevereError (EnergyPlus.renameVariant msg)
  | .ShowWarningError msg => .ShowWarningError (EnergyPlus.renameVariant msg)
  | .ShowContinueError msg => .ShowContinueError (EnergyPlus.renameVariant msg)

/-- A list of messages without its range advisories: every warning is dropped, together with
the continuation line that follows it. -/
def dropRangeAdvisory : List Diagnostic → List Diagnostic
  | [] => []
  | .ShowWarningError _ :: .ShowContinueError _ :: rest => dropRangeAdvisory rest
  | .ShowWarningError _ :: rest => dropRangeAdvisory rest
  | .ShowSevereError msg :: rest => .ShowSevereError msg :: dropRangeAdvisory rest
  | .ShowContinueError msg :: rest => .ShowContinueError msg :: dropRangeAdvisory rest

/-! ## The `double` arithmetic of the argument `seconds`

The look-up by seconds once more, with the argument and the quotient as C++ `double`s: NaN and
the infinities are values, comparisons with NaN are false, and the division is rounded to the
nearest `double`. -/

/-- A value of the C++ `double`: a finite value, an infinity, or NaN. The two zeros are not
told apart (no operation of the source does). -/
inductive Double where
  | finite (q : ℚ)
  | posInf
  | negInf
  | nan
deriving DecidableEq, Repr

/-- The comparison `x < y` of two `double`s; false as soon as one of them is NaN. -/
def Double.lt : Double → Double → Bool
  | .nan, _ => false
  | _, .nan => false
  | .finite a, .finite b => decide (a < b)
  | .negInf, .negInf => false
  | .negInf, _ => true
  | _, .negInf => false
  | .posInf, _ => false
  | .finite _, .posInf => true

/-- The comparison `x <= y` of two `double`s; false as soon as one of them is NaN. -/
def Double.le : Double → Double → Bool
  | .nan, _ => false
  | _, .nan => false
  | .finite a, .finite b => decide (a ≤ b)
  | .negInf, _ => true
  | _, .negInf => false
  | _, .posInf => true
  | .posInf, .finite _ => false

/-- The integer nearest to `q`, ties going to the even integer. -/
def roundHalfEven (q : ℚ) : Int :=
  let f : Int := ⌊q⌋
  if q - f < 1 / 2 then f
  else if 1 / 2 < q - f then f + 1
  else if f % 2 = 0 then f else f + 1

/-- Rounding of an exact result to the nearest `double` (binary64, ties to even). With `e` the
binary exponent of `x`, not below -1022 (below it the values are subnormal), neighbouring
`double`s are `2 ^ (e - 52)` apart; a rounded magnitude of `2 ^ 1024` or more is an infinity. -/
def roundToDouble (x : ℚ) : Double :=
  let e : Int := max (Int.log 2 |x|) (-1022)
  let ulp : ℚ := (2 : ℚ) ^ (e - 52)
  let r : ℚ := (roundHalfEven (x / ulp) : ℚ) * ulp
  if (2 : ℚ) ^ (1024 : Int) ≤ r then Double.posInf
  else if r ≤ -(2 : ℚ) ^ (1024 : Int) then Double.negInf
  else Double.finite r

/-- The division `x / y` of a `double` by a finite positive `double` `y` (the only division
of the source, by `secPerMonth * 12`). -/
def Double.divFinite (x : Double) (y : ℚ) : Double :=
  match x with
  | .finite q => roundToDouble (q / y)
  | .posInf => .posInf
  | .negInf => .negInf
  | .nan => .nan

/-- C `ceil` on a `double`. -/
def Double.ceil : Double → Double
  | .finite q => .finite ((⌈q⌉ : Int) : ℚ)
  | .posInf => .posInf
  | .negInf => .negInf
  | .nan => .nan

/-- Conversion of a `double` to `int`: defined for a finite value whose truncation fits in 32
bits, undefined (`none`) otherwise. -/
def Double.toInt : Double → Option Int
  | .finite q => EnergyPlus.toInt q
  | _ => none

namespace SiteBuildingSurfaceGroundTemps

/-- The method `getGroundTempAtTimeInSeconds( depth, seconds )` with `seconds` a `double`: the
outcome and the object afterwards. The threshold `secPerMonth * 12` is the exact product
2628000 * 12 = 31536000 (both factors and the product are integers below 2 ^ 53); the month of
the second branch goes through `remainder` as an integer, which is exact. -/
def getGroundTempAtTimeInSecondsDouble (self : SiteBuildingSurfaceGroundTemps)
    (_depth : Double) (seconds : Double) : Outcome × SiteBuildingSurfaceGroundTemps :=
  let secPerMonth : Real64 := ((365 * 3600 * 24 / 12 : Int) : ℚ)
  if Double.lt (Double.finite 0) seconds && Double.le seconds (Double.finite (secPerMonth * 12))
  then
    match Double.toInt (Double.ceil (Double.divFinite seconds (secPerMonth * 12))) with
    | some month =>
      let self1 := { self with timeOfSimInMonths := month }
      (getGroundTemp self1, self1)
    | none => (.undefinedConversion, self)
  else if Double.lt (Double.finite (secPerMonth * 12)) seconds then
    match Double.toInt (Double.ceil (Double.divFinite seconds (secPerMonth * 12))) with
    | some month0 =>
      match toInt (remainder (month0 : ℚ) 12) with
      | some month =>
        let self1 := { self with timeOfSimInMonths := month }
        (getGroundTemp self1, self1)
      | none => (.undefinedConversion, self)
    | none => (.undefinedConversion, self)
  else
    (.fatal "Site:GroundTemperature:BuildingSurface--Invalid time passed to ground temperature model", self)

end SiteBuildingSurfaceGroundTemps

namespace SiteDeepGroundTemps

/-- The method `getGroundTempAtTimeInSeconds( depth, seconds )` with `seconds` a `double`: the
outcome and the object afterwards. The threshold `secPerMonth * 12` is the exact product
2628000 * 12 = 31536000 (both factors and the product are integers below 2 ^ 53); the month of
the second branch goes through `remainder` as an integer, which is exact. -/
def getGroundTempAtTimeInSecondsDouble (self : SiteDeepGroundTemps)
    (_depth : Double) (seconds : Double) : Outcome × SiteDeepGroundTemps :=
  let secPerMonth : Real64 := ((365 * 3600 * 24 / 12 : Int) : ℚ)
  if Double.lt (Double.finite 0) seconds && Double.le seconds (Double.finite (secPerMonth * 12))
  then
    match Double.toInt (Double.ceil (Double.divFinite seconds (secPerMonth * 12))) with
    | some month =>
      let self1 := { self with timeOfSimInMonths := month }
      (getGroundTemp self1, self1)
    | none => (.undefinedConversion, self)
  else if Double.lt (Double.finite (secPerMonth * 12)) seconds then
    match Double.toInt (Double.ceil (Double.divFinite seconds (secPerMonth * 12))) with
    | some month0 =>
      match toInt (remainder (month0 : ℚ) 12) with
      | some month =>
        let self1 := { self with timeOfSimInMonths := month }
        (getGroundTemp self1, self1)
      | none => (.undefinedConversion, self)
    | none => (.undefinedConversion, self)
  else
    (.fatal "Site:GroundTemperature:Deep--Invalid time passed to ground temperature model", self)

end SiteDeepGroundTemps

/-- The smallest positive `double`, `2 ^ -1074` (about 4.94e-324). -/
def smallestPositiveDouble : ℚ := 1 / 2 ^ 1074

/-! ## Lemmas on the embedding -/

theorem mem_monthSlots (k : Fin 12) : k ∈ monthSlots := by
  revert k; decide

namespace SiteBuildingSurfaceGroundTemps

theorem buildingSurface_assignLoop_errorsFound (inp : InputProcessor) (l : List (Fin 12))
    (acc : SiteBuildingSurfaceGroundTemps × Bool) :
    (assignLoop inp l acc).1.errorsFound = acc.1.errorsFound := by
  induction l generalizing acc with
  | nil => rfl
  | cons j js ih => simp only [assignLoop]; rw [ih]

theorem buildingSurface_assignLoop_timeOfSimInMonths (inp : InputProcessor) (l : List (Fin 12))
    (acc : SiteBuildingSurfaceGroundTemps × Bool) :
    (assignLoop inp l acc).1.timeOfSimInMonths = acc.1.timeOfSimInMonths := by
  induction l generalizing acc with
  | nil => rfl
  | cons j js ih => simp only [assignLoop]; rw [ih]

theorem buildingSurface_assignLoop_temps (inp : InputProcessor) (l : List (Fin 12))
    (acc : SiteBuildingSurfaceGroundTemps × Bool) (k : Fin 12) :
    (assignLoop inp l acc).1.buildingSurfaceGroundTemps k =
      if k ∈ l then inp.rNumericArgs (k.val + 1) else acc.1.buildingSurfaceGroundTemps k := by
  induction l generalizing acc with
  | nil => simp [assignLoop]
  | cons j js ih =>
    simp only [assignLoop]
    rw [ih]
    by_cases hk : k ∈ js
    · simp [hk]
    · by_cases hj : k = j
      · subst hj; simp [hk, Array1D.assign]
      · simp [hk, hj, Array1D.assign]

theorem buildingSurface_assignLoop_genErrorMessage (inp : InputProcessor) (l : List (Fin 12))
    (acc : SiteBuildingSurfaceGroundTemps × Bool) :
    (assignLoop inp l acc).2 = true ↔
      acc.2 = true ∨ ∃ j ∈ l, inp.rNumericArgs (j.val + 1) < 15 ∨ inp.rNumericArgs (j.val + 1) > 25 := by
  induction l generalizing acc with
  | nil => simp [assignLoop]
  | cons j js ih =>
    simp only [assignLoop]
    rw [ih]
    simp only [Array1D.assign, if_true, List.mem_cons, exists_eq_or_imp]
    by_cases h : inp.rNumericArgs (j.val + 1) < 15 ∨ inp.rNumericArgs (j.val + 1) > 25
    · simp [h]
    · simp only [h, if_false, false_or]

theorem buildingSurface_readInput_temps_of_one (fresh : SiteBuildingSurfaceGroundTemps) (inp : InputProcessor)
    (w : State) (h1 : inp.GetNumObjectsFound = 1) (k : Fin 12) :
    (readInput fresh inp w).1.buildingSurfaceGroundTemps k = inp.rNumericArgs (k.val + 1) := by
  simp only [readInput, h1, if_true]
  rw [buildingSurface_assignLoop_temps]
  simp [mem_monthSlots]

theorem buildingSurface_readInput_errorsFound (fresh : SiteBuildingSurfaceGroundTemps) (inp : InputProcessor)
    (w : State) :
    (readInput fresh inp w).1.errorsFound =
      if inp.GetNumObjectsFound = 1 then (if inp.NumNums < 12 then true else fresh.errorsFound)
      else if inp.GetNumObjectsFound > 1 then true else fresh.errorsFound := by
  unfold readInput
  by_cases h1 : inp.GetNumObjectsFound = 1
  · simp only [h1, if_true]
    rw [buildingSurface_assignLoop_errorsFound]
    by_cases h2 : inp.NumNums < 12 <;> simp [h2]
  · by_cases h2 : inp.GetNumObjectsFound > 1 <;> simp [h1, h2]

end SiteBuildingSurfaceGroundTemps

namespace SiteDeepGroundTemps

theorem deep_assignLoop_errorsFound (inp : InputProcessor) (l : List (Fin 12))
    (m : SiteDeepGroundTemps) :
    (assignLoop inp l m).errorsFound = m.errorsFound := by
  induction l generalizing m with
  | nil => rfl
  | cons j js ih => simp only [assignLoop]; rw [ih]

theorem deep_assignLoop_timeOfSimInMonths (inp : InputProcessor) (l : List (Fin 12))
    (m : SiteDeepGroundTemps) :
    (assignLoop inp l m).timeOfSimInMonths = m.timeOfSimInMonths := by
  induction l generalizing m with
  | nil => rfl
  | cons j js ih => simp only [assignLoop]; rw [ih]

theorem deep_assignLoop_temps (inp : InputProcessor) (l : List (Fin 12))
    (m : SiteDeepGroundTemps) (k : Fin 12) :
    (assignLoop inp l m).deepGroundTemps k =
      if k ∈ l then inp.rNumericArgs (k.val + 1) else m.deepGroundTemps k := by
  induction l generalizing m with
  | nil => simp [assignLoop]
  | cons j js ih =>
    simp only [assignLoop]
    rw [ih]
    by_cases hk : k ∈ js
    · simp [hk]
    · by_cases hj : k = j
      · subst hj; simp [hk, Array1D.assign]
      · simp [hk, hj, Array1D.assign]

theorem deep_readInput_temps_of_one (fresh : SiteDeepGroundTemps) (inp : InputProcessor)
    (w : State) (h1 : inp.GetNumObjectsFound = 1) (k : Fin 12) :
    (readInput fresh inp w).1.deepGroundTemps k = inp.rNumericArgs (k.val + 1) := by
  simp only [readInput, h1, if_true]
  rw [deep_assignLoop_temps]
  simp [mem_monthSlots]

theorem deep_readInput_errorsFound (fresh : SiteDeepGroundTemps) (inp : InputProcessor)
    (w : State) :
    (readInput fresh inp w).1.errorsFound =
      if inp.GetNumObjectsFound = 1 then (if inp.NumNums < 12 then true else fresh.errorsFound)
      else if inp.GetNumObjectsFound > 1 then true else fresh.errorsFound := by
  unfold readInput
  by_cases h1 : inp.GetNumObjectsFound = 1
  · simp only [h1, if_true]
    rw [deep_assignLoop_errorsFound]
    by_cases h2 : inp.NumNums < 12 <;> simp [h2]
  · by_cases h2 : inp.GetNumObjectsFound > 1 <;> simp [h1, h2]

end SiteDeepGroundTemps

namespace SiteBuildingSurfaceGroundTemps

theorem buildingSurface_factory_thisModel (fresh : SiteBuildingSurfaceGroundTemps) (inp : InputProcessor) (w : State) :
    (BuildingSurfaceGTMFactory fresh inp w).thisModel = (readInput fresh inp w).1 := by
  unfold BuildingSurfaceGTMFactory
  cases h : (readInput fresh inp w).1.errorsFound <;> simp [h]

theorem buildingSurface_factory_returned (fresh : SiteBuildingSurfaceGroundTemps) (inp : InputProcessor) (w : State) :
    (BuildingSurfaceGTMFactory fresh inp w).returned =
      if (readInput fresh inp w).1.errorsFound = false then some (readInput fresh inp w).1
      else none := by
  unfold BuildingSurfaceGTMFactory
  cases h : (readInput fresh inp w).1.errorsFound <;> simp [h]

theorem buildingSurface_readInput_registry (fresh : SiteBuildingSurfaceGroundTemps) (inp : InputProcessor) (w : State) :
    (readInput fresh inp w).2.groundTempModels = w.groundTempModels := by
  unfold readInput
  by_cases h1 : inp.GetNumObjectsFound = 1
  · by_cases h2 : inp.NumNums < 12 <;> simp only [h1, h2, if_true, if_false, State.emit] <;>
      split_ifs <;> rfl
  · by_cases h2 : inp.GetNumObjectsFound > 1 <;> simp [h1, h2, State.emit]

theorem buildingSurface_readInput_inits (fresh : SiteBuildingSurfaceGroundTemps) (inp : InputProcessor) (w : State) :
    (readInput fresh inp w).2.OutputFileInits = w.OutputFileInits := by
  unfold readInput
  by_cases h1 : inp.GetNumObjectsFound = 1
  · by_cases h2 : inp.NumNums < 12 <;> simp only [h1, h2, if_true, if_false, State.emit] <;>
      split_ifs <;> rfl
  · by_cases h2 : inp.GetNumObjectsFound > 1 <;> simp [h1, h2, State.emit]

theorem buildingSurface_factory_registry (fresh : SiteBuildingSurfaceGroundTemps) (inp : InputProcessor) (w : State) :
    (BuildingSurfaceGTMFactory fresh inp w).state.groundTempModels =
      if (readInput fresh inp w).1.errorsFound = false
      then w.groundTempModels ++ [BaseGroundTempsModel.buildingSurface (readInput fresh inp w).1]
      else w.groundTempModels := by
  unfold BuildingSurfaceGTMFactory
  cases h : (readInput fresh inp w).1.errorsFound <;>
    simp [h, writeInits, State.write, State.emit, buildingSurface_readInput_registry]

theorem buildingSurface_factory_inits (fresh : SiteBuildingSurfaceGroundTemps) (inp : InputProcessor) (w : State) :
    (BuildingSurfaceGTMFactory fresh inp w).state.OutputFileInits =
      (writeInits (readInput fresh inp w).1 w).OutputFileInits := by
  unfold BuildingSurfaceGTMFactory
  cases h : (readInput fresh inp w).1.errorsFound <;>
    simp [h, writeInits, State.write, State.emit, buildingSurface_readInput_inits]

theorem buildingSurface_factory_errorLog (fresh : SiteBuildingSurfaceGroundTemps) (inp : InputProcessor) (w : State) :
    (BuildingSurfaceGTMFactory fresh inp w).state.errorLog =
      (readInput fresh inp w).2.errorLog ++
        (if (readInput fresh inp w).1.errorsFound = false then []
         else [Diagnostic.ShowContinueError
           "Site:GroundTemperature:BuildingSurface--Errors getting input for ground temperature model"]) := by
  unfold BuildingSurfaceGTMFactory
  cases h : (readInput fresh inp w).1.errorsFound <;>
    simp [h, writeInits, State.write, State.emit]

end SiteBuildingSurfaceGroundTemps

namespace SiteDeepGroundTemps

theorem deep_factory_thisModel (fresh : SiteDeepGroundTemps) (inp : InputProcessor) (w : State) :
    (DeepGTMFactory fresh inp w).thisModel = (readInput fresh inp w).1 := by
  unfold DeepGTMFactory
  cases h : (readInput fresh inp w).1.errorsFound <;> simp [h]

theorem deep_factory_returned (fresh : SiteDeepGroundTemps) (inp : InputProcessor) (w : State) :
    (DeepGTMFactory fresh inp w).returned =
      if (readInput fresh inp w).1.errorsFound = false then some (readInput fresh inp w).1
      else none := by
  unfold DeepGTMFactory
  cases h : (readInput fresh inp w).1.errorsFound <;> simp [h]

theorem deep_readInput_registry (fresh : SiteDeepGroundTemps) (inp : InputProcessor) (w : State) :
    (readInput fresh inp w).2.groundTempModels = w.groundTempModels := by
  unfold readInput
  by_cases h1 : inp.GetNumObjectsFound = 1
  · by_cases h2 : inp.NumNums < 12 <;> simp [h1, h2, State.emit]
  · by_cases h2 : inp.GetNumObjectsFound > 1 <;> simp [h1, h2, State.emit]

theorem deep_readInput_inits (fresh : SiteDeepGroundTemps) (inp : InputProcessor) (w : State) :
    (readInput fresh inp w).2.OutputFileInits = w.OutputFileInits := by
  unfold readInput
  by_cases h1 : inp.GetNumObjectsFound = 1
  · by_cases h2 : inp.NumNums < 12 <;> simp [h1, h2, State.emit]
  · by_cases h2 : inp.GetNumObjectsFound > 1 <;> simp [h1, h2, State.emit]

theorem deep_factory_registry (fresh : SiteDeepGroundTemps) (inp : InputProcessor) (w : State) :
    (DeepGTMFactory fresh inp w).state.groundTempModels =
      if (readInput fresh inp w).1.errorsFound = false
      then w.groundTempModels ++ [BaseGroundTempsModel.deep (readInput fresh inp w).1]
      else w.groundTempModels := by
  unfold DeepGTMFactory
  cases h : (readInput fresh inp w).1.errorsFound <;>
    simp [h, writeInits, State.write, State.emit, deep_readInput_registry]

theorem deep_factory_inits (fresh : SiteDeepGroundTemps) (inp : InputProcessor) (w : State) :
    (DeepGTMFactory fresh inp w).state.OutputFileInits =
      (writeInits (readInput fresh inp w).1 w).OutputFileInits := by
  unfold DeepGTMFactory
  cases h : (readInput fresh inp w).1.errorsFound <;>
    simp [h, writeInits, State.write, State.emit, deep_readInput_inits]

theorem deep_factory_errorLog (fresh : SiteDeepGroundTemps) (inp : InputProcessor) (w : State) :
    (DeepGTMFactory fresh inp w).state.errorLog =
      (readInput fresh inp w).2.errorLog ++
        (if (readInput fresh inp w).1.errorsFound = false then []
         else [Diagnostic.ShowContinueError
           "Site:GroundTemperature:Deep--Errors getting input for ground temperature model"]) := by
  unfold DeepGTMFactory
  cases h : (readInput fresh inp w).1.errorsFound <;>
    simp [h, writeInits, State.write, State.emit]

end SiteDeepGroundTemps

/-- What was appended to the error log is recovered by `emittedSince`. -/
theorem emittedSince_of_append (w w2 : State) (l : List Diagnostic)
    (h : w2.errorLog = w.errorLog ++ l) : emittedSince w w2 = l := by
  simp [emittedSince, h]

namespace SiteBuildingSurfaceGroundTemps

theorem buildingSurface_genErrorMessage_iff (inp : InputProcessor)
    (m : SiteBuildingSurfaceGroundTemps) :
    (assignLoop inp monthSlots (m, false)).2 = true ↔
      ∃ j : Fin 12, inp.rNumericArgs (j.val + 1) < 15 ∨ inp.rNumericArgs (j.val + 1) > 25 := by
  rw [buildingSurface_assignLoop_genErrorMessage]
  simp [mem_monthSlots]

theorem buildingSurface_readInput_errorLog_one (fresh : SiteBuildingSurfaceGroundTemps)
    (inp : InputProcessor) (w : State) (h1 : inp.GetNumObjectsFound = 1) :
    (readInput fresh inp w).2.errorLog =
      w.errorLog ++
        ((if inp.NumNums < 12 then
            [Diagnostic.ShowSevereError
              "Site:GroundTemperature:BuildingSurface: Less than 12 values entered."]
          else []) ++
         (if ∃ j : Fin 12, inp.rNumericArgs (j.val + 1) < 15 ∨ inp.rNumericArgs (j.val + 1) > 25 then
            [Diagnostic.ShowWarningError
              "Site:GroundTemperature:BuildingSurface: Some values fall outside the range of 15-25C.",
             Diagnostic.ShowContinueError
              "These values may be inappropriate.  Please consult the Input Output Reference for more details."]
          else [])) := by
  have hs1 : cCurrentModuleObject ++ ": Less than 12 values entered."
      = "Site:GroundTemperature:BuildingSurface: Less than 12 values entered." := by decide
  have hs2 : cCurrentModuleObject ++ ": Some values fall outside the range of 15-25C."
      = "Site:GroundTemperature:BuildingSurface: Some values fall outside the range of 15-25C." := by
    decide
  unfold readInput
  simp only [h1, if_true, hs1, hs2]
  by_cases hg : ∃ j : Fin 12, inp.rNumericArgs (j.val + 1) < 15 ∨ inp.rNumericArgs (j.val + 1) > 25
  · by_cases h2 : inp.NumNums < 12
    · simp [h2, hg, (buildingSurface_genErrorMessage_iff inp _).2 hg, State.emit]
    · simp [h2, hg, (buildingSurface_genErrorMessage_iff inp _).2 hg, State.emit]
  · have hf : ∀ m, (assignLoop inp monthSlots (m, false)).2 = false := by
      intro m
      cases hb : (assignLoop inp monthSlots (m, false)).2
      · rfl
      · exact absurd ((buildingSurface_genErrorMessage_iff inp m).1 hb) hg
    by_cases h2 : inp.NumNums < 12
    · simp only [h2, hg, hf, if_true, if_false, State.emit]; simp
    · simp only [h2, hg, hf, if_true, if_false, State.emit]; simp

theorem buildingSurface_readInput_errorLog_many (fresh : SiteBuildingSurfaceGroundTemps)
    (inp : InputProcessor) (w : State) (h : 2 ≤ inp.GetNumObjectsFound) :
    (readInput fresh inp w).2.errorLog =
      w.errorLog ++ [Diagnostic.ShowSevereError
        "Site:GroundTemperature:BuildingSurface: Too many objects entered. Only one allowed."] := by
  have hs : cCurrentModuleObject ++ ": Too many objects entered. Only one allowed."
      = "Site:GroundTemperature:BuildingSurface: Too many objects entered. Only one allowed." := by
    decide
  have h1 : ¬ inp.GetNumObjectsFound = 1 := by omega
  have h2 : inp.GetNumObjectsFound > 1 := by omega
  simp [readInput, h1, h2, hs, State.emit]

theorem buildingSurface_readInput_zero (fresh : SiteBuildingSurfaceGroundTemps)
    (inp : InputProcessor) (w : State) (h : inp.GetNumObjectsFound = 0) :
    readInput fresh inp w =
      ({ fresh with buildingSurfaceGroundTemps := fun _ => 18 }, w) := by
  simp [readInput, h]
  rfl

end SiteBuildingSurfaceGroundTemps

namespace SiteDeepGroundTemps

theorem deep_readInput_errorLog_one (fresh : SiteDeepGroundTemps)
    (inp : InputProcessor) (w : State) (h1 : inp.GetNumObjectsFound = 1) :
    (readInput fresh inp w).2.errorLog =
      w.errorLog ++
        (if inp.NumNums < 12 then
            [Diagnostic.ShowSevereError "Site:GroundTemperature:Deep: Less than 12 values entered."]
          else []) := by
  have hs1 : cCurrentModuleObject ++ ": Less than 12 values entered."
      = "Site:GroundTemperature:Deep: Less than 12 values entered." := by decide
  unfold readInput
  simp only [h1, if_true, hs1]
  by_cases h2 : inp.NumNums < 12 <;> simp [h2, State.emit]

theorem deep_readInput_errorLog_many (fresh : SiteDeepGroundTemps)
    (inp : InputProcessor) (w : State) (h : 2 ≤ inp.GetNumObjectsFound) :
    (readInput fresh inp w).2.errorLog =
      w.errorLog ++ [Diagnostic.ShowSevereError
        "Site:GroundTemperature:Deep: Too many objects entered. Only one allowed."] := by
  have hs : cCurrentModuleObject ++ ": Too many objects entered. Only one allowed."
      = "Site:GroundTemperature:Deep: Too many objects entered. Only one allowed." := by
    decide
  have h1 : ¬ inp.GetNumObjectsFound = 1 := by omega
  have h2 : inp.GetNumObjectsFound > 1 := by omega
  simp [readInput, h1, h2, hs, State.emit]

theorem deep_readInput_zero (fresh : SiteDeepGroundTemps)
    (inp : InputProcessor) (w : State) (h : inp.GetNumObjectsFound = 0) :
    readInput fresh inp w = ({ fresh with deepGroundTemps := fun _ => 16 }, w) := by
  simp [readInput, h]
  rfl

end SiteDeepGroundTemps

namespace SiteBuildingSurfaceGroundTemps

theorem buildingSurface_getGroundTemp_ne_fatal (self : SiteBuildingSurfaceGroundTemps) (msg : String) :
    getGroundTemp self ≠ Outcome.fatal msg := by
  unfold getGroundTemp
  cases Array1D.read self.buildingSurfaceGroundTemps self.timeOfSimInMonths <;> simp

theorem buildingSurface_seconds_fatal_of_nonpos (self : SiteBuildingSurfaceGroundTemps) (depth seconds : Real64)
    (h : seconds ≤ 0) :
    getGroundTempAtTimeInSeconds self depth seconds =
      (Outcome.fatal
        "Site:GroundTemperature:BuildingSurface--Invalid time passed to ground temperature model",
        self) := by
  have h1 : ¬ (seconds > 0 ∧ seconds ≤ ((365 * 3600 * 24 / 12 : Int) : ℚ) * 12) := by
    intro hc; exact absurd hc.1 (not_lt.mpr h)
  have h2 : ¬ (seconds > ((365 * 3600 * 24 / 12 : Int) : ℚ) * 12) := by
    have : (0 : ℚ) < ((365 * 3600 * 24 / 12 : Int) : ℚ) * 12 := by norm_num
    intro hc; linarith
  unfold getGroundTempAtTimeInSeconds
  simp only [h1, h2, if_false]

theorem buildingSurface_seconds_not_fatal_of_pos (self : SiteBuildingSurfaceGroundTemps) (depth seconds : Real64)
    (h : 0 < seconds) (msg : String) :
    (getGroundTempAtTimeInSeconds self depth seconds).1 ≠ Outcome.fatal msg := by
  unfold getGroundTempAtTimeInSeconds
  by_cases hle : seconds ≤ ((365 * 3600 * 24 / 12 : Int) : ℚ) * 12
  · have h1 : seconds > 0 ∧ seconds ≤ ((365 * 3600 * 24 / 12 : Int) : ℚ) * 12 := ⟨h, hle⟩
    simp only [h1, and_self, if_true]
    split
    · exact buildingSurface_getGroundTemp_ne_fatal _ msg
    · simp
  · have h1 : ¬ (seconds > 0 ∧ seconds ≤ ((365 * 3600 * 24 / 12 : Int) : ℚ) * 12) :=
      fun hc => hle hc.2
    have h2 : seconds > ((365 * 3600 * 24 / 12 : Int) : ℚ) * 12 := not_le.mp hle
    simp only [h1, h2, if_true, if_false]
    split
    · split
      · exact buildingSurface_getGroundTemp_ne_fatal _ msg
      · simp
    · simp

end SiteBuildingSurfaceGroundTemps

namespace SiteDeepGroundTemps

theorem deep_getGroundTemp_ne_fatal (self : SiteDeepGroundTemps) (msg : String) :
    getGroundTemp self ≠ Outcome.fatal msg := by
  unfold getGroundTemp
  cases Array1D.read self.deepGroundTemps self.timeOfSimInMonths <;> simp

theorem deep_seconds_fatal_of_nonpos (self : SiteDeepGroundTemps) (depth seconds : Real64)
    (h : seconds ≤ 0) :
    getGroundTempAtTimeInSeconds self depth seconds =
      (Outcome.fatal
        "Site:GroundTemperature:Deep--Invalid time passed to ground temperature model",
        self) := by
  have h1 : ¬ (seconds > 0 ∧ seconds ≤ ((365 * 3600 * 24 / 12 : Int) : ℚ) * 12) := by
    intro hc; exact absurd hc.1 (not_lt.mpr h)
  have h2 : ¬ (seconds > ((365 * 3600 * 24 / 12 : Int) : ℚ) * 12) := by
    have : (0 : ℚ) < ((365 * 3600 * 24 / 12 : Int) : ℚ) * 12 := by norm_num
    intro hc; linarith
  unfold getGroundTempAtTimeInSeconds
  simp only [h1, h2, if_false]

theorem deep_seconds_not_fatal_of_pos (self : SiteDeepGroundTemps) (depth seconds : Real64)
    (h : 0 < seconds) (msg : String) :
    (getGroundTempAtTimeInSeconds self depth seconds).1 ≠ Outcome.fatal msg := by
  unfold getGroundTempAtTimeInSeconds
  by_cases hle : seconds ≤ ((365 * 3600 * 24 / 12 : Int) : ℚ) * 12
  · have h1 : seconds > 0 ∧ seconds ≤ ((365 * 3600 * 24 / 12 : Int) : ℚ) * 12 := ⟨h, hle⟩
    simp only [h1, and_self, if_true]
    split
    · exact deep_getGroundTemp_ne_fatal _ msg
    · simp
  · have h1 : ¬ (seconds > 0 ∧ seconds ≤ ((365 * 3600 * 24 / 12 : Int) : ℚ) * 12) :=
      fun hc => hle hc.2
    have h2 : seconds > ((365 * 3600 * 24 / 12 : Int) : ℚ) * 12 := not_le.mp hle
    simp only [h1, h2, if_true, if_false]
    split
    · split
      · exact deep_getGroundTemp_ne_fatal _ msg
      · simp
    · simp

end SiteDeepGroundTemps

/-! ## Lemmas on the seconds-to-month conversion -/

theorem secPerMonth_mul_twelve : ((365 * 3600 * 24 / 12 : Int) : ℚ) * 12 = 31536000 := by
  norm_num

theorem toInt_intCast (z : Int) (h1 : -2147483648 ≤ z) (h2 : z ≤ 2147483647) :
    toInt (z : ℚ) = some z := by
  unfold toInt
  by_cases h0 : (0 : ℚ) ≤ (z : ℚ)
  · simp only [h0, if_true, Int.floor_intCast]
    simp [h1, h2]
  · simp only [h0, if_false, Int.ceil_intCast]
    simp [h1, h2]

theorem toInt_intCast_of_gt (z : Int) (h : 2147483647 < z) : toInt (z : ℚ) = none := by
  unfold toInt
  have h0 : (0 : ℚ) ≤ (z : ℚ) := by
    have : (0 : Int) ≤ z := by omega
    exact_mod_cast this
  simp only [h0, if_true, Int.floor_intCast]
  have : ¬ (-2147483648 ≤ z ∧ z ≤ 2147483647) := by omega
  simp [this]

theorem wrapIndex_bounds (k : Int) : -6 ≤ wrapIndex k ∧ wrapIndex k ≤ 6 := by
  unfold wrapIndex
  split_ifs <;> omega

theorem floor_intCast_div_twelve (k : Int) : ⌊(k : ℚ) / 12⌋ = k / 12 := by
  have h := Rat.floor_intCast_div_natCast k 12
  simpa using h

theorem intCast_eq_div_mod_twelve (k : Int) :
    (k : ℚ) = 12 * ((k / 12 : Int) : ℚ) + ((k % 12 : Int) : ℚ) := by
  have h : k = 12 * (k / 12) + k % 12 := (Int.ediv_add_emod k 12).symm
  exact_mod_cast h

theorem remainder_intCast (k : Int) : remainder (k : ℚ) 12 = ((wrapIndex k : Int) : ℚ) := by
  have hk := intCast_eq_div_mod_twelve k
  have hr0 : (0 : ℚ) ≤ ((k % 12 : Int) : ℚ) := by
    have : (0 : Int) ≤ k % 12 := by omega
    exact_mod_cast this
  have hfrac : (k : ℚ) / 12 - ((k / 12 : Int) : ℚ) = ((k % 12 : Int) : ℚ) / 12 := by
    rw [hk]; ring_nf
  have hlt : ((k % 12 : Int) : ℚ) / 12 < 1 / 2 ↔ k % 12 ≤ 5 := by
    constructor
    · intro h
      have h6 : ((k % 12 : Int) : ℚ) < ((6 : Int) : ℚ) := by push_cast; linarith
      have h6i : k % 12 < 6 := by exact_mod_cast h6
      omega
    · intro h
      have h5 : ((k % 12 : Int) : ℚ) ≤ ((5 : Int) : ℚ) := by exact_mod_cast h
      push_cast at h5
      linarith
  have hgt : 1 / 2 < ((k % 12 : Int) : ℚ) / 12 ↔ 7 ≤ k % 12 := by
    constructor
    · intro h
      have h6 : ((6 : Int) : ℚ) < ((k % 12 : Int) : ℚ) := by push_cast; linarith
      have h6i : 6 < k % 12 := by exact_mod_cast h6
      omega
    · intro h
      have h7 : ((7 : Int) : ℚ) ≤ ((k % 12 : Int) : ℚ) := by exact_mod_cast h
      push_cast at h7
      linarith
  unfold remainder
  simp only [floor_intCast_div_twelve, hfrac, hlt, hgt]
  unfold wrapIndex
  by_cases h5 : k % 12 ≤ 5
  · simp only [h5, if_true]
    linarith
  · by_cases h7 : 7 ≤ k % 12
    · simp only [h5, h7, if_true, if_false]
      push_cast
      linarith
    · have h6 : k % 12 = 6 := by omega
      have h6q : ((k % 12 : Int) : ℚ) = 6 := by rw [h6]; norm_num
      simp only [h5, h7, if_false]
      by_cases he : k / 12 % 2 = 0
      · have h24 : k % 24 = 6 := by omega
        simp only [he, h24, if_true]
        push_cast
        linarith
      · have h24 : ¬ k % 24 = 6 := by omega
        simp only [he, h24, if_false]
        push_cast
        linarith

theorem ceil_first_year (s : ℚ) (h0 : 0 < s) (h1 : s ≤ 31536000) : ⌈s / 31536000⌉ = 1 := by
  rw [Int.ceil_eq_iff]
  constructor
  · have : 0 < s / 31536000 := by positivity
    simpa using this
  · rw [div_le_iff₀ (by norm_num)]
    simpa using h1

theorem two_le_ceil_of_later (s : ℚ) (h : 31536000 < s) : 2 ≤ ⌈s / 31536000⌉ := by
  have h1 : (1 : Int) < ⌈s / 31536000⌉ := by
    rw [Int.lt_ceil]
    rw [lt_div_iff₀ (by norm_num)]
    simpa using h
  omega

theorem monthOfSeconds_first_year (s : Real64) (h0 : 0 < s) (h1 : s ≤ 31536000) :
    monthOfSeconds s = some 1 := by
  unfold monthOfSeconds
  simp only [secPerMonth_mul_twelve]
  have hc : s > 0 ∧ s ≤ 31536000 := ⟨h0, h1⟩
  simp only [hc, and_self, if_true, ceil, ceil_first_year s h0 h1]
  exact toInt_intCast 1 (by norm_num) (by norm_num)

theorem monthOfSeconds_later (s : Real64) (h : 31536000 < s)
    (hk : ⌈s / 31536000⌉ ≤ 2147483647) :
    monthOfSeconds s = some (wrapIndex ⌈s / 31536000⌉) := by
  unfold monthOfSeconds
  simp only [secPerMonth_mul_twelve]
  have hc : ¬ (s > 0 ∧ s ≤ 31536000) := fun hc => absurd hc.2 (not_le.mpr h)
  have h2 := two_le_ceil_of_later s h
  have hb := wrapIndex_bounds ⌈s / 31536000⌉
  simp only [hc, if_false, gt_iff_lt, h, if_true, ceil,
    toInt_intCast ⌈s / 31536000⌉ (by omega) hk, remainder_intCast]
  exact toInt_intCast _ (by omega) (by omega)

theorem monthOfSeconds_out_of_range (s : Real64) (h : 0 < s)
    (hk : 2147483647 < ⌈s / 31536000⌉) : monthOfSeconds s = none := by
  have hs : 31536000 < s := by
    by_contra hle
    have := ceil_first_year s h (not_lt.mp hle)
    omega
  unfold monthOfSeconds
  simp only [secPerMonth_mul_twelve]
  have hc : ¬ (s > 0 ∧ s ≤ 31536000) := fun hc => absurd hc.2 (not_le.mpr hs)
  simp only [hc, if_false, gt_iff_lt, hs, if_true, ceil, toInt_intCast_of_gt _ hk]

namespace SiteBuildingSurfaceGroundTemps

theorem buildingSurface_seconds_eq_months (self : SiteBuildingSurfaceGroundTemps) (depth seconds : Real64) (h : 0 < seconds) :
    getGroundTempAtTimeInSeconds self depth seconds =
      match monthOfSeconds seconds with
      | some m => getGroundTempAtTimeInMonths self depth m
      | none => (Outcome.undefinedConversion, self) := by
  unfold getGroundTempAtTimeInSeconds monthOfSeconds getGroundTempAtTimeInMonths
  by_cases hle : seconds ≤ ((365 * 3600 * 24 / 12 : Int) : ℚ) * 12
  · have hc : seconds > 0 ∧ seconds ≤ ((365 * 3600 * 24 / 12 : Int) : ℚ) * 12 := ⟨h, hle⟩
    simp only [hc, and_self, if_true]
  · have hc : ¬ (seconds > 0 ∧ seconds ≤ ((365 * 3600 * 24 / 12 : Int) : ℚ) * 12) :=
      fun hc => hle hc.2
    have h2 : seconds > ((365 * 3600 * 24 / 12 : Int) : ℚ) * 12 := not_le.mp hle
    simp only [hc, h2, if_true, if_false]
    cases toInt (ceil (seconds / (((365 * 3600 * 24 / 12 : Int) : ℚ) * 12))) with
    | none => rfl
    | some month0 => cases toInt (remainder (month0 : ℚ) 12) <;> rfl

theorem buildingSurface_seconds_state (self : SiteBuildingSurfaceGroundTemps) (depth seconds : Real64) :
    (getGroundTempAtTimeInSeconds self depth seconds).2 = self ∨
    ∃ month : Int, (getGroundTempAtTimeInSeconds self depth seconds).2 =
      { self with timeOfSimInMonths := month } := by
  by_cases h : 0 < seconds
  · rw [buildingSurface_seconds_eq_months self depth seconds h]
    cases monthOfSeconds seconds with
    | none => exact Or.inl rfl
    | some m => exact Or.inr ⟨m, rfl⟩
  · rw [buildingSurface_seconds_fatal_of_nonpos self depth seconds (not_lt.mp h)]
    exact Or.inl rfl

theorem buildingSurface_readInput_flags (fresh : SiteBuildingSurfaceGroundTemps) (inp : InputProcessor) (w : State) :
    (readInput fresh inp w).2.GroundTempObjInput =
        (if inp.GetNumObjectsFound = 1 then true else w.GroundTempObjInput) ∧
      (readInput fresh inp w).2.GroundTemp_DeepObjInput = w.GroundTemp_DeepObjInput := by
  unfold readInput
  by_cases h1 : inp.GetNumObjectsFound = 1
  · by_cases h2 : inp.NumNums < 12 <;> simp only [h1, h2, if_true, if_false, State.emit] <;>
      (split_ifs <;> exact ⟨rfl, rfl⟩)
  · by_cases h2 : inp.GetNumObjectsFound > 1 <;> simp [h1, h2, State.emit]

theorem buildingSurface_factory_flags (fresh : SiteBuildingSurfaceGroundTemps) (inp : InputProcessor) (w : State) :
    (BuildingSurfaceGTMFactory fresh inp w).state.GroundTempObjInput =
        (if inp.GetNumObjectsFound = 1 then true else w.GroundTempObjInput) ∧
      (BuildingSurfaceGTMFactory fresh inp w).state.GroundTemp_DeepObjInput = w.GroundTemp_DeepObjInput := by
  have h := buildingSurface_readInput_flags fresh inp w
  unfold BuildingSurfaceGTMFactory
  cases he : (readInput fresh inp w).1.errorsFound <;>
    simp [he, writeInits, State.write, State.emit, h.1, h.2]

end SiteBuildingSurfaceGroundTemps

namespace SiteDeepGroundTemps

theorem deep_seconds_eq_months (self : SiteDeepGroundTemps) (depth seconds : Real64) (h : 0 < seconds) :
    getGroundTempAtTimeInSeconds self depth seconds =
      match monthOfSeconds seconds with
      | some m => getGroundTempAtTimeInMonths self depth m
      | none => (Outcome.undefinedConversion, self) := by
  unfold getGroundTempAtTimeInSeconds monthOfSeconds getGroundTempAtTimeInMonths
  by_cases hle : seconds ≤ ((365 * 3600 * 24 / 12 : Int) : ℚ) * 12
  · have hc : seconds > 0 ∧ seconds ≤ ((365 * 3600 * 24 / 12 : Int) : ℚ) * 12 := ⟨h, hle⟩
    simp only [hc, and_self, if_true]
  · have hc : ¬ (seconds > 0 ∧ seconds ≤ ((365 * 3600 * 24 / 12 : Int) : ℚ) * 12) :=
      fun hc => hle hc.2
    have h2 : seconds > ((365 * 3600 * 24 / 12 : Int) : ℚ) * 12 := not_le.mp hle
    simp only [hc, h2, if_true, if_false]
    cases toInt (ceil (seconds / (((365 * 3600 * 24 / 12 : Int) : ℚ) * 12))) with
    | none => rfl
    | some month0 => cases toInt (remainder (month0 : ℚ) 12) <;> rfl

theorem deep_seconds_state (self : SiteDeepGroundTemps) (depth seconds : Real64) :
    (getGroundTempAtTimeInSeconds self depth seconds).2 = self ∨
    ∃ month : Int, (getGroundTempAtTimeInSeconds self depth seconds).2 =
      { self with timeOfSimInMonths := month } := by
  by_cases h : 0 < seconds
  · rw [deep_seconds_eq_months self depth seconds h]
    cases monthOfSeconds seconds with
    | none => exact Or.inl rfl
    | some m => exact Or.inr ⟨m, rfl⟩
  · rw [deep_seconds_fatal_of_nonpos self depth seconds (not_lt.mp h)]
    exact Or.inl rfl

theorem deep_readInput_flags (fresh : SiteDeepGroundTemps) (inp : InputProcessor) (w : State) :
    (readInput fresh inp w).2.GroundTemp_DeepObjInput =
        (if inp.GetNumObjectsFound = 1 then true else w.GroundTemp_DeepObjInput) ∧
      (readInput fresh inp w).2.GroundTempObjInput = w.GroundTempObjInput := by
  unfold readInput
  by_cases h1 : inp.GetNumObjectsFound = 1
  · by_cases h2 : inp.NumNums < 12 <;> simp [h1, h2, State.emit]
  · by_cases h2 : inp.GetNumObjectsFound > 1 <;> simp [h1, h2, State.emit]

theorem deep_factory_flags (fresh : SiteDeepGroundTemps) (inp : InputProcessor) (w : State) :
    (DeepGTMFactory fresh inp w).state.GroundTemp_DeepObjInput =
        (if inp.GetNumObjectsFound = 1 then true else w.GroundTemp_DeepObjInput) ∧
      (DeepGTMFactory fresh inp w).state.GroundTempObjInput = w.GroundTempObjInput := by
  have h := deep_readInput_flags fresh inp w
  unfold DeepGTMFactory
  cases he : (readInput fresh inp w).1.errorsFound <;>
    simp [he, writeInits, State.write, State.emit, h.1, h.2]

end SiteDeepGroundTemps

namespace SiteBuildingSurfaceGroundTemps

theorem buildingSurface_emitted (fresh : SiteBuildingSurfaceGroundTemps) (inp : InputProcessor)
    (w : State) :
    emittedSince w (BuildingSurfaceGTMFactory fresh inp w).state =
      (if inp.GetNumObjectsFound = 1 then
          (if inp.NumNums < 12 then
            [Diagnostic.ShowSevereError
              "Site:GroundTemperature:BuildingSurface: Less than 12 values entered."]
          else []) ++
          (if ∃ j : Fin 12, inp.rNumericArgs (j.val + 1) < 15 ∨ inp.rNumericArgs (j.val + 1) > 25
          then
            [Diagnostic.ShowWarningError
              "Site:GroundTemperature:BuildingSurface: Some values fall outside the range of 15-25C.",
             Diagnostic.ShowContinueError
              "These values may be inappropriate.  Please consult the Input Output Reference for more details."]
          else [])
        else if 2 ≤ inp.GetNumObjectsFound then
          [Diagnostic.ShowSevereError
            "Site:GroundTemperature:BuildingSurface: Too many objects entered. Only one allowed."]
        else []) ++
      (if (readInput fresh inp w).1.errorsFound = false then []
        else [Diagnostic.ShowContinueError
          "Site:GroundTemperature:BuildingSurface--Errors getting input for ground temperature model"]) := by
  apply emittedSince_of_append
  rw [buildingSurface_factory_errorLog]
  have hcases : inp.GetNumObjectsFound = 0 ∨ inp.GetNumObjectsFound = 1 ∨
      2 ≤ inp.GetNumObjectsFound := by omega
  rcases hcases with h0 | h1 | h2
  · have e0 : (readInput fresh inp w).2.errorLog = w.errorLog := by
      rw [buildingSurface_readInput_zero fresh inp w h0]
    rw [e0]
    simp [h0]
  · rw [buildingSurface_readInput_errorLog_one fresh inp w h1]
    simp only [h1, if_true, List.append_assoc]
  · rw [buildingSurface_readInput_errorLog_many fresh inp w h2]
    have h1 : ¬ inp.GetNumObjectsFound = 1 := by omega
    simp only [h1, h2, if_true, if_false, List.append_assoc]

end SiteBuildingSurfaceGroundTemps

namespace SiteDeepGroundTemps

theorem deep_emitted (fresh : SiteDeepGroundTemps) (inp : InputProcessor) (w : State) :
    emittedSince w (DeepGTMFactory fresh inp w).state =
      (if inp.GetNumObjectsFound = 1 then
          (if inp.NumNums < 12 then
            [Diagnostic.ShowSevereError "Site:GroundTemperature:Deep: Less than 12 values entered."]
          else [])
        else if 2 ≤ inp.GetNumObjectsFound then
          [Diagnostic.ShowSevereError
            "Site:GroundTemperature:Deep: Too many objects entered. Only one allowed."]
        else []) ++
      (if (readInput fresh inp w).1.errorsFound = false then []
        else [Diagnostic.ShowContinueError
          "Site:GroundTemperature:Deep--Errors getting input for ground temperature model"]) := by
  apply emittedSince_of_append
  rw [deep_factory_errorLog]
  have hcases : inp.GetNumObjectsFound = 0 ∨ inp.GetNumObjectsFound = 1 ∨
      2 ≤ inp.GetNumObjectsFound := by omega
  rcases hcases with h0 | h1 | h2
  · have e0 : (readInput fresh inp w).2.errorLog = w.errorLog := by
      rw [deep_readInput_zero fresh inp w h0]
    rw [e0]
    simp [h0]
  · rw [deep_readInput_errorLog_one fresh inp w h1]
    simp only [h1, if_true, List.append_assoc]
  · rw [deep_readInput_errorLog_many fresh inp w h2]
    have h1 : ¬ inp.GetNumObjectsFound = 1 := by omega
    simp only [h1, h2, if_true, if_false, List.append_assoc]

end SiteDeepGroundTemps

namespace SiteBuildingSurfaceGroundTemps

theorem buildingSurface_getGroundTemp_cases (self : SiteBuildingSurfaceGroundTemps) :
    (∃ j : Fin 12, (j.val : Int) + 1 = self.timeOfSimInMonths ∧
        getGroundTemp self = Outcome.value (self.buildingSurfaceGroundTemps j)) ∨
    ((self.timeOfSimInMonths < 1 ∨ 12 < self.timeOfSimInMonths) ∧
        getGroundTemp self = Outcome.undefinedRead) := by
  by_cases h : 1 ≤ self.timeOfSimInMonths ∧ self.timeOfSimInMonths ≤ 12
  · left
    refine ⟨⟨(self.timeOfSimInMonths - 1).toNat, by omega⟩, ?_, ?_⟩
    · simp only []
      omega
    · simp [getGroundTemp, Array1D.read, h]
  · right
    refine ⟨by omega, ?_⟩
    simp [getGroundTemp, Array1D.read, h]

end SiteBuildingSurfaceGroundTemps

namespace SiteDeepGroundTemps

theorem deep_getGroundTemp_cases (self : SiteDeepGroundTemps) :
    (∃ j : Fin 12, (j.val : Int) + 1 = self.timeOfSimInMonths ∧
        getGroundTemp self = Outcome.value (self.deepGroundTemps j)) ∨
    ((self.timeOfSimInMonths < 1 ∨ 12 < self.timeOfSimInMonths) ∧
        getGroundTemp self = Outcome.undefinedRead) := by
  by_cases h : 1 ≤ self.timeOfSimInMonths ∧ self.timeOfSimInMonths ≤ 12
  · left
    refine ⟨⟨(self.timeOfSimInMonths - 1).toNat, by omega⟩, ?_, ?_⟩
    · simp only []
      omega
    · simp [getGroundTemp, Array1D.read, h]
  · right
    refine ⟨by omega, ?_⟩
    simp [getGroundTemp, Array1D.read, h]

end SiteDeepGroundTemps

namespace SiteBuildingSurfaceGroundTemps

theorem buildingSurface_failure_messages (fresh : SiteBuildingSurfaceGroundTemps) (inp : InputProcessor) (w : State)
    (hf : fresh.errorsFound = false) :
    ((Diagnostic.ShowContinueError
          "Site:GroundTemperature:BuildingSurface--Errors getting input for ground temperature model" ∈ emittedSince w (BuildingSurfaceGTMFactory fresh inp w).state
        ↔ (BuildingSurfaceGTMFactory fresh inp w).returned = none) ∧
      (emittedSince w (BuildingSurfaceGTMFactory fresh inp w).state).countP Diagnostic.isSevere
        = (if (BuildingSurfaceGTMFactory fresh inp w).returned.isSome then 0 else 1) ∧
      ((BuildingSurfaceGTMFactory fresh inp w).returned.isSome = true ∨
        ∃ msg rest, emittedSince w (BuildingSurfaceGTMFactory fresh inp w).state
            = Diagnostic.ShowSevereError msg :: (rest ++ [Diagnostic.ShowContinueError
          "Site:GroundTemperature:BuildingSurface--Errors getting input for ground temperature model"]) ∧
          Diagnostic.ShowContinueError
          "Site:GroundTemperature:BuildingSurface--Errors getting input for ground temperature model" ∉ rest ∧
          rest.countP Diagnostic.isSevere = 0)) := by
  rw [buildingSurface_emitted, buildingSurface_factory_returned, buildingSurface_readInput_errorsFound]
  have hcases : inp.GetNumObjectsFound = 0 ∨ inp.GetNumObjectsFound = 1 ∨
      2 ≤ inp.GetNumObjectsFound := by omega
  rcases hcases with h0 | h1 | h2
  · simp [h0, hf]
  · by_cases h12 : inp.NumNums < 12
    · by_cases hg : ∃ j : Fin 12,
          inp.rNumericArgs (j.val + 1) < 15 ∨ inp.rNumericArgs (j.val + 1) > 25
      · simp only [h1, h12, hg, if_true]
        refine ⟨by simp, by simp [Diagnostic.isSevere], Or.inr ⟨_, _, rfl, by simp, rfl⟩⟩
      · simp only [h1, h12, hg, if_true, if_false]
        refine ⟨by simp, by simp [Diagnostic.isSevere], Or.inr ⟨_, [], rfl, by simp, rfl⟩⟩
    · by_cases hg : ∃ j : Fin 12,
          inp.rNumericArgs (j.val + 1) < 15 ∨ inp.rNumericArgs (j.val + 1) > 25
      · simp [h1, h12, hg, hf, Diagnostic.isSevere]
      · simp [h1, h12, hg, hf]
  · have h1 : ¬ inp.GetNumObjectsFound = 1 := by omega
    have hgt : inp.GetNumObjectsFound > 1 := by omega
    simp only [h1, h2, hgt, if_true, if_false]
    refine ⟨by simp, by simp [Diagnostic.isSevere], Or.inr ⟨_, [], rfl, by simp, rfl⟩⟩

end SiteBuildingSurfaceGroundTemps

namespace SiteDeepGroundTemps

theorem deep_failure_messages (fresh : SiteDeepGroundTemps) (inp : InputProcessor) (w : State)
    (hf : fresh.errorsFound = false) :
    ((Diagnostic.ShowContinueError
          "Site:GroundTemperature:Deep--Errors getting input for ground temperature model" ∈ emittedSince w (DeepGTMFactory fresh inp w).state
        ↔ (DeepGTMFactory fresh inp w).returned = none) ∧
      (emittedSince w (DeepGTMFactory fresh inp w).state).countP Diagnostic.isSevere
        = (if (DeepGTMFactory fresh inp w).returned.isSome then 0 else 1) ∧
      ((DeepGTMFactory fresh inp w).returned.isSome = true ∨
        ∃ msg rest, emittedSince w (DeepGTMFactory fresh inp w).state
            = Diagnostic.ShowSevereError msg :: (rest ++ [Diagnostic.ShowContinueError
          "Site:GroundTemperature:Deep--Errors getting input for ground temperature model"]) ∧
          Diagnostic.ShowContinueError
          "Site:GroundTemperature:Deep--Errors getting input for ground temperature model" ∉ rest ∧
          rest.countP Diagnostic.isSevere = 0)) := by
  rw [deep_emitted, deep_factory_returned, deep_readInput_errorsFound]
  have hcases : inp.GetNumObjectsFound = 0 ∨ inp.GetNumObjectsFound = 1 ∨
      2 ≤ inp.GetNumObjectsFound := by omega
  rcases hcases with h0 | h1 | h2
  · simp [h0, hf]
  · by_cases h12 : inp.NumNums < 12
    · simp only [h1, h12, if_true]
      refine ⟨by simp, by simp [Diagnostic.isSevere], Or.inr ⟨_, [], rfl, by simp, rfl⟩⟩
    · simp [h1, h12, hf]
  · have h1 : ¬ inp.GetNumObjectsFound = 1 := by omega
    have hgt : inp.GetNumObjectsFound > 1 := by omega
    simp only [h1, h2, hgt, if_true, if_false]
    refine ⟨by simp, by simp [Diagnostic.isSevere], Or.inr ⟨_, [], rfl, by simp, rfl⟩⟩

end SiteDeepGroundTemps

theorem monthOfSeconds_range (s : Real64) (h : 0 < s) (hk : ⌈s / 31536000⌉ ≤ 2147483647) :
    ∃ m : Int, monthOfSeconds s = some m ∧ -6 ≤ m ∧ m ≤ 6 := by
  by_cases hs : s ≤ 31536000
  · exact ⟨1, monthOfSeconds_first_year s h hs, by norm_num, by norm_num⟩
  · have hb := wrapIndex_bounds ⌈s / 31536000⌉
    exact ⟨_, monthOfSeconds_later s (not_le.mp hs) hk, hb.1, hb.2⟩

namespace SiteBuildingSurfaceGroundTemps

theorem buildingSurface_seconds_index_range (self : SiteBuildingSurfaceGroundTemps) (depth seconds : Real64)
    (h : 0 < seconds) (hk : ⌈seconds / 31536000⌉ ≤ 2147483647) :
    -6 ≤ (getGroundTempAtTimeInSeconds self depth seconds).2.timeOfSimInMonths ∧
    (getGroundTempAtTimeInSeconds self depth seconds).2.timeOfSimInMonths ≤ 6 ∧
    ((getGroundTempAtTimeInSeconds self depth seconds).1 = Outcome.undefinedRead ∨
      ∃ j : Fin 12, j.val < 6 ∧
        (getGroundTempAtTimeInSeconds self depth seconds).1 = Outcome.value (self.buildingSurfaceGroundTemps j)) := by
  obtain ⟨m, hm, hlo, hhi⟩ := monthOfSeconds_range seconds h hk
  rw [buildingSurface_seconds_eq_months self depth seconds h, hm]
  refine ⟨hlo, hhi, ?_⟩
  rcases buildingSurface_getGroundTemp_cases { self with timeOfSimInMonths := m } with
    ⟨j, hj, hv⟩ | ⟨_, hu⟩
  · right
    refine ⟨j, ?_, hv⟩
    simp only [] at hj
    omega
  · left
    exact hu

end SiteBuildingSurfaceGroundTemps

namespace SiteDeepGroundTemps

theorem deep_seconds_index_range (self : SiteDeepGroundTemps) (depth seconds : Real64)
    (h : 0 < seconds) (hk : ⌈seconds / 31536000⌉ ≤ 2147483647) :
    -6 ≤ (getGroundTempAtTimeInSeconds self depth seconds).2.timeOfSimInMonths ∧
    (getGroundTempAtTimeInSeconds self depth seconds).2.timeOfSimInMonths ≤ 6 ∧
    ((getGroundTempAtTimeInSeconds self depth seconds).1 = Outcome.undefinedRead ∨
      ∃ j : Fin 12, j.val < 6 ∧
        (getGroundTempAtTimeInSeconds self depth seconds).1 = Outcome.value (self.deepGroundTemps j)) := by
  obtain ⟨m, hm, hlo, hhi⟩ := monthOfSeconds_range seconds h hk
  rw [deep_seconds_eq_months self depth seconds h, hm]
  refine ⟨hlo, hhi, ?_⟩
  rcases deep_getGroundTemp_cases { self with timeOfSimInMonths := m } with
    ⟨j, hj, hv⟩ | ⟨_, hu⟩
  · right
    refine ⟨j, ?_, hv⟩
    simp only [] at hj
    omega
  · left
    exact hu

end SiteDeepGroundTemps

theorem wrapIndex_add_twenty_four (k : Int) : wrapIndex (k + 24) = wrapIndex k := by
  unfold wrapIndex
  have h12 : (k + 24) % 12 = k % 12 := by omega
  have h24 : (k + 24) % 24 = k % 24 := by omega
  rw [h12, h24]

theorem ceil_add_twenty_four_years (s : ℚ) :
    ⌈(s + 24 * 31536000) / 31536000⌉ = ⌈s / 31536000⌉ + 24 := by
  have h : (s + 24 * 31536000) / 31536000 = s / 31536000 + ((24 : Int) : ℚ) := by
    push_cast
    ring
  rw [h, Int.ceil_add_int]

theorem monthOfSeconds_add_twenty_four_years (s : Real64) (hs : 31536000 < s)
    (hk : ⌈(s + 24 * 31536000) / 31536000⌉ ≤ 2147483647) :
    monthOfSeconds (s + 24 * 31536000) = monthOfSeconds s := by
  have hc := ceil_add_twenty_four_years s
  have hs2 : (31536000 : ℚ) < s + 24 * 31536000 := by linarith
  rw [monthOfSeconds_later (s + 24 * 31536000) hs2 hk,
    monthOfSeconds_later s hs (by omega), hc, wrapIndex_add_twenty_four]

theorem monthOfSeconds_six_years : monthOfSeconds 189216000 = some 6 := by
  have c : ⌈(189216000 : ℚ) / 31536000⌉ = 6 := by
    rw [Int.ceil_eq_iff]; constructor <;> norm_num
  rw [monthOfSeconds_later 189216000 (by norm_num) (by rw [c]; norm_num), c]
  rfl

theorem monthOfSeconds_eighteen_years : monthOfSeconds 567648000 = some (-6) := by
  have c : ⌈(567648000 : ℚ) / 31536000⌉ = 18 := by
    rw [Int.ceil_eq_iff]; constructor <;> norm_num
  rw [monthOfSeconds_later 567648000 (by norm_num) (by rw [c]; norm_num), c]
  rfl

theorem monthOfSeconds_last_int_years : monthOfSeconds 67723044134112000 = some 2 := by
  have c : ⌈(67723044134112000 : ℚ) / 31536000⌉ = 2147483642 := by
    rw [Int.ceil_eq_iff]; constructor <;> norm_num
  rw [monthOfSeconds_later 67723044134112000 (by norm_num) (by rw [c]; norm_num), c]
  rfl

theorem monthOfSeconds_beyond_int_years :
    monthOfSeconds (67723044134112000 + 24 * 31536000) = none := by
  have c : ⌈((67723044134112000 : ℚ) + 24 * 31536000) / 31536000⌉ = 2147483666 := by
    rw [Int.ceil_eq_iff]; constructor <;> norm_num
  exact monthOfSeconds_out_of_range _ (by norm_num) (by rw [c]; norm_num)

/-! ## Lemmas relating the two variants -/

theorem renameVariant_less :
    renameVariant "Site:GroundTemperature:BuildingSurface: Less than 12 values entered."
      = "Site:GroundTemperature:Deep: Less than 12 values entered." := by decide

theorem renameVariant_many :
    renameVariant
        "Site:GroundTemperature:BuildingSurface: Too many objects entered. Only one allowed."
      = "Site:GroundTemperature:Deep: Too many objects entered. Only one allowed." := by decide

theorem renameVariant_errors :
    renameVariant
        "Site:GroundTemperature:BuildingSurface--Errors getting input for ground temperature model"
      = "Site:GroundTemperature:Deep--Errors getting input for ground temperature model" := by
  decide

theorem deep_emitted_of_buildingSurface (freshB : SiteBuildingSurfaceGroundTemps)
    (freshD : SiteDeepGroundTemps) (inp : InputProcessor) (w : State)
    (hf : freshD.errorsFound = freshB.errorsFound) :
    emittedSince w (SiteDeepGroundTemps.DeepGTMFactory freshD inp w).state =
      (dropRangeAdvisory (emittedSince w
        (SiteBuildingSurfaceGroundTemps.BuildingSurfaceGTMFactory freshB inp w).state)).map
          Diagnostic.renameVariant := by
  rw [SiteBuildingSurfaceGroundTemps.buildingSurface_emitted, SiteDeepGroundTemps.deep_emitted,
    SiteBuildingSurfaceGroundTemps.buildingSurface_readInput_errorsFound,
    SiteDeepGroundTemps.deep_readInput_errorsFound, hf]
  have hcases : inp.GetNumObjectsFound = 0 ∨ inp.GetNumObjectsFound = 1 ∨
      2 ≤ inp.GetNumObjectsFound := by omega
  rcases hcases with h0 | h1 | h2
  · cases hb : freshB.errorsFound <;>
      simp [h0, dropRangeAdvisory, Diagnostic.renameVariant, renameVariant_errors]
  · by_cases h12 : inp.NumNums < 12
    · by_cases hg : ∃ j : Fin 12,
          inp.rNumericArgs (j.val + 1) < 15 ∨ inp.rNumericArgs (j.val + 1) > 25
      · simp [h1, h12, hg, dropRangeAdvisory, Diagnostic.renameVariant, renameVariant_errors,
          renameVariant_less]
      · simp only [h1, h12, hg, if_true, if_false]
        simp [dropRangeAdvisory, Diagnostic.renameVariant, renameVariant_errors,
          renameVariant_less]
    · by_cases hg : ∃ j : Fin 12,
          inp.rNumericArgs (j.val + 1) < 15 ∨ inp.rNumericArgs (j.val + 1) > 25
      · cases hb : freshB.errorsFound <;>
          simp [h1, h12, hg, dropRangeAdvisory, Diagnostic.renameVariant,
            renameVariant_errors]
      · cases hb : freshB.errorsFound <;>
          (simp only [h1, h12, hg, if_true, if_false]
           simp [dropRangeAdvisory, Diagnostic.renameVariant, renameVariant_errors])
  · have h1 : ¬ inp.GetNumObjectsFound = 1 := by omega
    have hgt : inp.GetNumObjectsFound > 1 := by omega
    simp [h1, h2, hgt, dropRangeAdvisory, Diagnostic.renameVariant, renameVariant_errors,
      renameVariant_many]

theorem buildingSurface_thisModel_temps (fresh : SiteBuildingSurfaceGroundTemps) (inp : InputProcessor) (w : State)
    (j : Fin 12) :
    (SiteBuildingSurfaceGroundTemps.BuildingSurfaceGTMFactory fresh inp w).thisModel.buildingSurfaceGroundTemps j =
      (if inp.GetNumObjectsFound = 1 then inp.rNumericArgs (j.val + 1)
       else if inp.GetNumObjectsFound = 0 then 18 else fresh.buildingSurfaceGroundTemps j) := by
  rw [SiteBuildingSurfaceGroundTemps.buildingSurface_factory_thisModel]
  have hcases : inp.GetNumObjectsFound = 0 ∨ inp.GetNumObjectsFound = 1 ∨
      2 ≤ inp.GetNumObjectsFound := by omega
  rcases hcases with h0 | h1 | h2
  · rw [SiteBuildingSurfaceGroundTemps.buildingSurface_readInput_zero fresh inp w h0]
    simp [h0]
  · rw [SiteBuildingSurfaceGroundTemps.buildingSurface_readInput_temps_of_one fresh inp w h1]
    simp [h1]
  · have h1 : ¬ inp.GetNumObjectsFound = 1 := by omega
    have h0 : ¬ inp.GetNumObjectsFound = 0 := by omega
    have hgt : inp.GetNumObjectsFound > 1 := by omega
    simp [SiteBuildingSurfaceGroundTemps.readInput, h0, h1, hgt]

theorem deep_thisModel_temps (fresh : SiteDeepGroundTemps) (inp : InputProcessor) (w : State)
    (j : Fin 12) :
    (SiteDeepGroundTemps.DeepGTMFactory fresh inp w).thisModel.deepGroundTemps j =
      (if inp.GetNumObjectsFound = 1 then inp.rNumericArgs (j.val + 1)
       else if inp.GetNumObjectsFound = 0 then 16 else fresh.deepGroundTemps j) := by
  rw [SiteDeepGroundTemps.deep_factory_thisModel]
  have hcases : inp.GetNumObjectsFound = 0 ∨ inp.GetNumObjectsFound = 1 ∨
      2 ≤ inp.GetNumObjectsFound := by omega
  rcases hcases with h0 | h1 | h2
  · rw [SiteDeepGroundTemps.deep_readInput_zero fresh inp w h0]
    simp [h0]
  · rw [SiteDeepGroundTemps.deep_readInput_temps_of_one fresh inp w h1]
    simp [h1]
  · have h1 : ¬ inp.GetNumObjectsFound = 1 := by omega
    have h0 : ¬ inp.GetNumObjectsFound = 0 := by omega
    have hgt : inp.GetNumObjectsFound > 1 := by omega
    simp [SiteDeepGroundTemps.readInput, h0, h1, hgt]

theorem lookups_agree (selfB : SiteBuildingSurfaceGroundTemps) (selfD : SiteDeepGroundTemps)
    (depth seconds : Real64) (month : Int)
    (ht : selfD.deepGroundTemps = selfB.buildingSurfaceGroundTemps)
    (hi : selfD.timeOfSimInMonths = selfB.timeOfSimInMonths) :
    (SiteDeepGroundTemps.getGroundTemp selfD = SiteBuildingSurfaceGroundTemps.getGroundTemp selfB ∧
      (SiteDeepGroundTemps.getGroundTempAtTimeInMonths selfD depth month).1
        = (SiteBuildingSurfaceGroundTemps.getGroundTempAtTimeInMonths selfB depth month).1 ∧
      (SiteDeepGroundTemps.getGroundTempAtTimeInMonths selfD depth month).2.timeOfSimInMonths
        = (SiteBuildingSurfaceGroundTemps.getGroundTempAtTimeInMonths selfB depth
            month).2.timeOfSimInMonths ∧
      (SiteDeepGroundTemps.getGroundTempAtTimeInSeconds selfD depth seconds).2.timeOfSimInMonths
        = (SiteBuildingSurfaceGroundTemps.getGroundTempAtTimeInSeconds selfB depth
            seconds).2.timeOfSimInMonths ∧
      ((SiteDeepGroundTemps.getGroundTempAtTimeInSeconds selfD depth seconds).1
          = (SiteBuildingSurfaceGroundTemps.getGroundTempAtTimeInSeconds selfB depth seconds).1 ∨
        (seconds ≤ 0 ∧
          (SiteBuildingSurfaceGroundTemps.getGroundTempAtTimeInSeconds selfB depth seconds).1
            = Outcome.fatal
              "Site:GroundTemperature:BuildingSurface--Invalid time passed to ground temperature model" ∧
          (SiteDeepGroundTemps.getGroundTempAtTimeInSeconds selfD depth seconds).1
            = Outcome.fatal
              "Site:GroundTemperature:Deep--Invalid time passed to ground temperature model"))) := by
  obtain ⟨eB, tB, aB⟩ := selfB
  obtain ⟨eD, tD, aD⟩ := selfD
  simp only [] at ht hi
  subst ht
  subst hi
  refine ⟨rfl, rfl, rfl, ?_⟩
  by_cases h : 0 < seconds
  · rw [SiteDeepGroundTemps.deep_seconds_eq_months _ depth seconds h,
      SiteBuildingSurfaceGroundTemps.buildingSurface_seconds_eq_months _ depth seconds h]
    cases monthOfSeconds seconds with
    | none => exact ⟨rfl, Or.inl rfl⟩
    | some m => exact ⟨rfl, Or.inl rfl⟩
  · have hle : seconds ≤ 0 := not_lt.mp h
    rw [SiteDeepGroundTemps.deep_seconds_fatal_of_nonpos _ depth seconds hle,
      SiteBuildingSurfaceGroundTemps.buildingSurface_seconds_fatal_of_nonpos _ depth seconds hle]
    exact ⟨rfl, Or.inr ⟨hle, rfl, rfl⟩⟩

/-! ## Lemmas on the `double` arithmetic -/

theorem roundHalfEven_le_of_le (q : ℚ) (N : Int) (h : q ≤ (N : ℚ)) : roundHalfEven q ≤ N := by
  have hfl : ((⌊q⌋ : Int) : ℚ) ≤ q := Int.floor_le q
  have hfN : ⌊q⌋ ≤ N := by
    have : ((⌊q⌋ : Int) : ℚ) ≤ (N : ℚ) := le_trans hfl h
    exact_mod_cast this
  have hstep : ¬ (q - ((⌊q⌋ : Int) : ℚ) < 1 / 2) → ⌊q⌋ + 1 ≤ N := by
    intro hn
    by_contra hc
    have hge : N ≤ ⌊q⌋ := by omega
    have hgeq : (N : ℚ) ≤ ((⌊q⌋ : Int) : ℚ) := by exact_mod_cast hge
    apply hn
    linarith
  unfold roundHalfEven
  simp only []
  split_ifs with h1 h2 h3
  · exact hfN
  · exact hstep h1
  · exact hfN
  · exact hstep h1

theorem one_le_roundHalfEven (q : ℚ) (h : 1 / 2 < q) : 1 ≤ roundHalfEven q := by
  have hq0 : (0 : ℚ) ≤ q := by linarith
  have hf0 : 0 ≤ ⌊q⌋ := Int.floor_nonneg.mpr hq0
  have hpos : q - ((⌊q⌋ : Int) : ℚ) ≤ 1 / 2 → 1 ≤ ⌊q⌋ := by
    intro hle
    have : (0 : ℚ) < ((⌊q⌋ : Int) : ℚ) := by linarith
    have h0 : (0 : Int) < ⌊q⌋ := by exact_mod_cast this
    omega
  unfold roundHalfEven
  simp only []
  split_ifs with h1 h2 h3
  · exact hpos (le_of_lt h1)
  · omega
  · exact hpos (not_lt.mp h2)
  · omega

theorem roundHalfEven_eq_zero (q : ℚ) (h0 : 0 ≤ q) (h1 : q ≤ 1 / 2) : roundHalfEven q = 0 := by
  have hf : ⌊q⌋ = 0 := by
    rw [Int.floor_eq_iff]
    constructor
    · simpa using h0
    · norm_num
      linarith
  unfold roundHalfEven
  simp only [hf]
  norm_num
  intro _
  exact h1

theorem inv_two_pow_le_one (n : ℕ) : (1 : ℚ) / 2 ^ n ≤ 1 := by
  rw [div_le_one (by positivity)]
  exact one_le_pow₀ (by norm_num)

theorem inv_two_pow_lt (m n : ℕ) (h : m < n) : (1 : ℚ) / 2 ^ n < 1 / 2 ^ m := by
  apply one_div_lt_one_div_of_lt (by positivity)
  exact pow_lt_pow_right₀ (by norm_num) h

theorem two_zpow_neg (n : ℕ) : (2 : ℚ) ^ (-(n : ℤ)) = 1 / 2 ^ n := by
  rw [zpow_neg, zpow_natCast, one_div]

theorem half_mul_inv_two_pow (n m : ℕ) (h : m = n + 1) :
    (1 : ℚ) / 2 * (1 / 2 ^ n) = 1 / 2 ^ m := by
  subst h
  rw [pow_succ]
  field_simp
  ring

theorem two_zpow_subnormal : (2 : ℚ) ^ ((-1022 : ℤ) - 52) = 1 / 2 ^ 1074 := by
  have e : ((-1022 : ℤ) - 52) = -((1074 : ℕ) : ℤ) := by norm_num
  rw [e, two_zpow_neg]

theorem one_lt_two_zpow_max : (1 : ℚ) < (2 : ℚ) ^ (1024 : ℤ) := by
  have h : (2 : ℚ) ^ (0 : ℤ) < (2 : ℚ) ^ (1024 : ℤ) :=
    zpow_lt_zpow_right₀ (by norm_num) (by norm_num)
  simpa using h

theorem roundToDouble_underflow (x : ℚ) (h0 : 0 < x) (h : x ≤ 1 / 2 ^ 1075) :
    roundToDouble x = Double.finite 0 := by
  have habs : |x| = x := abs_of_pos h0
  have hlt : x < ((2 : ℕ) : ℚ) ^ (-1022 : ℤ) := by
    have e : ((2 : ℕ) : ℚ) ^ (-1022 : ℤ) = 1 / 2 ^ 1022 := by
      have := two_zpow_neg 1022
      simpa using this
    rw [e]
    exact lt_of_le_of_lt h (inv_two_pow_lt 1022 1075 (by norm_num))
  have hL : Int.log 2 x < -1022 := (Int.lt_zpow_iff_log_lt (by norm_num) h0).1 hlt
  have he : max (Int.log 2 x) (-1022) = -1022 := max_eq_right (le_of_lt hL)
  have hu : (2 : ℚ) ^ ((-1022 : ℤ) - 52) = 1 / 2 ^ 1074 := two_zpow_subnormal
  have hy : roundHalfEven (x / (2 : ℚ) ^ ((-1022 : ℤ) - 52)) = 0 := by
    apply roundHalfEven_eq_zero
    · positivity
    · rw [hu, div_le_iff₀ (by positivity)]
      have h3 : (1 : ℚ) / 2 * (1 / 2 ^ 1074) = 1 / 2 ^ 1075 := half_mul_inv_two_pow 1074 1075 (by norm_num)
      rw [h3]
      exact h
  have hbig := one_lt_two_zpow_max
  unfold roundToDouble
  simp only [habs, he, hy, Int.cast_zero, zero_mul]
  rw [if_neg (by linarith), if_neg (by linarith)]

theorem roundToDouble_unit (x : ℚ) (hu : 1 / 2 ^ 1075 < x) (h1 : x ≤ 1) :
    ∃ r : ℚ, roundToDouble x = Double.finite r ∧ 0 < r ∧ r ≤ 1 := by
  have hx0 : 0 < x := lt_trans (by positivity) hu
  have habs : |x| = x := abs_of_pos hx0
  have hL0 : Int.log 2 x < 1 := by
    apply (Int.lt_zpow_iff_log_lt (by norm_num) hx0).1
    norm_num
    linarith
  have he0 : max (Int.log 2 x) (-1022) ≤ 0 := max_le (by omega) (by norm_num)
  have hupos : (0 : ℚ) < (2 : ℚ) ^ (max (Int.log 2 x) (-1022) - 52) :=
    zpow_pos (by norm_num) _
  have hN : (((2 : Int) ^ (52 - max (Int.log 2 x) (-1022)).toNat : Int) : ℚ)
      * (2 : ℚ) ^ (max (Int.log 2 x) (-1022) - 52) = 1 := by
    have hcast : (((52 - max (Int.log 2 x) (-1022)).toNat : ℕ) : ℤ)
        = 52 - max (Int.log 2 x) (-1022) := Int.toNat_of_nonneg (by omega)
    have hpow : (((2 : Int) ^ (52 - max (Int.log 2 x) (-1022)).toNat : Int) : ℚ)
        = (2 : ℚ) ^ (52 - max (Int.log 2 x) (-1022)) := by
      rw [← hcast, zpow_natCast]
      push_cast
      rw [hcast]
    rw [hpow, ← zpow_add₀ (by norm_num : (2 : ℚ) ≠ 0)]
    have hz : 52 - max (Int.log 2 x) (-1022) + (max (Int.log 2 x) (-1022) - 52) = 0 := by ring
    rw [hz, zpow_zero]
  have h2x : (2 : ℚ) ^ (max (Int.log 2 x) (-1022) - 52) < 2 * x := by
    by_cases hc : -1022 ≤ Int.log 2 x
    · rw [max_eq_left hc]
      have ha : (2 : ℚ) ^ (Int.log 2 x - 52) ≤ (2 : ℚ) ^ (Int.log 2 x) :=
        zpow_le_zpow_right₀ (by norm_num) (by omega)
      have hb : ((2 : ℕ) : ℚ) ^ (Int.log 2 x) ≤ x := Int.zpow_log_le_self (by norm_num) hx0
      have hb2 : (2 : ℚ) ^ (Int.log 2 x) ≤ x := by simpa using hb
      linarith
    · rw [max_eq_right (by omega)]
      have hv : (2 : ℚ) ^ ((-1022 : ℤ) - 52) = 2 * (1 / 2 ^ 1075) := by
        rw [two_zpow_subnormal, ← half_mul_inv_two_pow 1074 1075 (by norm_num)]
        ring
      rw [hv]
      linarith
  have hy : 1 / 2 < x / (2 : ℚ) ^ (max (Int.log 2 x) (-1022) - 52) := by
    rw [lt_div_iff₀ hupos]
    linarith
  have hyN : x / (2 : ℚ) ^ (max (Int.log 2 x) (-1022) - 52)
      ≤ (((2 : Int) ^ (52 - max (Int.log 2 x) (-1022)).toNat : Int) : ℚ) := by
    rw [div_le_iff₀ hupos, hN]
    exact h1
  have hk1 := one_le_roundHalfEven _ hy
  have hkN := roundHalfEven_le_of_le _ _ hyN
  have hk1q : (1 : ℚ) ≤
      ((roundHalfEven (x / (2 : ℚ) ^ (max (Int.log 2 x) (-1022) - 52)) : Int) : ℚ) := by
    exact_mod_cast hk1
  have hkNq : ((roundHalfEven (x / (2 : ℚ) ^ (max (Int.log 2 x) (-1022) - 52)) : Int) : ℚ)
      ≤ (((2 : Int) ^ (52 - max (Int.log 2 x) (-1022)).toNat : Int) : ℚ) := by
    exact_mod_cast hkN
  have hr0 : 0 < ((roundHalfEven (x / (2 : ℚ) ^ (max (Int.log 2 x) (-1022) - 52)) : Int) : ℚ)
      * (2 : ℚ) ^ (max (Int.log 2 x) (-1022) - 52) :=
    mul_pos (by linarith) hupos
  have hr1 : ((roundHalfEven (x / (2 : ℚ) ^ (max (Int.log 2 x) (-1022) - 52)) : Int) : ℚ)
      * (2 : ℚ) ^ (max (Int.log 2 x) (-1022) - 52) ≤ 1 := by
    rw [← hN]
    exact mul_le_mul_of_nonneg_right hkNq (le_of_lt hupos)
  have hbig : (1 : ℚ) < (2 : ℚ) ^ (1024 : ℤ) := one_lt_two_zpow_max
  refine ⟨_, ?_, hr0, hr1⟩
  unfold roundToDouble
  simp only [habs]
  rw [if_neg (by linarith), if_neg (by linarith)]

theorem Double.pos_of_lt_year (s : Double)
    (h : Double.lt (Double.finite 31536000) s = true) : Double.lt (Double.finite 0) s = true := by
  cases s with
  | finite q =>
    simp only [Double.lt, decide_eq_true_eq] at h ⊢
    linarith
  | posInf => rfl
  | negInf => simp [Double.lt] at h
  | nan => simp [Double.lt] at h

theorem Double.lt_year_of_pos_of_not_le (s : Double)
    (h0 : Double.lt (Double.finite 0) s = true)
    (h1 : Double.le s (Double.finite 31536000) = false) :
    Double.lt (Double.finite 31536000) s = true := by
  cases s with
  | finite q =>
    simp only [Double.lt, Double.le, decide_eq_true_eq, decide_eq_false_iff_not] at h1 ⊢
    exact not_le.mp h1
  | posInf => rfl
  | negInf => simp [Double.lt] at h0
  | nan => simp [Double.lt] at h0

theorem ceil_roundToDouble_first_year (s : ℚ) (h1 : s ≤ 31536000)
    (hu : 1 / 2 ^ 1075 < s / 31536000) :
    Double.ceil (roundToDouble (s / 31536000)) = Double.finite 1 := by
  have hq1 : s / 31536000 ≤ 1 := by
    rw [div_le_iff₀ (by norm_num)]
    linarith
  obtain ⟨r, hr, hr0, hr1⟩ := roundToDouble_unit (s / 31536000) hu hq1
  rw [hr]
  have hc : ⌈r⌉ = 1 := by
    rw [Int.ceil_eq_iff]
    constructor
    · simpa using hr0
    · simpa using hr1
  simp only [Double.ceil, hc]
  norm_num

namespace SiteBuildingSurfaceGroundTemps

theorem buildingSurface_double_fatal_of_not_pos (self : SiteBuildingSurfaceGroundTemps) (depth seconds : Double)
    (h : Double.lt (Double.finite 0) seconds = false) :
    getGroundTempAtTimeInSecondsDouble self depth seconds =
      (Outcome.fatal "Site:GroundTemperature:BuildingSurface--Invalid time passed to ground temperature model",
        self) := by
  have h2 : Double.lt (Double.finite 31536000) seconds = false := by
    cases hc : Double.lt (Double.finite 31536000) seconds
    · rfl
    · rw [Double.pos_of_lt_year seconds hc] at h
      exact absurd h (by simp)
  unfold getGroundTempAtTimeInSecondsDouble
  simp only [secPerMonth_mul_twelve, h, h2, Bool.false_and]
  rfl

theorem buildingSurface_double_not_fatal_of_pos (self : SiteBuildingSurfaceGroundTemps) (depth seconds : Double)
    (h : Double.lt (Double.finite 0) seconds = true) (msg : String) :
    (getGroundTempAtTimeInSecondsDouble self depth seconds).1 ≠ Outcome.fatal msg := by
  unfold getGroundTempAtTimeInSecondsDouble
  simp only [secPerMonth_mul_twelve, h, Bool.true_and]
  cases hle : Double.le seconds (Double.finite 31536000)
  · have h2 := Double.lt_year_of_pos_of_not_le seconds h hle
    simp only [h2, if_true, Bool.false_eq_true, if_false]
    split
    · split
      · exact buildingSurface_getGroundTemp_ne_fatal _ msg
      · simp
    · simp
  · simp only [if_true]
    split
    · exact buildingSurface_getGroundTemp_ne_fatal _ msg
    · simp

theorem buildingSurface_double_first_year (self : SiteBuildingSurfaceGroundTemps) (depth : Double) (s : ℚ)
    (h0 : 0 < s) (h1 : s ≤ 31536000) (hu : 1 / 2 ^ 1075 < s / 31536000) :
    getGroundTempAtTimeInSecondsDouble self depth (Double.finite s) =
      (Outcome.value (self.buildingSurfaceGroundTemps 0), { self with timeOfSimInMonths := 1 }) := by
  have hlt : Double.lt (Double.finite 0) (Double.finite s) = true := by
    simp [Double.lt, h0]
  have hle : Double.le (Double.finite s) (Double.finite 31536000) = true := by
    simp [Double.le, h1]
  have hc := ceil_roundToDouble_first_year s h1 hu
  have ht : EnergyPlus.toInt 1 = some 1 := by
    have := toInt_intCast 1 (by norm_num) (by norm_num)
    simpa using this
  unfold getGroundTempAtTimeInSecondsDouble
  simp only [secPerMonth_mul_twelve, hlt, hle, Bool.and_self, if_true, Double.divFinite, hc,
    Double.toInt, ht]
  rfl

theorem buildingSurface_double_underflow (self : SiteBuildingSurfaceGroundTemps) (depth : Double) (s : ℚ)
    (h0 : 0 < s) (hu : s / 31536000 ≤ 1 / 2 ^ 1075) :
    getGroundTempAtTimeInSecondsDouble self depth (Double.finite s) =
      (Outcome.undefinedRead, { self with timeOfSimInMonths := 0 }) := by
  have hlt : Double.lt (Double.finite 0) (Double.finite s) = true := by
    simp [Double.lt, h0]
  have hs1 : s ≤ 31536000 := by
    have h2 : s / 31536000 ≤ 1 := le_trans hu (inv_two_pow_le_one 1075)
    rw [div_le_iff₀ (by norm_num)] at h2
    linarith
  have hle : Double.le (Double.finite s) (Double.finite 31536000) = true := by
    simp [Double.le, hs1]
  have hr := roundToDouble_underflow (s / 31536000) (by positivity) hu
  have ht : EnergyPlus.toInt 0 = some 0 := by
    have := toInt_intCast 0 (by norm_num) (by norm_num)
    simpa using this
  unfold getGroundTempAtTimeInSecondsDouble
  simp only [secPerMonth_mul_twelve, hlt, hle, Bool.and_self, if_true, Double.divFinite, hr,
    Double.ceil, Int.ceil_zero, Int.cast_zero, Double.toInt, ht]
  rfl

end SiteBuildingSurfaceGroundTemps

namespace SiteDeepGroundTemps

theorem deep_double_fatal_of_not_pos (self : SiteDeepGroundTemps) (depth seconds : Double)
    (h : Double.lt (Double.finite 0) seconds = false) :
    getGroundTempAtTimeInSecondsDouble self depth seconds =
      (Outcome.fatal "Site:GroundTemperature:Deep--Invalid time passed to ground temperature model",
        self) := by
  have h2 : Double.lt (Double.finite 31536000) seconds = false := by
    cases hc : Double.lt (Double.finite 31536000) seconds
    · rfl
    · rw [Double.pos_of_lt_year seconds hc] at h
      exact absurd h (by simp)
  unfold getGroundTempAtTimeInSecondsDouble
  simp only [secPerMonth_mul_twelve, h, h2, Bool.false_and]
  rfl

theorem deep_double_not_fatal_of_pos (self : SiteDeepGroundTemps) (depth seconds : Double)
    (h : Double.lt (Double.finite 0) seconds = true) (msg : String) :
    (getGroundTempAtTimeInSecondsDouble self depth seconds).1 ≠ Outcome.fatal msg := by
  unfold getGroundTempAtTimeInSecondsDouble
  simp only [secPerMonth_mul_twelve, h, Bool.true_and]
  cases hle : Double.le seconds (Double.finite 31536000)
  · have h2 := Double.lt_year_of_pos_of_not_le seconds h hle
    simp only [h2, if_true, Bool.false_eq_true, if_false]
    split
    · split
      · exact deep_getGroundTemp_ne_fatal _ msg
      · simp
    · simp
  · simp only [if_true]
    split
    · exact deep_getGroundTemp_ne_fatal _ msg
    · simp

theorem deep_double_first_year (self : SiteDeepGroundTemps) (depth : Double) (s : ℚ)
    (h0 : 0 < s) (h1 : s ≤ 31536000) (hu : 1 / 2 ^ 1075 < s / 31536000) :
    getGroundTempAtTimeInSecondsDouble self depth (Double.finite s) =
      (Outcome.value (self.deepGroundTemps 0), { self with timeOfSimInMonths := 1 }) := by
  have hlt : Double.lt (Double.finite 0) (Double.finite s) = true := by
    simp [Double.lt, h0]
  have hle : Double.le (Double.finite s) (Double.finite 31536000) = true := by
    simp [Double.le, h1]
  have hc := ceil_roundToDouble_first_year s h1 hu
  have ht : EnergyPlus.toInt 1 = some 1 := by
    have := toInt_intCast 1 (by norm_num) (by norm_num)
    simpa using this
  unfold getGroundTempAtTimeInSecondsDouble
  simp only [secPerMonth_mul_twelve, hlt, hle, Bool.and_self, if_true, Double.divFinite, hc,
    Double.toInt, ht]
  rfl

theorem deep_double_underflow (self : SiteDeepGroundTemps) (depth : Double) (s : ℚ)
    (h0 : 0 < s) (hu : s / 31536000 ≤ 1 / 2 ^ 1075) :
    getGroundTempAtTimeInSecondsDouble self depth (Double.finite s) =
      (Outcome.undefinedRead, { self with timeOfSimInMonths := 0 }) := by
  have hlt : Double.lt (Double.finite 0) (Double.finite s) = true := by
    simp [Double.lt, h0]
  have hs1 : s ≤ 31536000 := by
    have h2 : s / 31536000 ≤ 1 := le_trans hu (inv_two_pow_le_one 1075)
    rw [div_le_iff₀ (by norm_num)] at h2
    linarith
  have hle : Double.le (Double.finite s) (Double.finite 31536000) = true := by
    simp [Double.le, hs1]
  have hr := roundToDouble_underflow (s / 31536000) (by positivity) hu
  have ht : EnergyPlus.toInt 0 = some 0 := by
    have := toInt_intCast 0 (by norm_num) (by norm_num)
    simpa using this
  unfold getGroundTempAtTimeInSecondsDouble
  simp only [secPerMonth_mul_twelve, hlt, hle, Bool.and_self, if_true, Double.divFinite, hr,
    Double.ceil, Int.ceil_zero, Int.cast_zero, Double.toInt, ht]
  rfl

end SiteDeepGroundTemps

theorem Double.not_pos_iff (s : Double) :
    Double.lt (Double.finite 0) s = false ↔
      (Double.le s (Double.finite 0) = true ∨ s = Double.nan) := by
  cases s with
  | finite q => simp [Double.lt, Double.le]
  | posInf => simp [Double.lt, Double.le]
  | negInf => simp [Double.lt, Double.le]
  | nan => simp [Double.lt, Double.le]

namespace SiteBuildingSurfaceGroundTemps

theorem buildingSurface_double_eq_exact (self : SiteBuildingSurfaceGroundTemps) (depthD : Double) (depth : Real64) (s : ℚ)
    (hc : Double.ceil (roundToDouble (s / 31536000)) = Double.finite (ceil (s / 31536000))) :
    getGroundTempAtTimeInSecondsDouble self depthD (Double.finite s) =
      getGroundTempAtTimeInSeconds self depth s := by
  unfold getGroundTempAtTimeInSecondsDouble getGroundTempAtTimeInSeconds
  simp only [secPerMonth_mul_twelve, Double.lt, Double.le, Double.divFinite, hc, Double.toInt,
    Bool.and_eq_true, decide_eq_true_eq, gt_iff_lt]

theorem buildingSurface_double_fatal_iff (self : SiteBuildingSurfaceGroundTemps) (depth seconds : Double) :
    (∃ msg, (getGroundTempAtTimeInSecondsDouble self depth seconds).1 = Outcome.fatal msg) ↔
      Double.lt (Double.finite 0) seconds = false := by
  constructor
  · rintro ⟨msg, hm⟩
    cases h : Double.lt (Double.finite 0) seconds
    · rfl
    · exact absurd hm (buildingSurface_double_not_fatal_of_pos self depth seconds h msg)
  · intro h
    rw [buildingSurface_double_fatal_of_not_pos self depth seconds h]
    exact ⟨_, rfl⟩

end SiteBuildingSurfaceGroundTemps

namespace SiteDeepGroundTemps

theorem deep_double_eq_exact (self : SiteDeepGroundTemps) (depthD : Double) (depth : Real64) (s : ℚ)
    (hc : Double.ceil (roundToDouble (s / 31536000)) = Double.finite (ceil (s / 31536000))) :
    getGroundTempAtTimeInSecondsDouble self depthD (Double.finite s) =
      getGroundTempAtTimeInSeconds self depth s := by
  unfold getGroundTempAtTimeInSecondsDouble getGroundTempAtTimeInSeconds
  simp only [secPerMonth_mul_twelve, Double.lt, Double.le, Double.divFinite, hc, Double.toInt,
    Bool.and_eq_true, decide_eq_true_eq, gt_iff_lt]

theorem deep_double_fatal_iff (self : SiteDeepGroundTemps) (depth seconds : Double) :
    (∃ msg, (getGroundTempAtTimeInSecondsDouble self depth seconds).1 = Outcome.fatal msg) ↔
      Double.lt (Double.finite 0) seconds = false := by
  constructor
  · rintro ⟨msg, hm⟩
    cases h : Double.lt (Double.finite 0) seconds
    · rfl
    · exact absurd hm (deep_double_not_fatal_of_pos self depth seconds h msg)
  · intro h
    rw [deep_double_fatal_of_not_pos self depth seconds h]
    exact ⟨_, rfl⟩

end SiteDeepGroundTemps

/-! ## The claims -/

open SiteBuildingSurfaceGroundTemps SiteDeepGroundTemps in
/-- C1 (identity law). In both variants, when the input holds exactly one object with
12 numeric values and the fresh object carries no error, the factory returns a model, and
for every depth `d` and every month `m` in 1..12 `getGroundTempAtTimeInMonths( d, m )` on that
model returns exactly the `m`-th supplied value `rNumericArgs( m )`. -/
theorem C1_identity_law (freshB : SiteBuildingSurfaceGroundTemps) (freshD : SiteDeepGroundTemps)
    (inp : InputProcessor) (w : State) (d : Real64) (m : Nat)
    (hB : freshB.errorsFound = false) (hD : freshD.errorsFound = false)
    (h1 : inp.GetNumObjectsFound = 1) (h12 : inp.NumNums = 12) (hm : 1 ≤ m ∧ m ≤ 12) :
    (∃ model, (BuildingSurfaceGTMFactory freshB inp w).returned = some model ∧
        (SiteBuildingSurfaceGroundTemps.getGroundTempAtTimeInMonths model d (m : Int)).1
          = Outcome.value (inp.rNumericArgs m)) ∧
    (∃ model, (DeepGTMFactory freshD inp w).returned = some model ∧
        (SiteDeepGroundTemps.getGroundTempAtTimeInMonths model d (m : Int)).1
          = Outcome.value (inp.rNumericArgs m)) := by
  have hidx : ((m : Int) - 1).toNat + 1 = m := by omega
  have hr : (1 : Int) ≤ (m : Int) ∧ (m : Int) ≤ 12 := by omega
  constructor
  · refine ⟨(SiteBuildingSurfaceGroundTemps.readInput freshB inp w).1, ?_, ?_⟩
    · rw [SiteBuildingSurfaceGroundTemps.buildingSurface_factory_returned,
        SiteBuildingSurfaceGroundTemps.buildingSurface_readInput_errorsFound]
      simp [h1, h12, hB]
    · simp only [SiteBuildingSurfaceGroundTemps.getGroundTempAtTimeInMonths,
        SiteBuildingSurfaceGroundTemps.getGroundTemp, Array1D.read, hr, and_self, dif_pos]
      rw [SiteBuildingSurfaceGroundTemps.buildingSurface_readInput_temps_of_one freshB inp w h1]
      simp only [hidx]
  · refine ⟨(SiteDeepGroundTemps.readInput freshD inp w).1, ?_, ?_⟩
    · rw [SiteDeepGroundTemps.deep_factory_returned, SiteDeepGroundTemps.deep_readInput_errorsFound]
      simp [h1, h12, hD]
    · simp only [SiteDeepGroundTemps.getGroundTempAtTimeInMonths,
        SiteDeepGroundTemps.getGroundTemp, Array1D.read, hr, and_self, dif_pos]
      rw [SiteDeepGroundTemps.deep_readInput_temps_of_one freshD inp w h1]
      simp only [hidx]

open SiteBuildingSurfaceGroundTemps SiteDeepGroundTemps in
/-- Witness of C1: one object with 12 values, depth 0, month 3. -/
theorem C1_identity_law_witness :
    (sampleBuildingSurface.errorsFound = false ∧ sampleDeep.errorsFound = false ∧
      inputTwelve.GetNumObjectsFound = 1 ∧ inputTwelve.NumNums = 12 ∧ (1 ≤ 3 ∧ 3 ≤ 12)) ∧
    ((∃ model, (BuildingSurfaceGTMFactory sampleBuildingSurface inputTwelve emptyState).returned
          = some model ∧
        (SiteBuildingSurfaceGroundTemps.getGroundTempAtTimeInMonths model 0 ((3 : Nat) : Int)).1
          = Outcome.value (inputTwelve.rNumericArgs 3)) ∧
    (∃ model, (DeepGTMFactory sampleDeep inputTwelve emptyState).returned = some model ∧
        (SiteDeepGroundTemps.getGroundTempAtTimeInMonths model 0 ((3 : Nat) : Int)).1
          = Outcome.value (inputTwelve.rNumericArgs 3))) :=
  ⟨⟨rfl, rfl, rfl, rfl, by decide⟩,
    C1_identity_law sampleBuildingSurface sampleDeep inputTwelve emptyState 0 3
      rfl rfl rfl rfl (by decide)⟩

open SiteBuildingSurfaceGroundTemps SiteDeepGroundTemps in
/-- C2 (default when no object is present). In both variants, when the input holds no
object of the variant and the fresh object carries no error, the factory returns a model,
that model is appended to the registry, and all 12 monthly temperatures of the model are the
variant default: 18 for BuildingSurface, 16 for Deep. -/
theorem C2_default_when_absent (freshB : SiteBuildingSurfaceGroundTemps)
    (freshD : SiteDeepGroundTemps) (inp : InputProcessor) (w : State)
    (hB : freshB.errorsFound = false) (hD : freshD.errorsFound = false)
    (h0 : inp.GetNumObjectsFound = 0) :
    (∃ model, (BuildingSurfaceGTMFactory freshB inp w).returned = some model ∧
        (BuildingSurfaceGTMFactory freshB inp w).state.groundTempModels
          = w.groundTempModels ++ [BaseGroundTempsModel.buildingSurface model] ∧
        ∀ j : Fin 12, model.buildingSurfaceGroundTemps j = 18) ∧
    (∃ model, (DeepGTMFactory freshD inp w).returned = some model ∧
        (DeepGTMFactory freshD inp w).state.groundTempModels
          = w.groundTempModels ++ [BaseGroundTempsModel.deep model] ∧
        ∀ j : Fin 12, model.deepGroundTemps j = 16) := by
  constructor
  · refine ⟨(SiteBuildingSurfaceGroundTemps.readInput freshB inp w).1, ?_, ?_, ?_⟩
    · rw [buildingSurface_factory_returned, buildingSurface_readInput_errorsFound]
      simp [h0, hB]
    · rw [buildingSurface_factory_registry, buildingSurface_readInput_errorsFound]
      simp [h0, hB]
    · intro j
      rw [buildingSurface_readInput_zero freshB inp w h0]
  · refine ⟨(SiteDeepGroundTemps.readInput freshD inp w).1, ?_, ?_, ?_⟩
    · rw [deep_factory_returned, deep_readInput_errorsFound]
      simp [h0, hD]
    · rw [deep_factory_registry, deep_readInput_errorsFound]
      simp [h0, hD]
    · intro j
      rw [deep_readInput_zero freshD inp w h0]

open SiteBuildingSurfaceGroundTemps SiteDeepGroundTemps in
/-- Witness of C2: an input without any object, starting from the empty state. -/
theorem C2_default_when_absent_witness :
    (sampleBuildingSurface.errorsFound = false ∧ sampleDeep.errorsFound = false ∧
      inputNone.GetNumObjectsFound = 0) ∧
    ((∃ model, (BuildingSurfaceGTMFactory sampleBuildingSurface inputNone emptyState).returned
          = some model ∧
        (BuildingSurfaceGTMFactory sampleBuildingSurface inputNone emptyState).state.groundTempModels
          = emptyState.groundTempModels ++ [BaseGroundTempsModel.buildingSurface model] ∧
        ∀ j : Fin 12, model.buildingSurfaceGroundTemps j = 18) ∧
    (∃ model, (DeepGTMFactory sampleDeep inputNone emptyState).returned = some model ∧
        (DeepGTMFactory sampleDeep inputNone emptyState).state.groundTempModels
          = emptyState.groundTempModels ++ [BaseGroundTempsModel.deep model] ∧
        ∀ j : Fin 12, model.deepGroundTemps j = 16)) :=
  ⟨⟨rfl, rfl, rfl⟩,
    C2_default_when_absent sampleBuildingSurface sampleDeep inputNone emptyState rfl rfl rfl⟩

open SiteBuildingSurfaceGroundTemps SiteDeepGroundTemps in
/-- C3 (too many objects). In both variants, for every object count of two or more the factory
sets `errorsFound` on the object it built, returns no model, leaves the registry as it was, and
the messages it emits are one Severe error, whose text contains
"Too many objects entered. Only one allowed", followed by the continuation message. -/
theorem C3_too_many_objects (freshB : SiteBuildingSurfaceGroundTemps)
    (freshD : SiteDeepGroundTemps) (inp : InputProcessor) (w : State)
    (h : 2 ≤ inp.GetNumObjectsFound) :
    ((BuildingSurfaceGTMFactory freshB inp w).thisModel.errorsFound = true ∧
      (BuildingSurfaceGTMFactory freshB inp w).returned = none ∧
      (BuildingSurfaceGTMFactory freshB inp w).state.groundTempModels = w.groundTempModels ∧
      ∃ msg, ContainsText msg "Too many objects entered. Only one allowed" ∧
        emittedSince w (BuildingSurfaceGTMFactory freshB inp w).state =
          [Diagnostic.ShowSevereError msg,
           Diagnostic.ShowContinueError
            "Site:GroundTemperature:BuildingSurface--Errors getting input for ground temperature model"]) ∧
    ((DeepGTMFactory freshD inp w).thisModel.errorsFound = true ∧
      (DeepGTMFactory freshD inp w).returned = none ∧
      (DeepGTMFactory freshD inp w).state.groundTempModels = w.groundTempModels ∧
      ∃ msg, ContainsText msg "Too many objects entered. Only one allowed" ∧
        emittedSince w (DeepGTMFactory freshD inp w).state =
          [Diagnostic.ShowSevereError msg,
           Diagnostic.ShowContinueError
            "Site:GroundTemperature:Deep--Errors getting input for ground temperature model"]) := by
  have h1 : ¬ inp.GetNumObjectsFound = 1 := by omega
  have h2 : inp.GetNumObjectsFound > 1 := by omega
  have eB : (SiteBuildingSurfaceGroundTemps.readInput freshB inp w).1.errorsFound = true := by
    rw [buildingSurface_readInput_errorsFound]; simp [h1, h2]
  have eD : (SiteDeepGroundTemps.readInput freshD inp w).1.errorsFound = true := by
    rw [deep_readInput_errorsFound]; simp [h1, h2]
  constructor
  · refine ⟨?_, ?_, ?_, ?_⟩
    · rw [buildingSurface_factory_thisModel]; exact eB
    · rw [buildingSurface_factory_returned]; simp [eB]
    · rw [buildingSurface_factory_registry]; simp [eB]
    · refine ⟨"Site:GroundTemperature:BuildingSurface: Too many objects entered. Only one allowed.",
        ⟨"Site:GroundTemperature:BuildingSurface: ", ".", by decide⟩, ?_⟩
      apply emittedSince_of_append
      rw [buildingSurface_factory_errorLog, buildingSurface_readInput_errorLog_many freshB inp w h]
      simp [eB]
  · refine ⟨?_, ?_, ?_, ?_⟩
    · rw [deep_factory_thisModel]; exact eD
    · rw [deep_factory_returned]; simp [eD]
    · rw [deep_factory_registry]; simp [eD]
    · refine ⟨"Site:GroundTemperature:Deep: Too many objects entered. Only one allowed.",
        ⟨"Site:GroundTemperature:Deep: ", ".", by decide⟩, ?_⟩
      apply emittedSince_of_append
      rw [deep_factory_errorLog, deep_readInput_errorLog_many freshD inp w h]
      simp [eD]

open SiteBuildingSurfaceGroundTemps SiteDeepGroundTemps in
/-- Witness of C3: two objects in the input. -/
theorem C3_too_many_objects_witness :
    2 ≤ inputTwo.GetNumObjectsFound ∧
    (((BuildingSurfaceGTMFactory sampleBuildingSurface inputTwo emptyState).thisModel.errorsFound
        = true ∧
      (BuildingSurfaceGTMFactory sampleBuildingSurface inputTwo emptyState).returned = none ∧
      (BuildingSurfaceGTMFactory sampleBuildingSurface inputTwo emptyState).state.groundTempModels
        = emptyState.groundTempModels ∧
      ∃ msg, ContainsText msg "Too many objects entered. Only one allowed" ∧
        emittedSince emptyState
            (BuildingSurfaceGTMFactory sampleBuildingSurface inputTwo emptyState).state =
          [Diagnostic.ShowSevereError msg,
           Diagnostic.ShowContinueError
            "Site:GroundTemperature:BuildingSurface--Errors getting input for ground temperature model"]) ∧
    ((DeepGTMFactory sampleDeep inputTwo emptyState).thisModel.errorsFound = true ∧
      (DeepGTMFactory sampleDeep inputTwo emptyState).returned = none ∧
      (DeepGTMFactory sampleDeep inputTwo emptyState).state.groundTempModels
        = emptyState.groundTempModels ∧
      ∃ msg, ContainsText msg "Too many objects entered. Only one allowed" ∧
        emittedSince emptyState (DeepGTMFactory sampleDeep inputTwo emptyState).state =
          [Diagnostic.ShowSevereError msg,
           Diagnostic.ShowContinueError
            "Site:GroundTemperature:Deep--Errors getting input for ground temperature model"])) :=
  ⟨by decide, C3_too_many_objects sampleBuildingSurface sampleDeep inputTwo emptyState (by decide)⟩

open SiteBuildingSurfaceGroundTemps SiteDeepGroundTemps in
/-- C4 (too few values). In both variants, for exactly one input object that supplies fewer
than 12 numeric fields: `errorsFound` is true on the object built, the factory returns no model,
the registry is left as it was, and exactly one Severe error is emitted, whose text contains
"Less than 12 values entered". -/
theorem C4_less_than_twelve_values (freshB : SiteBuildingSurfaceGroundTemps)
    (freshD : SiteDeepGroundTemps) (inp : InputProcessor) (w : State)
    (h1 : inp.GetNumObjectsFound = 1) (hlt : inp.NumNums < 12) :
    ((BuildingSurfaceGTMFactory freshB inp w).thisModel.errorsFound = true ∧
      (BuildingSurfaceGTMFactory freshB inp w).returned = none ∧
      (BuildingSurfaceGTMFactory freshB inp w).state.groundTempModels = w.groundTempModels ∧
      ∃ msg, ContainsText msg "Less than 12 values entered" ∧
        (emittedSince w (BuildingSurfaceGTMFactory freshB inp w).state).filter Diagnostic.isSevere
          = [Diagnostic.ShowSevereError msg]) ∧
    ((DeepGTMFactory freshD inp w).thisModel.errorsFound = true ∧
      (DeepGTMFactory freshD inp w).returned = none ∧
      (DeepGTMFactory freshD inp w).state.groundTempModels = w.groundTempModels ∧
      ∃ msg, ContainsText msg "Less than 12 values entered" ∧
        (emittedSince w (DeepGTMFactory freshD inp w).state).filter Diagnostic.isSevere
          = [Diagnostic.ShowSevereError msg]) := by
  have eB : (SiteBuildingSurfaceGroundTemps.readInput freshB inp w).1.errorsFound = true := by
    rw [buildingSurface_readInput_errorsFound]; simp [h1, hlt]
  have eD : (SiteDeepGroundTemps.readInput freshD inp w).1.errorsFound = true := by
    rw [deep_readInput_errorsFound]; simp [h1, hlt]
  constructor
  · refine ⟨?_, ?_, ?_, ?_⟩
    · rw [buildingSurface_factory_thisModel]; exact eB
    · rw [buildingSurface_factory_returned]; simp [eB]
    · rw [buildingSurface_factory_registry]; simp [eB]
    · refine ⟨"Site:GroundTemperature:BuildingSurface: Less than 12 values entered.",
        ⟨"Site:GroundTemperature:BuildingSurface: ", ".", by decide⟩, ?_⟩
      rw [emittedSince_of_append w _ _ (by
        rw [buildingSurface_factory_errorLog,
          buildingSurface_readInput_errorLog_one freshB inp w h1, List.append_assoc])]
      by_cases hg : ∃ j : Fin 12,
          inp.rNumericArgs (j.val + 1) < 15 ∨ inp.rNumericArgs (j.val + 1) > 25
      · simp [eB, hlt, hg, List.filter, Diagnostic.isSevere]
      · simp only [eB, hlt, hg, if_true, if_false]
        simp [List.filter, Diagnostic.isSevere]
  · refine ⟨?_, ?_, ?_, ?_⟩
    · rw [deep_factory_thisModel]; exact eD
    · rw [deep_factory_returned]; simp [eD]
    · rw [deep_factory_registry]; simp [eD]
    · refine ⟨"Site:GroundTemperature:Deep: Less than 12 values entered.",
        ⟨"Site:GroundTemperature:Deep: ", ".", by decide⟩, ?_⟩
      rw [emittedSince_of_append w _ _ (by
        rw [deep_factory_errorLog, deep_readInput_errorLog_one freshD inp w h1,
          List.append_assoc])]
      simp [eD, hlt, List.filter, Diagnostic.isSevere]

open SiteBuildingSurfaceGroundTemps SiteDeepGroundTemps in
/-- Witness of C4: one object with 10 numeric fields. -/
theorem C4_less_than_twelve_values_witness :
    (inputTen.GetNumObjectsFound = 1 ∧ inputTen.NumNums < 12) ∧
    (((BuildingSurfaceGTMFactory sampleBuildingSurface inputTen emptyState).thisModel.errorsFound
        = true ∧
      (BuildingSurfaceGTMFactory sampleBuildingSurface inputTen emptyState).returned = none ∧
      (BuildingSurfaceGTMFactory sampleBuildingSurface inputTen emptyState).state.groundTempModels
        = emptyState.groundTempModels ∧
      ∃ msg, ContainsText msg "Less than 12 values entered" ∧
        (emittedSince emptyState
            (BuildingSurfaceGTMFactory sampleBuildingSurface inputTen emptyState).state).filter
          Diagnostic.isSevere = [Diagnostic.ShowSevereError msg]) ∧
    ((DeepGTMFactory sampleDeep inputTen emptyState).thisModel.errorsFound = true ∧
      (DeepGTMFactory sampleDeep inputTen emptyState).returned = none ∧
      (DeepGTMFactory sampleDeep inputTen emptyState).state.groundTempModels
        = emptyState.groundTempModels ∧
      ∃ msg, ContainsText msg "Less than 12 values entered" ∧
        (emittedSince emptyState (DeepGTMFactory sampleDeep inputTen emptyState).state).filter
          Diagnostic.isSevere = [Diagnostic.ShowSevereError msg])) :=
  ⟨⟨rfl, by decide⟩,
    C4_less_than_twelve_values sampleBuildingSurface sampleDeep inputTen emptyState rfl (by decide)⟩

open SiteBuildingSurfaceGroundTemps in
/-- C5 (range advisory of BuildingSurface). For `BuildingSurfaceGTMFactory` given exactly one
object with 12 values of which at least one is below 15 or above 25, the fresh object carrying
no error: the factory returns a model, the model is appended to the registry, every supplied
value is stored as given, `errorsFound` stays false, and the messages emitted are exactly one
warning followed by its continuation line, however many of the values are out of range. -/
theorem C5_range_advisory (fresh : SiteBuildingSurfaceGroundTemps) (inp : InputProcessor)
    (w : State) (hB : fresh.errorsFound = false)
    (h1 : inp.GetNumObjectsFound = 1) (h12 : inp.NumNums = 12)
    (hout : ∃ j : Fin 12, inp.rNumericArgs (j.val + 1) < 15 ∨ inp.rNumericArgs (j.val + 1) > 25) :
    ∃ model, (BuildingSurfaceGTMFactory fresh inp w).returned = some model ∧
      (BuildingSurfaceGTMFactory fresh inp w).state.groundTempModels
        = w.groundTempModels ++ [BaseGroundTempsModel.buildingSurface model] ∧
      (∀ j : Fin 12, model.buildingSurfaceGroundTemps j = inp.rNumericArgs (j.val + 1)) ∧
      model.errorsFound = false ∧
      emittedSince w (BuildingSurfaceGTMFactory fresh inp w).state =
        [Diagnostic.ShowWarningError
          "Site:GroundTemperature:BuildingSurface: Some values fall outside the range of 15-25C.",
         Diagnostic.ShowContinueError
          "These values may be inappropriate.  Please consult the Input Output Reference for more details."] ∧
      (emittedSince w (BuildingSurfaceGTMFactory fresh inp w).state).countP Diagnostic.isWarning
        = 1 := by
  have e : (readInput fresh inp w).1.errorsFound = false := by
    rw [buildingSurface_readInput_errorsFound]; simp [h1, h12, hB]
  have hlog : emittedSince w (BuildingSurfaceGTMFactory fresh inp w).state =
      [Diagnostic.ShowWarningError
        "Site:GroundTemperature:BuildingSurface: Some values fall outside the range of 15-25C.",
       Diagnostic.ShowContinueError
        "These values may be inappropriate.  Please consult the Input Output Reference for more details."] := by
    apply emittedSince_of_append
    rw [buildingSurface_factory_errorLog, buildingSurface_readInput_errorLog_one fresh inp w h1]
    simp [e, h12, hout]
  refine ⟨(readInput fresh inp w).1, ?_, ?_, ?_, e, hlog, ?_⟩
  · rw [buildingSurface_factory_returned]; simp [e]
  · rw [buildingSurface_factory_registry]; simp [e]
  · intro j; exact buildingSurface_readInput_temps_of_one fresh inp w h1 j
  · rw [hlog]; rfl

open SiteBuildingSurfaceGroundTemps in
/-- Witness of C5: 12 values, the third being 10.0 and the others 20.0. -/
theorem C5_range_advisory_witness :
    (sampleBuildingSurface.errorsFound = false ∧ inputOneLow.GetNumObjectsFound = 1 ∧
      inputOneLow.NumNums = 12 ∧
      ∃ j : Fin 12, inputOneLow.rNumericArgs (j.val + 1) < 15 ∨
        inputOneLow.rNumericArgs (j.val + 1) > 25) ∧
    ∃ model, (BuildingSurfaceGTMFactory sampleBuildingSurface inputOneLow emptyState).returned
        = some model ∧
      (BuildingSurfaceGTMFactory sampleBuildingSurface inputOneLow emptyState).state.groundTempModels
        = emptyState.groundTempModels ++ [BaseGroundTempsModel.buildingSurface model] ∧
      (∀ j : Fin 12, model.buildingSurfaceGroundTemps j = inputOneLow.rNumericArgs (j.val + 1)) ∧
      model.errorsFound = false ∧
      emittedSince emptyState
          (BuildingSurfaceGTMFactory sampleBuildingSurface inputOneLow emptyState).state =
        [Diagnostic.ShowWarningError
          "Site:GroundTemperature:BuildingSurface: Some values fall outside the range of 15-25C.",
         Diagnostic.ShowContinueError
          "These values may be inappropriate.  Please consult the Input Output Reference for more details."] ∧
      (emittedSince emptyState
          (BuildingSurfaceGTMFactory sampleBuildingSurface inputOneLow emptyState).state).countP
        Diagnostic.isWarning = 1 :=
  ⟨⟨rfl, rfl, rfl, ⟨2, Or.inl (by norm_num [inputOneLow])⟩⟩,
    C5_range_advisory sampleBuildingSurface inputOneLow emptyState rfl rfl rfl
      ⟨2, Or.inl (by norm_num [inputOneLow])⟩⟩

open SiteDeepGroundTemps in
/-- C6 (no range advisory in Deep). For every object count, field count and numeric values,
`DeepGTMFactory` emits no warning, and its decision to return a model is the same for any two
contents `r`, `r2` of the numeric buffer (so values outside 15..25 do not affect admission). -/
theorem C6_deep_no_range_warning (fresh : SiteDeepGroundTemps) (count numNums : Nat)
    (r r2 : Nat → Real64) (w : State) :
    (emittedSince w (DeepGTMFactory fresh ⟨count, numNums, r⟩ w).state).countP
        Diagnostic.isWarning = 0 ∧
    (DeepGTMFactory fresh ⟨count, numNums, r⟩ w).returned.isSome =
      (DeepGTMFactory fresh ⟨count, numNums, r2⟩ w).returned.isSome := by
  constructor
  · have hcases : count = 0 ∨ count = 1 ∨ 2 ≤ count := by omega
    rcases hcases with h0 | h1 | h2
    · rw [emittedSince_of_append w _
        (if (readInput fresh ⟨count, numNums, r⟩ w).1.errorsFound = false then []
         else [Diagnostic.ShowContinueError
           "Site:GroundTemperature:Deep--Errors getting input for ground temperature model"])
        (by rw [deep_factory_errorLog, deep_readInput_zero fresh _ w h0])]
      split_ifs <;> rfl
    · rw [emittedSince_of_append w _ _ (by
        rw [deep_factory_errorLog, deep_readInput_errorLog_one fresh _ w h1, List.append_assoc])]
      split_ifs <;> rfl
    · rw [emittedSince_of_append w _ _ (by
        rw [deep_factory_errorLog, deep_readInput_errorLog_many fresh _ w h2, List.append_assoc])]
      split_ifs <;> rfl
  · rw [deep_factory_returned, deep_factory_returned, deep_readInput_errorsFound,
      deep_readInput_errorsFound]
    split_ifs <;> rfl

open SiteBuildingSurfaceGroundTemps SiteDeepGroundTemps in
/-- C7 as amended (fatal exactly when `seconds > 0` is false). In both variants, with
`seconds` any `double`, `getGroundTempAtTimeInSeconds( depth, seconds )` ends in the fatal
outcome "...--Invalid time passed to ground temperature model" (and so returns no value) if and
only if `seconds <= 0` (zero, every negative value, minus infinity) or `seconds` is NaN, that
is if and only if the test `seconds > 0` is false; for every `seconds > 0` (plus infinity
included) the outcome is not fatal, whatever the message. -/
theorem C7_fatal_iff_not_positive (selfB : SiteBuildingSurfaceGroundTemps)
    (selfD : SiteDeepGroundTemps) (depth seconds : Double) :
    (((SiteBuildingSurfaceGroundTemps.getGroundTempAtTimeInSecondsDouble selfB depth seconds).1 = Outcome.fatal
          "Site:GroundTemperature:BuildingSurface--Invalid time passed to ground temperature model"
        ↔ (Double.le seconds (Double.finite 0) = true ∨ seconds = Double.nan)) ∧
      ((∃ msg, (SiteBuildingSurfaceGroundTemps.getGroundTempAtTimeInSecondsDouble selfB depth seconds).1 = Outcome.fatal msg)
        ↔ (Double.le seconds (Double.finite 0) = true ∨ seconds = Double.nan)) ∧
      ((∃ msg, (SiteBuildingSurfaceGroundTemps.getGroundTempAtTimeInSecondsDouble selfB depth seconds).1 = Outcome.fatal msg)
        ↔ Double.lt (Double.finite 0) seconds = false)) ∧
    (((SiteDeepGroundTemps.getGroundTempAtTimeInSecondsDouble selfD depth seconds).1 = Outcome.fatal
          "Site:GroundTemperature:Deep--Invalid time passed to ground temperature model"
        ↔ (Double.le seconds (Double.finite 0) = true ∨ seconds = Double.nan)) ∧
      ((∃ msg, (SiteDeepGroundTemps.getGroundTempAtTimeInSecondsDouble selfD depth seconds).1 = Outcome.fatal msg)
        ↔ (Double.le seconds (Double.finite 0) = true ∨ seconds = Double.nan)) ∧
      ((∃ msg, (SiteDeepGroundTemps.getGroundTempAtTimeInSecondsDouble selfD depth seconds).1 = Outcome.fatal msg)
        ↔ Double.lt (Double.finite 0) seconds = false)) := by
  have hB := buildingSurface_double_fatal_iff selfB depth seconds
  have hD := deep_double_fatal_iff selfD depth seconds
  have hn := Double.not_pos_iff seconds
  refine ⟨⟨?_, hB.trans hn, hB⟩, ⟨?_, hD.trans hn, hD⟩⟩
  · constructor
    · intro h
      exact hn.1 (hB.1 ⟨_, h⟩)
    · intro h
      rw [buildingSurface_double_fatal_of_not_pos selfB depth seconds (hn.2 h)]
  · constructor
    · intro h
      exact hn.1 (hD.1 ⟨_, h⟩)
    · intro h
      rw [deep_double_fatal_of_not_pos selfD depth seconds (hn.2 h)]

open SiteBuildingSurfaceGroundTemps SiteDeepGroundTemps in
/-- C7 as stated fails at NaN: `seconds <= 0` is false for NaN, yet both variants end in the
fatal outcome, because `seconds > 0` is false as well and the `else` branch is taken. -/
theorem C7_nan_is_fatal_counterexample :
    Double.le Double.nan (Double.finite 0) = false ∧
    (SiteBuildingSurfaceGroundTemps.getGroundTempAtTimeInSecondsDouble sampleBuildingSurface
        (Double.finite 0) Double.nan).1 = Outcome.fatal
      "Site:GroundTemperature:BuildingSurface--Invalid time passed to ground temperature model" ∧
    (SiteDeepGroundTemps.getGroundTempAtTimeInSecondsDouble sampleDeep
        (Double.finite 0) Double.nan).1 = Outcome.fatal
      "Site:GroundTemperature:Deep--Invalid time passed to ground temperature model" := by
  refine ⟨rfl, ?_, ?_⟩
  · rw [buildingSurface_double_fatal_of_not_pos sampleBuildingSurface (Double.finite 0)
      Double.nan rfl]
  · rw [deep_double_fatal_of_not_pos sampleDeep (Double.finite 0) Double.nan rfl]

open SiteBuildingSurfaceGroundTemps SiteDeepGroundTemps in
/-- C8 (admission decision). In both variants, the fresh object carrying no error, the factory
returns a model if and only if `errorsFound` is false on the object it built, which holds if and
only if the object count is 0, or the count is 1 and at least 12 numeric fields were supplied;
in every other case it returns no model. -/
theorem C8_admission_decision (freshB : SiteBuildingSurfaceGroundTemps)
    (freshD : SiteDeepGroundTemps) (inp : InputProcessor) (w : State)
    (hB : freshB.errorsFound = false) (hD : freshD.errorsFound = false) :
    ((((BuildingSurfaceGTMFactory freshB inp w).returned.isSome = true ↔
        (BuildingSurfaceGTMFactory freshB inp w).thisModel.errorsFound = false) ∧
      ((BuildingSurfaceGTMFactory freshB inp w).thisModel.errorsFound = false ↔
        (inp.GetNumObjectsFound = 0 ∨ (inp.GetNumObjectsFound = 1 ∧ 12 ≤ inp.NumNums))) ∧
      ((BuildingSurfaceGTMFactory freshB inp w).returned = none ↔
        ¬ (inp.GetNumObjectsFound = 0 ∨ (inp.GetNumObjectsFound = 1 ∧ 12 ≤ inp.NumNums))))) ∧
    ((((DeepGTMFactory freshD inp w).returned.isSome = true ↔
        (DeepGTMFactory freshD inp w).thisModel.errorsFound = false) ∧
      ((DeepGTMFactory freshD inp w).thisModel.errorsFound = false ↔
        (inp.GetNumObjectsFound = 0 ∨ (inp.GetNumObjectsFound = 1 ∧ 12 ≤ inp.NumNums))) ∧
      ((DeepGTMFactory freshD inp w).returned = none ↔
        ¬ (inp.GetNumObjectsFound = 0 ∨ (inp.GetNumObjectsFound = 1 ∧ 12 ≤ inp.NumNums))))) := by
  have hcases : inp.GetNumObjectsFound = 0 ∨ inp.GetNumObjectsFound = 1 ∨
      2 ≤ inp.GetNumObjectsFound := by omega
  constructor
  · rw [buildingSurface_factory_returned, buildingSurface_factory_thisModel,
      buildingSurface_readInput_errorsFound]
    rcases hcases with h0 | h1 | h2
    · simp [h0, hB]
    · by_cases h12 : inp.NumNums < 12
      · simp [h1, h12]
      · simp [h1, h12, hB, not_lt.mp h12]
    · have h1 : ¬ inp.GetNumObjectsFound = 1 := by omega
      have h0 : ¬ inp.GetNumObjectsFound = 0 := by omega
      have hgt : inp.GetNumObjectsFound > 1 := by omega
      simp [h0, h1, hgt]
  · rw [deep_factory_returned, deep_factory_thisModel, deep_readInput_errorsFound]
    rcases hcases with h0 | h1 | h2
    · simp [h0, hD]
    · by_cases h12 : inp.NumNums < 12
      · simp [h1, h12]
      · simp [h1, h12, hD, not_lt.mp h12]
    · have h1 : ¬ inp.GetNumObjectsFound = 1 := by omega
      have h0 : ¬ inp.GetNumObjectsFound = 0 := by omega
      have hgt : inp.GetNumObjectsFound > 1 := by omega
      simp [h0, h1, hgt]

open SiteBuildingSurfaceGroundTemps SiteDeepGroundTemps in
/-- Witness of C8: one object with only 10 numeric fields (the rejecting side of the decision). -/
theorem C8_admission_decision_witness :
    (sampleBuildingSurface.errorsFound = false ∧ sampleDeep.errorsFound = false) ∧
    (((((BuildingSurfaceGTMFactory sampleBuildingSurface inputTen emptyState).returned.isSome = true ↔
        (BuildingSurfaceGTMFactory sampleBuildingSurface inputTen emptyState).thisModel.errorsFound = false) ∧
      ((BuildingSurfaceGTMFactory sampleBuildingSurface inputTen emptyState).thisModel.errorsFound = false ↔
        (inputTen.GetNumObjectsFound = 0 ∨ (inputTen.GetNumObjectsFound = 1 ∧ 12 ≤ inputTen.NumNums))) ∧
      ((BuildingSurfaceGTMFactory sampleBuildingSurface inputTen emptyState).returned = none ↔
        ¬ (inputTen.GetNumObjectsFound = 0 ∨ (inputTen.GetNumObjectsFound = 1 ∧ 12 ≤ inputTen.NumNums))))) ∧
    ((((DeepGTMFactory sampleDeep inputTen emptyState).returned.isSome = true ↔
        (DeepGTMFactory sampleDeep inputTen emptyState).thisModel.errorsFound = false) ∧
      ((DeepGTMFactory sampleDeep inputTen emptyState).thisModel.errorsFound = false ↔
        (inputTen.GetNumObjectsFound = 0 ∨ (inputTen.GetNumObjectsFound = 1 ∧ 12 ≤ inputTen.NumNums))) ∧
      ((DeepGTMFactory sampleDeep inputTen emptyState).returned = none ↔
        ¬ (inputTen.GetNumObjectsFound = 0 ∨ (inputTen.GetNumObjectsFound = 1 ∧ 12 ≤ inputTen.NumNums)))))) :=
  ⟨⟨rfl, rfl⟩, C8_admission_decision sampleBuildingSurface sampleDeep inputTen emptyState rfl rfl⟩

open SiteBuildingSurfaceGroundTemps SiteDeepGroundTemps in
/-- C9 (append-only registry, all-or-nothing admission). For every prior registry content and
every factory input, in both variants the registry after the call is the prior registry with the
returned model appended as last element when a model is returned, and is exactly the prior
registry when none is returned. -/
theorem C9_registry_append_only (freshB : SiteBuildingSurfaceGroundTemps)
    (freshD : SiteDeepGroundTemps) (inp : InputProcessor) (w : State) :
    ((BuildingSurfaceGTMFactory freshB inp w).state.groundTempModels =
      match (BuildingSurfaceGTMFactory freshB inp w).returned with
      | some model => w.groundTempModels ++ [BaseGroundTempsModel.buildingSurface model]
      | none => w.groundTempModels) ∧
    ((DeepGTMFactory freshD inp w).state.groundTempModels =
      match (DeepGTMFactory freshD inp w).returned with
      | some model => w.groundTempModels ++ [BaseGroundTempsModel.deep model]
      | none => w.groundTempModels) := by
  constructor
  · rw [buildingSurface_factory_registry, buildingSurface_factory_returned]
    cases (SiteBuildingSurfaceGroundTemps.readInput freshB inp w).1.errorsFound <;> simp
  · rw [deep_factory_registry, deep_factory_returned]
    cases (SiteDeepGroundTemps.readInput freshD inp w).1.errorsFound <;> simp

open SiteBuildingSurfaceGroundTemps SiteDeepGroundTemps in
/-- C10 (the record in the initialisation output is always written). On every path of both
factories, whatever the object count and field count and whether a model is returned or not,
the writes to the output file are exactly one record: the header line, the variant name, the 12
monthly temperatures of the object built, January to December, and the end of the record. -/
theorem C10_audit_record_always (freshB : SiteBuildingSurfaceGroundTemps)
    (freshD : SiteDeepGroundTemps) (inp : InputProcessor) (w : State) :
    ((BuildingSurfaceGTMFactory freshB inp w).state.OutputFileInits =
      w.OutputFileInits ++
        [InitsWrite.str fmtA "! <Site:GroundTemperature:BuildingSurface>, Months From Jan to Dec \x7bC\x7d",
         InitsWrite.str fmtAN " Site:GroundTemperature:BuildingSurface",
         InitsWrite.real fmtTemp ((BuildingSurfaceGTMFactory freshB inp w).thisModel.buildingSurfaceGroundTemps 0),
         InitsWrite.real fmtTemp ((BuildingSurfaceGTMFactory freshB inp w).thisModel.buildingSurfaceGroundTemps 1),
         InitsWrite.real fmtTemp ((BuildingSurfaceGTMFactory freshB inp w).thisModel.buildingSurfaceGroundTemps 2),
         InitsWrite.real fmtTemp ((BuildingSurfaceGTMFactory freshB inp w).thisModel.buildingSurfaceGroundTemps 3),
         InitsWrite.real fmtTemp ((BuildingSurfaceGTMFactory freshB inp w).thisModel.buildingSurfaceGroundTemps 4),
         InitsWrite.real fmtTemp ((BuildingSurfaceGTMFactory freshB inp w).thisModel.buildingSurfaceGroundTemps 5),
         InitsWrite.real fmtTemp ((BuildingSurfaceGTMFactory freshB inp w).thisModel.buildingSurfaceGroundTemps 6),
         InitsWrite.real fmtTemp ((BuildingSurfaceGTMFactory freshB inp w).thisModel.buildingSurfaceGroundTemps 7),
         InitsWrite.real fmtTemp ((BuildingSurfaceGTMFactory freshB inp w).thisModel.buildingSurfaceGroundTemps 8),
         InitsWrite.real fmtTemp ((BuildingSurfaceGTMFactory freshB inp w).thisModel.buildingSurfaceGroundTemps 9),
         InitsWrite.real fmtTemp ((BuildingSurfaceGTMFactory freshB inp w).thisModel.buildingSurfaceGroundTemps 10),
         InitsWrite.real fmtTemp ((BuildingSurfaceGTMFactory freshB inp w).thisModel.buildingSurfaceGroundTemps 11),
         InitsWrite.endRecord]) ∧
    ((DeepGTMFactory freshD inp w).state.OutputFileInits =
      w.OutputFileInits ++
        [InitsWrite.str fmtA "! <Site:GroundTemperature:Deep>, Months From Jan to Dec \x7bC\x7d",
         InitsWrite.str fmtAN " Site:GroundTemperature:Deep",
         InitsWrite.real fmtTemp ((DeepGTMFactory freshD inp w).thisModel.deepGroundTemps 0),
         InitsWrite.real fmtTemp ((DeepGTMFactory freshD inp w).thisModel.deepGroundTemps 1),
         InitsWrite.real fmtTemp ((DeepGTMFactory freshD inp w).thisModel.deepGroundTemps 2),
         InitsWrite.real fmtTemp ((DeepGTMFactory freshD inp w).thisModel.deepGroundTemps 3),
         InitsWrite.real fmtTemp ((DeepGTMFactory freshD inp w).thisModel.deepGroundTemps 4),
         InitsWrite.real fmtTemp ((DeepGTMFactory freshD inp w).thisModel.deepGroundTemps 5),
         InitsWrite.real fmtTemp ((DeepGTMFactory freshD inp w).thisModel.deepGroundTemps 6),
         InitsWrite.real fmtTemp ((DeepGTMFactory freshD inp w).thisModel.deepGroundTemps 7),
         InitsWrite.real fmtTemp ((DeepGTMFactory freshD inp w).thisModel.deepGroundTemps 8),
         InitsWrite.real fmtTemp ((DeepGTMFactory freshD inp w).thisModel.deepGroundTemps 9),
         InitsWrite.real fmtTemp ((DeepGTMFactory freshD inp w).thisModel.deepGroundTemps 10),
         InitsWrite.real fmtTemp ((DeepGTMFactory freshD inp w).thisModel.deepGroundTemps 11),
         InitsWrite.endRecord]) := by
  constructor
  · rw [buildingSurface_factory_inits, buildingSurface_factory_thisModel]
    rfl
  · rw [deep_factory_inits, deep_factory_thisModel]
    rfl

open SiteBuildingSurfaceGroundTemps SiteDeepGroundTemps in
/-- C11 as amended (first year resolves to January unless the quotient underflows). For
every finite `seconds` with `0 < seconds <= 12 * secPerMonth = 31536000` whose quotient
`seconds / 31536000` is not rounded to zero in `double` arithmetic (the exact quotient is above
`2 ^ -1075`, that is `seconds` above about 7.79e-317), in both variants the month computed is
`ceil( seconds / 31536000 ) = 1`, `getGroundTempAtTimeInSeconds` sets `timeOfSimInMonths` to
1 and returns the first stored temperature (January), wherever the instant lies in the year. -/
theorem C11_first_year_is_january_above_underflow (selfB : SiteBuildingSurfaceGroundTemps)
    (selfD : SiteDeepGroundTemps) (depth : Double) (seconds : ℚ)
    (h0 : 0 < seconds) (h1 : seconds ≤ 31536000) (hu : 1 / 2 ^ 1075 < seconds / 31536000) :
    (Double.ceil (Double.divFinite (Double.finite seconds) (((365 * 3600 * 24 / 12 : Int) : ℚ) * 12))
      = Double.finite 1 ∧
    SiteBuildingSurfaceGroundTemps.getGroundTempAtTimeInSecondsDouble selfB depth
        (Double.finite seconds) =
      (Outcome.value (selfB.buildingSurfaceGroundTemps 0),
        { selfB with timeOfSimInMonths := 1 }) ∧
    SiteDeepGroundTemps.getGroundTempAtTimeInSecondsDouble selfD depth (Double.finite seconds) =
      (Outcome.value (selfD.deepGroundTemps 0), { selfD with timeOfSimInMonths := 1 })) := by
  refine ⟨?_, buildingSurface_double_first_year selfB depth seconds h0 h1 hu,
    deep_double_first_year selfD depth seconds h0 h1 hu⟩
  rw [secPerMonth_mul_twelve]
  exact ceil_roundToDouble_first_year seconds h1 hu

open SiteBuildingSurfaceGroundTemps SiteDeepGroundTemps in
/-- Witness of C11 as amended: one million seconds (in the twelfth day of the year). -/
theorem C11_first_year_is_january_above_underflow_witness :
    ((0 : ℚ) < 1000000 ∧ (1000000 : ℚ) ≤ 31536000 ∧
      (1 : ℚ) / 2 ^ 1075 < (1000000 : ℚ) / 31536000) ∧
    (Double.ceil (Double.divFinite (Double.finite (1000000 : ℚ)) (((365 * 3600 * 24 / 12 : Int) : ℚ) * 12))
      = Double.finite 1 ∧
    SiteBuildingSurfaceGroundTemps.getGroundTempAtTimeInSecondsDouble sampleBuildingSurface (Double.finite 0)
        (Double.finite (1000000 : ℚ)) =
      (Outcome.value (sampleBuildingSurface.buildingSurfaceGroundTemps 0),
        { sampleBuildingSurface with timeOfSimInMonths := 1 }) ∧
    SiteDeepGroundTemps.getGroundTempAtTimeInSecondsDouble sampleDeep (Double.finite 0) (Double.finite (1000000 : ℚ)) =
      (Outcome.value (sampleDeep.deepGroundTemps 0), { sampleDeep with timeOfSimInMonths := 1 })) :=
  ⟨⟨by norm_num, by norm_num,
      lt_trans (inv_two_pow_lt 5 1075 (by norm_num)) (by norm_num)⟩,
    C11_first_year_is_january_above_underflow sampleBuildingSurface sampleDeep (Double.finite 0)
      1000000 (by norm_num) (by norm_num)
      (lt_trans (inv_two_pow_lt 5 1075 (by norm_num)) (by norm_num))⟩

open SiteBuildingSurfaceGroundTemps SiteDeepGroundTemps in
/-- C11 as stated fails for the smallest positive `double`, `2 ^ -1074`: it lies in
`0 < seconds <= 31536000`, but the quotient `seconds / 31536000` is rounded to zero, its
ceiling is 0, both variants set `timeOfSimInMonths` to 0 and read outside the array. -/
theorem C11_underflow_counterexample :
    (0 < smallestPositiveDouble ∧ smallestPositiveDouble ≤ 31536000) ∧
    Double.ceil (Double.divFinite (Double.finite smallestPositiveDouble)
        (((365 * 3600 * 24 / 12 : Int) : ℚ) * 12)) = Double.finite 0 ∧
    SiteBuildingSurfaceGroundTemps.getGroundTempAtTimeInSecondsDouble sampleBuildingSurface
        (Double.finite 0) (Double.finite smallestPositiveDouble) =
      (Outcome.undefinedRead, { sampleBuildingSurface with timeOfSimInMonths := 0 }) ∧
    SiteDeepGroundTemps.getGroundTempAtTimeInSecondsDouble sampleDeep
        (Double.finite 0) (Double.finite smallestPositiveDouble) =
      (Outcome.undefinedRead, { sampleDeep with timeOfSimInMonths := 0 }) := by
  have hpos : 0 < smallestPositiveDouble := by
    unfold smallestPositiveDouble
    positivity
  have hu : smallestPositiveDouble / 31536000 ≤ 1 / 2 ^ 1075 := by
    unfold smallestPositiveDouble
    rw [← half_mul_inv_two_pow 1074 1075 (by norm_num), div_eq_mul_one_div, mul_comm]
    exact mul_le_mul_of_nonneg_right (by norm_num) (by positivity)
  have hq : 0 < smallestPositiveDouble / 31536000 := by positivity
  refine ⟨⟨hpos, ?_⟩, ?_, buildingSurface_double_underflow _ _ _ hpos hu,
    deep_double_underflow _ _ _ hpos hu⟩
  · unfold smallestPositiveDouble
    exact le_trans (inv_two_pow_le_one 1074) (by norm_num)
  · rw [secPerMonth_mul_twelve]
    have hr := roundToDouble_underflow _ hq hu
    have hd : Double.divFinite (Double.finite smallestPositiveDouble) 31536000
        = roundToDouble (smallestPositiveDouble / 31536000) := rfl
    have hc : Double.ceil (Double.finite 0) = Double.finite (((⌈(0 : ℚ)⌉ : Int) : ℚ)) := rfl
    rw [hd, hr, hc, Int.ceil_zero, Int.cast_zero]

open SiteBuildingSurfaceGroundTemps SiteDeepGroundTemps in
/-- C12 (month index after a look-up by seconds), evaluated at two instants. At
`seconds = 220752000` (7 years of 31536000 seconds) both variants set `timeOfSimInMonths`
to -5, and at `seconds = 378432000` (12 years) to 0; the read of the temperature array is then
outside its 12 values. So the index is not always in 1..12 for `seconds > 0`. -/
theorem C12_month_index_outside_range :
    SiteBuildingSurfaceGroundTemps.getGroundTempAtTimeInSeconds sampleBuildingSurface 0 220752000
      = (Outcome.undefinedRead, { sampleBuildingSurface with timeOfSimInMonths := -5 }) ∧
    SiteDeepGroundTemps.getGroundTempAtTimeInSeconds sampleDeep 0 220752000
      = (Outcome.undefinedRead, { sampleDeep with timeOfSimInMonths := -5 }) ∧
    SiteBuildingSurfaceGroundTemps.getGroundTempAtTimeInSeconds sampleBuildingSurface 0 378432000
      = (Outcome.undefinedRead, { sampleBuildingSurface with timeOfSimInMonths := 0 }) ∧
    SiteDeepGroundTemps.getGroundTempAtTimeInSeconds sampleDeep 0 378432000
      = (Outcome.undefinedRead, { sampleDeep with timeOfSimInMonths := 0 }) := by
  have c7 : ⌈(220752000 : ℚ) / 31536000⌉ = 7 := by
    rw [Int.ceil_eq_iff]; constructor <;> norm_num
  have c12 : ⌈(378432000 : ℚ) / 31536000⌉ = 12 := by
    rw [Int.ceil_eq_iff]; constructor <;> norm_num
  have m7 : monthOfSeconds 220752000 = some (-5) := by
    rw [monthOfSeconds_later 220752000 (by norm_num) (by rw [c7]; norm_num), c7]; rfl
  have m12 : monthOfSeconds 378432000 = some 0 := by
    rw [monthOfSeconds_later 378432000 (by norm_num) (by rw [c12]; norm_num), c12]; rfl
  refine ⟨?_, ?_, ?_, ?_⟩
  · rw [buildingSurface_seconds_eq_months _ _ _ (by norm_num), m7]; rfl
  · rw [deep_seconds_eq_months _ _ _ (by norm_num), m7]; rfl
  · rw [buildingSurface_seconds_eq_months _ _ _ (by norm_num), m12]; rfl
  · rw [deep_seconds_eq_months _ _ _ (by norm_num), m12]; rfl

open SiteBuildingSurfaceGroundTemps SiteDeepGroundTemps in
/-- C13 as amended (`getGroundTemp` has no guard). In both variants, for every object, whether
or not a look-up by month or by seconds came before, `getGroundTemp()` reads the temperature
array at `timeOfSimInMonths`: it returns the value stored there when the index is in 1..12 and
is a read outside the array otherwise; it never ends in an explicit (fatal) failure. -/
theorem C13_getGroundTemp_unguarded (selfB : SiteBuildingSurfaceGroundTemps)
    (selfD : SiteDeepGroundTemps) :
    (((∃ j : Fin 12, (j.val : Int) + 1 = selfB.timeOfSimInMonths ∧
          SiteBuildingSurfaceGroundTemps.getGroundTemp selfB
            = Outcome.value (selfB.buildingSurfaceGroundTemps j)) ∨
        ((selfB.timeOfSimInMonths < 1 ∨ 12 < selfB.timeOfSimInMonths) ∧
          SiteBuildingSurfaceGroundTemps.getGroundTemp selfB = Outcome.undefinedRead)) ∧
      ¬ ∃ msg, SiteBuildingSurfaceGroundTemps.getGroundTemp selfB = Outcome.fatal msg) ∧
    (((∃ j : Fin 12, (j.val : Int) + 1 = selfD.timeOfSimInMonths ∧
          SiteDeepGroundTemps.getGroundTemp selfD = Outcome.value (selfD.deepGroundTemps j)) ∨
        ((selfD.timeOfSimInMonths < 1 ∨ 12 < selfD.timeOfSimInMonths) ∧
          SiteDeepGroundTemps.getGroundTemp selfD = Outcome.undefinedRead)) ∧
      ¬ ∃ msg, SiteDeepGroundTemps.getGroundTemp selfD = Outcome.fatal msg) :=
  ⟨⟨buildingSurface_getGroundTemp_cases selfB,
      fun ⟨msg, h⟩ => buildingSurface_getGroundTemp_ne_fatal selfB msg h⟩,
    ⟨deep_getGroundTemp_cases selfD, fun ⟨msg, h⟩ => deep_getGroundTemp_ne_fatal selfD msg h⟩⟩

open SiteBuildingSurfaceGroundTemps SiteDeepGroundTemps in
/-- C13 as stated fails: on the model each factory returns for an input without objects (built
from a fresh object whose month index is 0), `getGroundTemp()` before any look-up is a read
outside the array, not an explicit failure. -/
theorem C13_no_explicit_failure_counterexample :
    (∃ model, (BuildingSurfaceGTMFactory sampleBuildingSurface inputNone emptyState).returned
          = some model ∧
        SiteBuildingSurfaceGroundTemps.getGroundTemp model = Outcome.undefinedRead ∧
        ¬ ∃ msg, SiteBuildingSurfaceGroundTemps.getGroundTemp model = Outcome.fatal msg) ∧
    (∃ model, (DeepGTMFactory sampleDeep inputNone emptyState).returned = some model ∧
        SiteDeepGroundTemps.getGroundTemp model = Outcome.undefinedRead ∧
        ¬ ∃ msg, SiteDeepGroundTemps.getGroundTemp model = Outcome.fatal msg) := by
  constructor
  · refine ⟨(SiteBuildingSurfaceGroundTemps.readInput sampleBuildingSurface inputNone emptyState).1,
      ?_, ?_, fun ⟨msg, h⟩ => buildingSurface_getGroundTemp_ne_fatal _ msg h⟩
    · rw [buildingSurface_factory_returned, buildingSurface_readInput_errorsFound]; rfl
    · rw [buildingSurface_readInput_zero _ _ _ rfl]; rfl
  · refine ⟨(SiteDeepGroundTemps.readInput sampleDeep inputNone emptyState).1,
      ?_, ?_, fun ⟨msg, h⟩ => deep_getGroundTemp_ne_fatal _ msg h⟩
    · rw [deep_factory_returned, deep_readInput_errorsFound]; rfl
    · rw [deep_readInput_zero _ _ _ rfl]; rfl

open SiteBuildingSurfaceGroundTemps SiteDeepGroundTemps in
/-- C14 (frame of the look-ups). In both variants, for every object and every argument:
`getGroundTempAtTimeInMonths` leaves the object as it was except for `timeOfSimInMonths`, which
becomes `month`; `getGroundTempAtTimeInSeconds` leaves the object unchanged or changes only
`timeOfSimInMonths`; so the 12 temperatures and `errorsFound` are the same before and after.
`getGroundTemp` is a function of the object alone and leaves no changed object behind. -/
theorem C14_lookup_frame (selfB : SiteBuildingSurfaceGroundTemps) (selfD : SiteDeepGroundTemps)
    (depth seconds : Real64) (month : Int) :
    ((SiteBuildingSurfaceGroundTemps.getGroundTempAtTimeInMonths selfB depth month).2
        = { selfB with timeOfSimInMonths := month } ∧
      ((SiteBuildingSurfaceGroundTemps.getGroundTempAtTimeInSeconds selfB depth seconds).2 = selfB ∨
        ∃ m : Int, (SiteBuildingSurfaceGroundTemps.getGroundTempAtTimeInSeconds selfB depth seconds).2
          = { selfB with timeOfSimInMonths := m }) ∧
      (SiteBuildingSurfaceGroundTemps.getGroundTempAtTimeInSeconds selfB depth
          seconds).2.buildingSurfaceGroundTemps = selfB.buildingSurfaceGroundTemps ∧
      (SiteBuildingSurfaceGroundTemps.getGroundTempAtTimeInSeconds selfB depth
          seconds).2.errorsFound = selfB.errorsFound ∧
      (SiteBuildingSurfaceGroundTemps.getGroundTempAtTimeInMonths selfB depth
          month).2.buildingSurfaceGroundTemps = selfB.buildingSurfaceGroundTemps ∧
      (SiteBuildingSurfaceGroundTemps.getGroundTempAtTimeInMonths selfB depth
          month).2.errorsFound = selfB.errorsFound) ∧
    ((SiteDeepGroundTemps.getGroundTempAtTimeInMonths selfD depth month).2
        = { selfD with timeOfSimInMonths := month } ∧
      ((SiteDeepGroundTemps.getGroundTempAtTimeInSeconds selfD depth seconds).2 = selfD ∨
        ∃ m : Int, (SiteDeepGroundTemps.getGroundTempAtTimeInSeconds selfD depth seconds).2
          = { selfD with timeOfSimInMonths := m }) ∧
      (SiteDeepGroundTemps.getGroundTempAtTimeInSeconds selfD depth seconds).2.deepGroundTemps
        = selfD.deepGroundTemps ∧
      (SiteDeepGroundTemps.getGroundTempAtTimeInSeconds selfD depth seconds).2.errorsFound
        = selfD.errorsFound ∧
      (SiteDeepGroundTemps.getGroundTempAtTimeInMonths selfD depth month).2.deepGroundTemps
        = selfD.deepGroundTemps ∧
      (SiteDeepGroundTemps.getGroundTempAtTimeInMonths selfD depth month).2.errorsFound
        = selfD.errorsFound) := by
  constructor
  · refine ⟨rfl, buildingSurface_seconds_state selfB depth seconds, ?_, ?_, rfl, rfl⟩
    · rcases buildingSurface_seconds_state selfB depth seconds with h | ⟨m, h⟩ <;> rw [h]
    · rcases buildingSurface_seconds_state selfB depth seconds with h | ⟨m, h⟩ <;> rw [h]
  · refine ⟨rfl, deep_seconds_state selfD depth seconds, ?_, ?_, rfl, rfl⟩
    · rcases deep_seconds_state selfD depth seconds with h | ⟨m, h⟩ <;> rw [h]
    · rcases deep_seconds_state selfD depth seconds with h | ⟨m, h⟩ <;> rw [h]

open SiteBuildingSurfaceGroundTemps SiteDeepGroundTemps in
/-- C15 (the depth is unused). In both variants, for every object, every `seconds`, every
`month` and any two depths `d1`, `d2`: the look-up by seconds gives the same outcome (value,
undefined read or fatal) and the same object afterwards for `d1` as for `d2`, and so does the
look-up by month. -/
theorem C15_depth_unused (selfB : SiteBuildingSurfaceGroundTemps) (selfD : SiteDeepGroundTemps)
    (d1 d2 seconds : Real64) (month : Int) :
    SiteBuildingSurfaceGroundTemps.getGroundTempAtTimeInSeconds selfB d1 seconds
      = SiteBuildingSurfaceGroundTemps.getGroundTempAtTimeInSeconds selfB d2 seconds ∧
    SiteBuildingSurfaceGroundTemps.getGroundTempAtTimeInMonths selfB d1 month
      = SiteBuildingSurfaceGroundTemps.getGroundTempAtTimeInMonths selfB d2 month ∧
    SiteDeepGroundTemps.getGroundTempAtTimeInSeconds selfD d1 seconds
      = SiteDeepGroundTemps.getGroundTempAtTimeInSeconds selfD d2 seconds ∧
    SiteDeepGroundTemps.getGroundTempAtTimeInMonths selfD d1 month
      = SiteDeepGroundTemps.getGroundTempAtTimeInMonths selfD d2 month :=
  ⟨rfl, rfl, rfl, rfl⟩

open SiteBuildingSurfaceGroundTemps SiteDeepGroundTemps in
/-- C16 (wraparound branch, exact result). Let `Y = 31536000`. For every `seconds > Y` whose
`k = ceil( seconds / Y )` fits in a 32-bit `int`, in both variants `getGroundTempAtTimeInSeconds`
sets `timeOfSimInMonths` to the remainder of `k` by 12 with ties to even, which is `wrapIndex k`:
with `r = k mod 12`, `r` for `r` in 0..5, `r - 12` for `r` in 7..11, 6 when `k mod 24 = 6` and
-6 when `k mod 24 = 18`. The index is a month 1..12 exactly when `r` is 1..5 or `k mod 24 = 6`,
and is zero or negative otherwise; 7 years give -5 and 12 years give 0. -/
theorem C16_wraparound_index (selfB : SiteBuildingSurfaceGroundTemps)
    (selfD : SiteDeepGroundTemps) (depth seconds : Real64)
    (hs : 31536000 < seconds) (hk : ⌈seconds / 31536000⌉ ≤ 2147483647) :
    (((wrapIndex ⌈seconds / 31536000⌉ : Int) : ℚ) = remainder ((⌈seconds / 31536000⌉ : Int) : ℚ) 12 ∧
    (SiteBuildingSurfaceGroundTemps.getGroundTempAtTimeInSeconds selfB depth seconds).2
      = { selfB with timeOfSimInMonths := wrapIndex ⌈seconds / 31536000⌉ } ∧
    (SiteDeepGroundTemps.getGroundTempAtTimeInSeconds selfD depth seconds).2
      = { selfD with timeOfSimInMonths := wrapIndex ⌈seconds / 31536000⌉ } ∧
    ((1 ≤ wrapIndex ⌈seconds / 31536000⌉ ∧ wrapIndex ⌈seconds / 31536000⌉ ≤ 12) ↔
      ((1 ≤ ⌈seconds / 31536000⌉ % 12 ∧ ⌈seconds / 31536000⌉ % 12 ≤ 5) ∨
        ⌈seconds / 31536000⌉ % 24 = 6)) ∧
    ((1 ≤ wrapIndex ⌈seconds / 31536000⌉ ∧ wrapIndex ⌈seconds / 31536000⌉ ≤ 12) ∨
      wrapIndex ⌈seconds / 31536000⌉ ≤ 0) ∧
    wrapIndex 7 = -5 ∧ wrapIndex 12 = 0 ∧ wrapIndex 6 = 6 ∧ wrapIndex 18 = -6) := by
  have h0 : 0 < seconds := by linarith
  have hm := monthOfSeconds_later seconds hs hk
  refine ⟨(remainder_intCast _).symm, ?_, ?_, ?_, ?_, by decide, by decide, by decide, by decide⟩
  · rw [buildingSurface_seconds_eq_months selfB depth seconds h0, hm]; rfl
  · rw [deep_seconds_eq_months selfD depth seconds h0, hm]; rfl
  · unfold wrapIndex
    split_ifs <;> omega
  · unfold wrapIndex
    split_ifs <;> omega

open SiteBuildingSurfaceGroundTemps SiteDeepGroundTemps in
/-- Witness of C16: `seconds = 220752000`, seven years of 31536000 seconds. -/
theorem C16_wraparound_index_witness :
    ((31536000 : ℚ) < 220752000 ∧ ⌈(220752000 : ℚ) / 31536000⌉ ≤ 2147483647) ∧
    (((wrapIndex ⌈(220752000 : ℚ) / 31536000⌉ : Int) : ℚ) = remainder ((⌈(220752000 : ℚ) / 31536000⌉ : Int) : ℚ) 12 ∧
    (SiteBuildingSurfaceGroundTemps.getGroundTempAtTimeInSeconds sampleBuildingSurface 0 (220752000 : ℚ)).2
      = { sampleBuildingSurface with timeOfSimInMonths := wrapIndex ⌈(220752000 : ℚ) / 31536000⌉ } ∧
    (SiteDeepGroundTemps.getGroundTempAtTimeInSeconds sampleDeep 0 (220752000 : ℚ)).2
      = { sampleDeep with timeOfSimInMonths := wrapIndex ⌈(220752000 : ℚ) / 31536000⌉ } ∧
    ((1 ≤ wrapIndex ⌈(220752000 : ℚ) / 31536000⌉ ∧ wrapIndex ⌈(220752000 : ℚ) / 31536000⌉ ≤ 12) ↔
      ((1 ≤ ⌈(220752000 : ℚ) / 31536000⌉ % 12 ∧ ⌈(220752000 : ℚ) / 31536000⌉ % 12 ≤ 5) ∨
        ⌈(220752000 : ℚ) / 31536000⌉ % 24 = 6)) ∧
    ((1 ≤ wrapIndex ⌈(220752000 : ℚ) / 31536000⌉ ∧ wrapIndex ⌈(220752000 : ℚ) / 31536000⌉ ≤ 12) ∨
      wrapIndex ⌈(220752000 : ℚ) / 31536000⌉ ≤ 0) ∧
    wrapIndex 7 = -5 ∧ wrapIndex 12 = 0 ∧ wrapIndex 6 = 6 ∧ wrapIndex 18 = -6) :=
  ⟨⟨by norm_num, Int.ceil_le.mpr (by norm_num)⟩,
    C16_wraparound_index sampleBuildingSurface sampleDeep 0 220752000 (by norm_num)
      (Int.ceil_le.mpr (by norm_num))⟩

open SiteBuildingSurfaceGroundTemps in
/-- C17 (when the range warning of BuildingSurface is emitted). For every object count, every
field count `NumNums` and every content of the numeric buffer, the number of warnings
`BuildingSurfaceGTMFactory` emits is 1 when exactly one object is present and at least one of
the slots 1..12 is strictly below 15 or strictly above 25, and 0 otherwise: values equal to 15
or to 25 count as inside, the field count plays no part, and there is no warning for a count of
0 or above 1. The warning emitted is the "Some values fall outside the range of 15-25C" one. -/
theorem C17_range_warning_condition (fresh : SiteBuildingSurfaceGroundTemps)
    (inp : InputProcessor) (w : State) :
    (emittedSince w (BuildingSurfaceGTMFactory fresh inp w).state).countP Diagnostic.isWarning =
      (if inp.GetNumObjectsFound = 1 ∧
          ∃ j : Fin 12, inp.rNumericArgs (j.val + 1) < 15 ∨ inp.rNumericArgs (j.val + 1) > 25
        then 1 else 0) ∧
    (emittedSince w (BuildingSurfaceGTMFactory fresh inp w).state).countP Diagnostic.isWarning =
      (if inp.GetNumObjectsFound = 1 ∧
          ¬ ∀ j : Fin 12, 15 ≤ inp.rNumericArgs (j.val + 1) ∧ inp.rNumericArgs (j.val + 1) ≤ 25
        then 1 else 0) ∧
    (Diagnostic.ShowWarningError
        "Site:GroundTemperature:BuildingSurface: Some values fall outside the range of 15-25C."
        ∈ emittedSince w (BuildingSurfaceGTMFactory fresh inp w).state ↔
      (inp.GetNumObjectsFound = 1 ∧
        ∃ j : Fin 12, inp.rNumericArgs (j.val + 1) < 15 ∨ inp.rNumericArgs (j.val + 1) > 25)) := by
  have hiff : (¬ ∀ j : Fin 12,
      15 ≤ inp.rNumericArgs (j.val + 1) ∧ inp.rNumericArgs (j.val + 1) ≤ 25) ↔
      ∃ j : Fin 12, inp.rNumericArgs (j.val + 1) < 15 ∨ inp.rNumericArgs (j.val + 1) > 25 := by
    constructor
    · intro h
      by_contra hne
      apply h
      intro j
      constructor
      · by_contra hlt
        exact hne ⟨j, Or.inl (not_le.mp hlt)⟩
      · by_contra hgt
        exact hne ⟨j, Or.inr (not_le.mp hgt)⟩
    · rintro ⟨j, hj⟩ hall
      rcases hj with hj | hj
      · exact absurd (hall j).1 (not_le.mpr hj)
      · exact absurd (hall j).2 (not_le.mpr hj)
  have key :
      (emittedSince w (BuildingSurfaceGTMFactory fresh inp w).state).countP Diagnostic.isWarning =
        (if inp.GetNumObjectsFound = 1 ∧
            ∃ j : Fin 12, inp.rNumericArgs (j.val + 1) < 15 ∨ inp.rNumericArgs (j.val + 1) > 25
          then 1 else 0) ∧
      (Diagnostic.ShowWarningError
          "Site:GroundTemperature:BuildingSurface: Some values fall outside the range of 15-25C."
          ∈ emittedSince w (BuildingSurfaceGTMFactory fresh inp w).state ↔
        (inp.GetNumObjectsFound = 1 ∧
          ∃ j : Fin 12,
            inp.rNumericArgs (j.val + 1) < 15 ∨ inp.rNumericArgs (j.val + 1) > 25)) := by
    rw [buildingSurface_emitted]
    by_cases h1 : inp.GetNumObjectsFound = 1
    · by_cases hg : ∃ j : Fin 12,
          inp.rNumericArgs (j.val + 1) < 15 ∨ inp.rNumericArgs (j.val + 1) > 25
      · simp only [h1, hg, if_true, and_self]
        split_ifs <;> simp [Diagnostic.isWarning]
      · simp only [h1, hg, if_true, if_false, and_false]
        split_ifs <;> simp [Diagnostic.isWarning]
    · simp only [h1, if_false, false_and]
      split_ifs <;> simp [Diagnostic.isWarning]
  refine ⟨key.1, ?_, key.2⟩
  rw [key.1]
  exact if_congr (and_congr Iff.rfl hiff.symm) rfl rfl

open SiteBuildingSurfaceGroundTemps SiteDeepGroundTemps in
/-- C18 (failure diagnostics). In both factories, the fresh object carrying no error: the
continuation message "<variant>--Errors getting input for ground temperature model" is among
the messages emitted if and only if no model is returned; a call that returns no model emits
exactly one Severe error, and a call that returns a model emits none; and when no model is
returned the messages emitted start with the Severe error and end with that continuation
message, which occurs nowhere in between. -/
theorem C18_failure_diagnostics (freshB : SiteBuildingSurfaceGroundTemps)
    (freshD : SiteDeepGroundTemps) (inp : InputProcessor) (w : State)
    (hB : freshB.errorsFound = false) (hD : freshD.errorsFound = false) :
    ((Diagnostic.ShowContinueError
          "Site:GroundTemperature:BuildingSurface--Errors getting input for ground temperature model" ∈ emittedSince w (BuildingSurfaceGTMFactory freshB inp w).state
        ↔ (BuildingSurfaceGTMFactory freshB inp w).returned = none) ∧
      (emittedSince w (BuildingSurfaceGTMFactory freshB inp w).state).countP Diagnostic.isSevere
        = (if (BuildingSurfaceGTMFactory freshB inp w).returned.isSome then 0 else 1) ∧
      ((BuildingSurfaceGTMFactory freshB inp w).returned.isSome = true ∨
        ∃ msg rest, emittedSince w (BuildingSurfaceGTMFactory freshB inp w).state
            = Diagnostic.ShowSevereError msg :: (rest ++ [Diagnostic.ShowContinueError
          "Site:GroundTemperature:BuildingSurface--Errors getting input for ground temperature model"]) ∧
          Diagnostic.ShowContinueError
          "Site:GroundTemperature:BuildingSurface--Errors getting input for ground temperature model" ∉ rest ∧
          rest.countP Diagnostic.isSevere = 0)) ∧
    ((Diagnostic.ShowContinueError
          "Site:GroundTemperature:Deep--Errors getting input for ground temperature model" ∈ emittedSince w (DeepGTMFactory freshD inp w).state
        ↔ (DeepGTMFactory freshD inp w).returned = none) ∧
      (emittedSince w (DeepGTMFactory freshD inp w).state).countP Diagnostic.isSevere
        = (if (DeepGTMFactory freshD inp w).returned.isSome then 0 else 1) ∧
      ((DeepGTMFactory freshD inp w).returned.isSome = true ∨
        ∃ msg rest, emittedSince w (DeepGTMFactory freshD inp w).state
            = Diagnostic.ShowSevereError msg :: (rest ++ [Diagnostic.ShowContinueError
          "Site:GroundTemperature:Deep--Errors getting input for ground temperature model"]) ∧
          Diagnostic.ShowContinueError
          "Site:GroundTemperature:Deep--Errors getting input for ground temperature model" ∉ rest ∧
          rest.countP Diagnostic.isSevere = 0)) :=
  ⟨buildingSurface_failure_messages freshB inp w hB, deep_failure_messages freshD inp w hD⟩

open SiteBuildingSurfaceGroundTemps SiteDeepGroundTemps in
/-- Witness of C18: two objects in the input, a failing call. -/
theorem C18_failure_diagnostics_witness :
    (sampleBuildingSurface.errorsFound = false ∧ sampleDeep.errorsFound = false) ∧
    (((Diagnostic.ShowContinueError
          "Site:GroundTemperature:BuildingSurface--Errors getting input for ground temperature model" ∈ emittedSince emptyState (BuildingSurfaceGTMFactory sampleBuildingSurface inputTwo emptyState).state
        ↔ (BuildingSurfaceGTMFactory sampleBuildingSurface inputTwo emptyState).returned = none) ∧
      (emittedSince emptyState (BuildingSurfaceGTMFactory sampleBuildingSurface inputTwo emptyState).state).countP Diagnostic.isSevere
        = (if (BuildingSurfaceGTMFactory sampleBuildingSurface inputTwo emptyState).returned.isSome then 0 else 1) ∧
      ((BuildingSurfaceGTMFactory sampleBuildingSurface inputTwo emptyState).returned.isSome = true ∨
        ∃ msg rest, emittedSince emptyState (BuildingSurfaceGTMFactory sampleBuildingSurface inputTwo emptyState).state
            = Diagnostic.ShowSevereError msg :: (rest ++ [Diagnostic.ShowContinueError
          "Site:GroundTemperature:BuildingSurface--Errors getting input for ground temperature model"]) ∧
          Diagnostic.ShowContinueError
          "Site:GroundTemperature:BuildingSurface--Errors getting input for ground temperature model" ∉ rest ∧
          rest.countP Diagnostic.isSevere = 0)) ∧
    ((Diagnostic.ShowContinueError
          "Site:GroundTemperature:Deep--Errors getting input for ground temperature model" ∈ emittedSince emptyState (DeepGTMFactory sampleDeep inputTwo emptyState).state
        ↔ (DeepGTMFactory sampleDeep inputTwo emptyState).returned = none) ∧
      (emittedSince emptyState (DeepGTMFactory sampleDeep inputTwo emptyState).state).countP Diagnostic.isSevere
        = (if (DeepGTMFactory sampleDeep inputTwo emptyState).returned.isSome then 0 else 1) ∧
      ((DeepGTMFactory sampleDeep inputTwo emptyState).returned.isSome = true ∨
        ∃ msg rest, emittedSince emptyState (DeepGTMFactory sampleDeep inputTwo emptyState).state
            = Diagnostic.ShowSevereError msg :: (rest ++ [Diagnostic.ShowContinueError
          "Site:GroundTemperature:Deep--Errors getting input for ground temperature model"]) ∧
          Diagnostic.ShowContinueError
          "Site:GroundTemperature:Deep--Errors getting input for ground temperature model" ∉ rest ∧
          rest.countP Diagnostic.isSevere = 0))) :=
  ⟨⟨rfl, rfl⟩, C18_failure_diagnostics sampleBuildingSurface sampleDeep inputTwo emptyState rfl rfl⟩

open SiteBuildingSurfaceGroundTemps SiteDeepGroundTemps in
/-- C19 as amended (the "object input" flags). After a call of `BuildingSurfaceGTMFactory` the
flag `GroundTempObjInput` is true when the object count is 1, whatever the number of fields and
whether or not a model is returned, and keeps its previous value when the count is 0 or above 1;
the flag `GroundTemp_DeepObjInput` is unchanged. `DeepGTMFactory` does the same with the roles
of the two flags exchanged. -/
theorem C19_flag_set_iff_one_object (freshB : SiteBuildingSurfaceGroundTemps)
    (freshD : SiteDeepGroundTemps) (inp : InputProcessor) (w : State) :
    ((BuildingSurfaceGTMFactory freshB inp w).state.GroundTempObjInput =
        (if inp.GetNumObjectsFound = 1 then true else w.GroundTempObjInput) ∧
      (BuildingSurfaceGTMFactory freshB inp w).state.GroundTemp_DeepObjInput
        = w.GroundTemp_DeepObjInput) ∧
    ((DeepGTMFactory freshD inp w).state.GroundTemp_DeepObjInput =
        (if inp.GetNumObjectsFound = 1 then true else w.GroundTemp_DeepObjInput) ∧
      (DeepGTMFactory freshD inp w).state.GroundTempObjInput = w.GroundTempObjInput) :=
  ⟨buildingSurface_factory_flags freshB inp w, deep_factory_flags freshD inp w⟩

open SiteBuildingSurfaceGroundTemps SiteDeepGroundTemps in
/-- C19 as stated fails: for one object with only 10 numeric fields both factories return no
model (construction failed), yet the variant's flag, false before the call, is true after it. -/
theorem C19_flag_set_on_failed_construction_counterexample :
    ((BuildingSurfaceGTMFactory sampleBuildingSurface inputTen emptyState).returned = none ∧
      emptyState.GroundTempObjInput = false ∧
      (BuildingSurfaceGTMFactory sampleBuildingSurface inputTen emptyState).state.GroundTempObjInput
        = true) ∧
    ((DeepGTMFactory sampleDeep inputTen emptyState).returned = none ∧
      emptyState.GroundTemp_DeepObjInput = false ∧
      (DeepGTMFactory sampleDeep inputTen emptyState).state.GroundTemp_DeepObjInput = true) := by
  refine ⟨⟨?_, rfl, ?_⟩, ⟨?_, rfl, ?_⟩⟩
  · rw [buildingSurface_factory_returned, buildingSurface_readInput_errorsFound]; rfl
  · rw [(buildingSurface_factory_flags sampleBuildingSurface inputTen emptyState).1]; rfl
  · rw [deep_factory_returned, deep_readInput_errorsFound]; rfl
  · rw [(deep_factory_flags sampleDeep inputTen emptyState).1]; rfl

/-- C21 (the look-up by month validates nothing). In both variants, for every object and every
integer `month` (0, negatives and values above 12 included), `getGroundTempAtTimeInMonths` sets
`timeOfSimInMonths` to exactly `month`, whatever it was before, and returns the array element
at that index; `getGroundTemp()` called right after returns the same; and the read is within
the 12 stored values if and only if `1 <= month <= 12` (otherwise it is outside the array). -/
theorem C21_month_lookup_unvalidated (selfB : SiteBuildingSurfaceGroundTemps)
    (selfD : SiteDeepGroundTemps) (depth : Real64) (month : Int) :
    ((SiteBuildingSurfaceGroundTemps.getGroundTempAtTimeInMonths selfB depth month).2 = { selfB with timeOfSimInMonths := month } ∧
      (SiteBuildingSurfaceGroundTemps.getGroundTempAtTimeInMonths selfB depth month).2.timeOfSimInMonths = month ∧
      (SiteBuildingSurfaceGroundTemps.getGroundTempAtTimeInMonths selfB depth month).1 =
        (match Array1D.read selfB.buildingSurfaceGroundTemps month with
         | some v => Outcome.value v
         | none => Outcome.undefinedRead) ∧
      SiteBuildingSurfaceGroundTemps.getGroundTemp (SiteBuildingSurfaceGroundTemps.getGroundTempAtTimeInMonths selfB depth month).2 = (SiteBuildingSurfaceGroundTemps.getGroundTempAtTimeInMonths selfB depth month).1 ∧
      ((∃ j : Fin 12, (j.val : Int) + 1 = month ∧
          (SiteBuildingSurfaceGroundTemps.getGroundTempAtTimeInMonths selfB depth month).1 = Outcome.value (selfB.buildingSurfaceGroundTemps j)) ↔ (1 ≤ month ∧ month ≤ 12)) ∧
      ((SiteBuildingSurfaceGroundTemps.getGroundTempAtTimeInMonths selfB depth month).1 = Outcome.undefinedRead ↔ ¬ (1 ≤ month ∧ month ≤ 12))) ∧
    ((SiteDeepGroundTemps.getGroundTempAtTimeInMonths selfD depth month).2 = { selfD with timeOfSimInMonths := month } ∧
      (SiteDeepGroundTemps.getGroundTempAtTimeInMonths selfD depth month).2.timeOfSimInMonths = month ∧
      (SiteDeepGroundTemps.getGroundTempAtTimeInMonths selfD depth month).1 =
        (match Array1D.read selfD.deepGroundTemps month with
         | some v => Outcome.value v
         | none => Outcome.undefinedRead) ∧
      SiteDeepGroundTemps.getGroundTemp (SiteDeepGroundTemps.getGroundTempAtTimeInMonths selfD depth month).2 = (SiteDeepGroundTemps.getGroundTempAtTimeInMonths selfD depth month).1 ∧
      ((∃ j : Fin 12, (j.val : Int) + 1 = month ∧
          (SiteDeepGroundTemps.getGroundTempAtTimeInMonths selfD depth month).1 = Outcome.value (selfD.deepGroundTemps j)) ↔ (1 ≤ month ∧ month ≤ 12)) ∧
      ((SiteDeepGroundTemps.getGroundTempAtTimeInMonths selfD depth month).1 = Outcome.undefinedRead ↔ ¬ (1 ≤ month ∧ month ≤ 12))) := by
  constructor
  · refine ⟨rfl, rfl, rfl, rfl, ?_, ?_⟩
    · constructor
      · rintro ⟨j, hj, _⟩
        omega
      · intro hm
        refine ⟨⟨(month - 1).toNat, by omega⟩, ?_, ?_⟩
        · simp only []
          omega
        · simp [SiteBuildingSurfaceGroundTemps.getGroundTempAtTimeInMonths, SiteBuildingSurfaceGroundTemps.getGroundTemp, Array1D.read, hm]
    · by_cases hm : 1 ≤ month ∧ month ≤ 12
      · simp [SiteBuildingSurfaceGroundTemps.getGroundTempAtTimeInMonths, SiteBuildingSurfaceGroundTemps.getGroundTemp, Array1D.read, hm]
      · simp [SiteBuildingSurfaceGroundTemps.getGroundTempAtTimeInMonths, SiteBuildingSurfaceGroundTemps.getGroundTemp, Array1D.read, hm]
  · refine ⟨rfl, rfl, rfl, rfl, ?_, ?_⟩
    · constructor
      · rintro ⟨j, hj, _⟩
        omega
      · intro hm
        refine ⟨⟨(month - 1).toNat, by omega⟩, ?_, ?_⟩
        · simp only []
          omega
        · simp [SiteDeepGroundTemps.getGroundTempAtTimeInMonths, SiteDeepGroundTemps.getGroundTemp, Array1D.read, hm]
    · by_cases hm : 1 ≤ month ∧ month ≤ 12
      · simp [SiteDeepGroundTemps.getGroundTempAtTimeInMonths, SiteDeepGroundTemps.getGroundTemp, Array1D.read, hm]
      · simp [SiteDeepGroundTemps.getGroundTempAtTimeInMonths, SiteDeepGroundTemps.getGroundTemp, Array1D.read, hm]

open SiteBuildingSurfaceGroundTemps SiteDeepGroundTemps in
/-- C23 (range of the index after a look-up by seconds). In both variants, for every
`seconds > 0` whose `ceil( seconds / 31536000 )` fits in a 32-bit `int`, the index
`getGroundTempAtTimeInSeconds` sets lies in -6..6, so it is never one of 7..12, and the value
returned, if any, comes from one of the first six slots (January..June): the values stored for
July..December are never returned. -/
theorem C23_seconds_index_range (selfB : SiteBuildingSurfaceGroundTemps)
    (selfD : SiteDeepGroundTemps) (depth seconds : Real64)
    (h : 0 < seconds) (hk : ⌈seconds / 31536000⌉ ≤ 2147483647) :
    ((-6 ≤ (SiteBuildingSurfaceGroundTemps.getGroundTempAtTimeInSeconds selfB depth seconds).2.timeOfSimInMonths ∧
        (SiteBuildingSurfaceGroundTemps.getGroundTempAtTimeInSeconds selfB depth seconds).2.timeOfSimInMonths ≤ 6) ∧
      ¬ (7 ≤ (SiteBuildingSurfaceGroundTemps.getGroundTempAtTimeInSeconds selfB depth seconds).2.timeOfSimInMonths ∧
        (SiteBuildingSurfaceGroundTemps.getGroundTempAtTimeInSeconds selfB depth seconds).2.timeOfSimInMonths ≤ 12) ∧
      ((SiteBuildingSurfaceGroundTemps.getGroundTempAtTimeInSeconds selfB depth seconds).1 = Outcome.undefinedRead ∨
        ∃ j : Fin 12, j.val < 6 ∧
          (SiteBuildingSurfaceGroundTemps.getGroundTempAtTimeInSeconds selfB depth seconds).1 = Outcome.value (selfB.buildingSurfaceGroundTemps j))) ∧
    ((-6 ≤ (SiteDeepGroundTemps.getGroundTempAtTimeInSeconds selfD depth seconds).2.timeOfSimInMonths ∧
        (SiteDeepGroundTemps.getGroundTempAtTimeInSeconds selfD depth seconds).2.timeOfSimInMonths ≤ 6) ∧
      ¬ (7 ≤ (SiteDeepGroundTemps.getGroundTempAtTimeInSeconds selfD depth seconds).2.timeOfSimInMonths ∧
        (SiteDeepGroundTemps.getGroundTempAtTimeInSeconds selfD depth seconds).2.timeOfSimInMonths ≤ 12) ∧
      ((SiteDeepGroundTemps.getGroundTempAtTimeInSeconds selfD depth seconds).1 = Outcome.undefinedRead ∨
        ∃ j : Fin 12, j.val < 6 ∧
          (SiteDeepGroundTemps.getGroundTempAtTimeInSeconds selfD depth seconds).1 = Outcome.value (selfD.deepGroundTemps j))) := by
  have hB := buildingSurface_seconds_index_range selfB depth seconds h hk
  have hD := deep_seconds_index_range selfD depth seconds h hk
  refine ⟨⟨⟨hB.1, hB.2.1⟩, ?_, hB.2.2⟩, ⟨⟨hD.1, hD.2.1⟩, ?_, hD.2.2⟩⟩
  · have := hB.2.1
    omega
  · have := hD.2.1
    omega

open SiteBuildingSurfaceGroundTemps SiteDeepGroundTemps in
/-- Witness of C23: `seconds = 220752000`, seven years of 31536000 seconds. -/
theorem C23_seconds_index_range_witness :
    ((0 : ℚ) < 220752000 ∧ ⌈(220752000 : ℚ) / 31536000⌉ ≤ 2147483647) ∧
    (((-6 ≤ (SiteBuildingSurfaceGroundTemps.getGroundTempAtTimeInSeconds sampleBuildingSurface 0 220752000).2.timeOfSimInMonths ∧
        (SiteBuildingSurfaceGroundTemps.getGroundTempAtTimeInSeconds sampleBuildingSurface 0 220752000).2.timeOfSimInMonths ≤ 6) ∧
      ¬ (7 ≤ (SiteBuildingSurfaceGroundTemps.getGroundTempAtTimeInSeconds sampleBuildingSurface 0 220752000).2.timeOfSimInMonths ∧
        (SiteBuildingSurfaceGroundTemps.getGroundTempAtTimeInSeconds sampleBuildingSurface 0 220752000).2.timeOfSimInMonths ≤ 12) ∧
      ((SiteBuildingSurfaceGroundTemps.getGroundTempAtTimeInSeconds sampleBuildingSurface 0 220752000).1 = Outcome.undefinedRead ∨
        ∃ j : Fin 12, j.val < 6 ∧
          (SiteBuildingSurfaceGroundTemps.getGroundTempAtTimeInSeconds sampleBuildingSurface 0 220752000).1 = Outcome.value (sampleBuildingSurface.buildingSurfaceGroundTemps j))) ∧
    ((-6 ≤ (SiteDeepGroundTemps.getGroundTempAtTimeInSeconds sampleDeep 0 220752000).2.timeOfSimInMonths ∧
        (SiteDeepGroundTemps.getGroundTempAtTimeInSeconds sampleDeep 0 220752000).2.timeOfSimInMonths ≤ 6) ∧
      ¬ (7 ≤ (SiteDeepGroundTemps.getGroundTempAtTimeInSeconds sampleDeep 0 220752000).2.timeOfSimInMonths ∧
        (SiteDeepGroundTemps.getGroundTempAtTimeInSeconds sampleDeep 0 220752000).2.timeOfSimInMonths ≤ 12) ∧
      ((SiteDeepGroundTemps.getGroundTempAtTimeInSeconds sampleDeep 0 220752000).1 = Outcome.undefinedRead ∨
        ∃ j : Fin 12, j.val < 6 ∧
          (SiteDeepGroundTemps.getGroundTempAtTimeInSeconds sampleDeep 0 220752000).1 = Outcome.value (sampleDeep.deepGroundTemps j)))) :=
  ⟨⟨by norm_num, Int.ceil_le.mpr (by norm_num)⟩,
    C23_seconds_index_range sampleBuildingSurface sampleDeep 0 220752000 (by norm_num)
      (Int.ceil_le.mpr (by norm_num))⟩

open SiteBuildingSurfaceGroundTemps SiteDeepGroundTemps in
/-- C25 (the fatal outcome leaves the object as it was). In both variants, when
`getGroundTempAtTimeInSeconds` is called with `seconds <= 0` the outcome is the fatal one and
the object afterwards is the object before: `timeOfSimInMonths` keeps its value, the fatal error
being raised before the index is assigned. -/
theorem C25_fatal_leaves_state (selfB : SiteBuildingSurfaceGroundTemps)
    (selfD : SiteDeepGroundTemps) (depth seconds : Real64) (h : seconds ≤ 0) :
    ((SiteBuildingSurfaceGroundTemps.getGroundTempAtTimeInSeconds selfB depth seconds).1 = Outcome.fatal
        "Site:GroundTemperature:BuildingSurface--Invalid time passed to ground temperature model" ∧
      (SiteBuildingSurfaceGroundTemps.getGroundTempAtTimeInSeconds selfB depth seconds).2 = selfB ∧
      (SiteBuildingSurfaceGroundTemps.getGroundTempAtTimeInSeconds selfB depth seconds).2.timeOfSimInMonths = selfB.timeOfSimInMonths) ∧
    ((SiteDeepGroundTemps.getGroundTempAtTimeInSeconds selfD depth seconds).1 = Outcome.fatal
        "Site:GroundTemperature:Deep--Invalid time passed to ground temperature model" ∧
      (SiteDeepGroundTemps.getGroundTempAtTimeInSeconds selfD depth seconds).2 = selfD ∧
      (SiteDeepGroundTemps.getGroundTempAtTimeInSeconds selfD depth seconds).2.timeOfSimInMonths = selfD.timeOfSimInMonths) := by
  rw [buildingSurface_seconds_fatal_of_nonpos selfB depth seconds h,
    deep_seconds_fatal_of_nonpos selfD depth seconds h]
  exact ⟨⟨rfl, rfl, rfl⟩, ⟨rfl, rfl, rfl⟩⟩

open SiteBuildingSurfaceGroundTemps SiteDeepGroundTemps in
/-- Witness of C25: `seconds = -5`. -/
theorem C25_fatal_leaves_state_witness :
    (-5 : ℚ) ≤ 0 ∧
    (((SiteBuildingSurfaceGroundTemps.getGroundTempAtTimeInSeconds sampleBuildingSurface 0 (-5)).1 = Outcome.fatal
        "Site:GroundTemperature:BuildingSurface--Invalid time passed to ground temperature model" ∧
      (SiteBuildingSurfaceGroundTemps.getGroundTempAtTimeInSeconds sampleBuildingSurface 0 (-5)).2 = sampleBuildingSurface ∧
      (SiteBuildingSurfaceGroundTemps.getGroundTempAtTimeInSeconds sampleBuildingSurface 0 (-5)).2.timeOfSimInMonths = sampleBuildingSurface.timeOfSimInMonths) ∧
    ((SiteDeepGroundTemps.getGroundTempAtTimeInSeconds sampleDeep 0 (-5)).1 = Outcome.fatal
        "Site:GroundTemperature:Deep--Invalid time passed to ground temperature model" ∧
      (SiteDeepGroundTemps.getGroundTempAtTimeInSeconds sampleDeep 0 (-5)).2 = sampleDeep ∧
      (SiteDeepGroundTemps.getGroundTempAtTimeInSeconds sampleDeep 0 (-5)).2.timeOfSimInMonths = sampleDeep.timeOfSimInMonths)) :=
  ⟨by norm_num, C25_fatal_leaves_state sampleBuildingSurface sampleDeep 0 (-5) (by norm_num)⟩

open SiteBuildingSurfaceGroundTemps SiteDeepGroundTemps in
/-- C24 as amended (period of 24 years in the wraparound branch). Let `Y = 31536000`. In both
variants, for every `seconds > Y` such that `ceil( (seconds + 24 * Y) / Y )` fits in a 32-bit
`int`, `getGroundTempAtTimeInSeconds( d, seconds + 24 * Y )` gives the same outcome and sets the
same month index as `getGroundTempAtTimeInSeconds( d, seconds )`. Twelve years are not a
period: 6 years (`ceil = 6`) give index 6 and 18 years (`ceil = 18`) give index -6. -/
theorem C24_period_of_twenty_four_years (selfB : SiteBuildingSurfaceGroundTemps)
    (selfD : SiteDeepGroundTemps) (d seconds : Real64) (hs : 31536000 < seconds)
    (hk : ⌈(seconds + 24 * 31536000) / 31536000⌉ ≤ 2147483647) :
    (SiteBuildingSurfaceGroundTemps.getGroundTempAtTimeInSeconds selfB d (seconds + 24 * 31536000)
        = SiteBuildingSurfaceGroundTemps.getGroundTempAtTimeInSeconds selfB d seconds ∧
      (SiteBuildingSurfaceGroundTemps.getGroundTempAtTimeInSeconds selfB d
          (seconds + 24 * 31536000)).2.timeOfSimInMonths
        = (SiteBuildingSurfaceGroundTemps.getGroundTempAtTimeInSeconds selfB d
            seconds).2.timeOfSimInMonths ∧
      SiteDeepGroundTemps.getGroundTempAtTimeInSeconds selfD d (seconds + 24 * 31536000)
        = SiteDeepGroundTemps.getGroundTempAtTimeInSeconds selfD d seconds ∧
      (SiteDeepGroundTemps.getGroundTempAtTimeInSeconds selfD d
          (seconds + 24 * 31536000)).2.timeOfSimInMonths
        = (SiteDeepGroundTemps.getGroundTempAtTimeInSeconds selfD d seconds).2.timeOfSimInMonths ∧
      (SiteBuildingSurfaceGroundTemps.getGroundTempAtTimeInSeconds selfB d
          189216000).2.timeOfSimInMonths = 6 ∧
      (SiteBuildingSurfaceGroundTemps.getGroundTempAtTimeInSeconds selfB d
          (189216000 + 12 * 31536000)).2.timeOfSimInMonths = -6 ∧
      (SiteDeepGroundTemps.getGroundTempAtTimeInSeconds selfD d
          189216000).2.timeOfSimInMonths = 6 ∧
      (SiteDeepGroundTemps.getGroundTempAtTimeInSeconds selfD d
          (189216000 + 12 * 31536000)).2.timeOfSimInMonths = -6) := by
  have h0 : (0 : ℚ) < seconds := by linarith
  have h24 : (0 : ℚ) < seconds + 24 * 31536000 := by linarith
  have hm := monthOfSeconds_add_twenty_four_years seconds hs hk
  have e18 : (189216000 : ℚ) + 12 * 31536000 = 567648000 := by norm_num
  have hB : SiteBuildingSurfaceGroundTemps.getGroundTempAtTimeInSeconds selfB d
      (seconds + 24 * 31536000)
      = SiteBuildingSurfaceGroundTemps.getGroundTempAtTimeInSeconds selfB d seconds := by
    rw [buildingSurface_seconds_eq_months selfB d _ h24,
      buildingSurface_seconds_eq_months selfB d _ h0, hm]
  have hD : SiteDeepGroundTemps.getGroundTempAtTimeInSeconds selfD d (seconds + 24 * 31536000)
      = SiteDeepGroundTemps.getGroundTempAtTimeInSeconds selfD d seconds := by
    rw [deep_seconds_eq_months selfD d _ h24, deep_seconds_eq_months selfD d _ h0, hm]
  refine ⟨hB, by rw [hB], hD, by rw [hD], ?_, ?_, ?_, ?_⟩
  · rw [buildingSurface_seconds_eq_months selfB d _ (by norm_num), monthOfSeconds_six_years]
    rfl
  · rw [e18, buildingSurface_seconds_eq_months selfB d _ (by norm_num),
      monthOfSeconds_eighteen_years]
    rfl
  · rw [deep_seconds_eq_months selfD d _ (by norm_num), monthOfSeconds_six_years]
    rfl
  · rw [e18, deep_seconds_eq_months selfD d _ (by norm_num), monthOfSeconds_eighteen_years]
    rfl

open SiteBuildingSurfaceGroundTemps SiteDeepGroundTemps in
/-- Witness of C24 as amended: `seconds = 220752000`, seven years. -/
theorem C24_period_of_twenty_four_years_witness :
    ((31536000 : ℚ) < 220752000 ∧
      ⌈((220752000 : ℚ) + 24 * 31536000) / 31536000⌉ ≤ 2147483647) ∧
    (SiteBuildingSurfaceGroundTemps.getGroundTempAtTimeInSeconds sampleBuildingSurface 0 ((220752000 : ℚ) + 24 * 31536000)
        = SiteBuildingSurfaceGroundTemps.getGroundTempAtTimeInSeconds sampleBuildingSurface 0 (220752000 : ℚ) ∧
      (SiteBuildingSurfaceGroundTemps.getGroundTempAtTimeInSeconds sampleBuildingSurface 0
          ((220752000 : ℚ) + 24 * 31536000)).2.timeOfSimInMonths
        = (SiteBuildingSurfaceGroundTemps.getGroundTempAtTimeInSeconds sampleBuildingSurface 0
            (220752000 : ℚ)).2.timeOfSimInMonths ∧
      SiteDeepGroundTemps.getGroundTempAtTimeInSeconds sampleDeep 0 ((220752000 : ℚ) + 24 * 31536000)
        = SiteDeepGroundTemps.getGroundTempAtTimeInSeconds sampleDeep 0 (220752000 : ℚ) ∧
      (SiteDeepGroundTemps.getGroundTempAtTimeInSeconds sampleDeep 0
          ((220752000 : ℚ) + 24 * 31536000)).2.timeOfSimInMonths
        = (SiteDeepGroundTemps.getGroundTempAtTimeInSeconds sampleDeep 0 (220752000 : ℚ)).2.timeOfSimInMonths ∧
      (SiteBuildingSurfaceGroundTemps.getGroundTempAtTimeInSeconds sampleBuildingSurface 0
          189216000).2.timeOfSimInMonths = 6 ∧
      (SiteBuildingSurfaceGroundTemps.getGroundTempAtTimeInSeconds sampleBuildingSurface 0
          (189216000 + 12 * 31536000)).2.timeOfSimInMonths = -6 ∧
      (SiteDeepGroundTemps.getGroundTempAtTimeInSeconds sampleDeep 0
          189216000).2.timeOfSimInMonths = 6 ∧
      (SiteDeepGroundTemps.getGroundTempAtTimeInSeconds sampleDeep 0
          (189216000 + 12 * 31536000)).2.timeOfSimInMonths = -6) :=
  ⟨⟨by norm_num, Int.ceil_le.mpr (by norm_num)⟩,
    C24_period_of_twenty_four_years sampleBuildingSurface sampleDeep 0 220752000 (by norm_num)
      (Int.ceil_le.mpr (by norm_num))⟩

open SiteBuildingSurfaceGroundTemps SiteDeepGroundTemps in
/-- C24 as stated fails at the end of the range of `int`: `seconds = 67723044134112000`
(2147483642 years of 31536000 seconds) is above 31536000 and both variants set the index 2, but
for `seconds + 24 * 31536000` the ceiling 2147483666 is outside the range of `int`, no index is
set and the object keeps its index 0. -/
theorem C24_period_counterexample :
    (31536000 : ℚ) < 67723044134112000 ∧
    (SiteBuildingSurfaceGroundTemps.getGroundTempAtTimeInSeconds sampleBuildingSurface 0
        67723044134112000).2.timeOfSimInMonths = 2 ∧
    SiteBuildingSurfaceGroundTemps.getGroundTempAtTimeInSeconds sampleBuildingSurface 0
        (67723044134112000 + 24 * 31536000) = (Outcome.undefinedConversion, sampleBuildingSurface) ∧
    (SiteBuildingSurfaceGroundTemps.getGroundTempAtTimeInSeconds sampleBuildingSurface 0
        (67723044134112000 + 24 * 31536000)).2.timeOfSimInMonths = 0 ∧
    (SiteDeepGroundTemps.getGroundTempAtTimeInSeconds sampleDeep 0
        67723044134112000).2.timeOfSimInMonths = 2 ∧
    SiteDeepGroundTemps.getGroundTempAtTimeInSeconds sampleDeep 0
        (67723044134112000 + 24 * 31536000) = (Outcome.undefinedConversion, sampleDeep) ∧
    (SiteDeepGroundTemps.getGroundTempAtTimeInSeconds sampleDeep 0
        (67723044134112000 + 24 * 31536000)).2.timeOfSimInMonths = 0 := by
  have hB : SiteBuildingSurfaceGroundTemps.getGroundTempAtTimeInSeconds sampleBuildingSurface 0
      (67723044134112000 + 24 * 31536000) = (Outcome.undefinedConversion, sampleBuildingSurface) := by
    rw [buildingSurface_seconds_eq_months _ _ _ (by norm_num), monthOfSeconds_beyond_int_years]
  have hD : SiteDeepGroundTemps.getGroundTempAtTimeInSeconds sampleDeep 0
      (67723044134112000 + 24 * 31536000) = (Outcome.undefinedConversion, sampleDeep) := by
    rw [deep_seconds_eq_months _ _ _ (by norm_num), monthOfSeconds_beyond_int_years]
  refine ⟨by norm_num, ?_, hB, by rw [hB]; rfl, ?_, hD, by rw [hD]; rfl⟩
  · rw [buildingSurface_seconds_eq_months _ _ _ (by norm_num), monthOfSeconds_last_int_years]
    rfl
  · rw [deep_seconds_eq_months _ _ _ (by norm_num), monthOfSeconds_last_int_years]
    rfl

open SiteBuildingSurfaceGroundTemps SiteDeepGroundTemps in
/-- C26 (the month length constant is exact). The `int` expression `365 * 3600 * 24 / 12`
stays within 32 bits at every step and divides without remainder, giving 2628000; the
threshold `secPerMonth * 12` is 31536000 = 365 * 24 * 3600; in both variants the instant
`seconds = 31536000` is handled by the first branch (month 1), and every larger `seconds` fails
the condition of the first branch and meets that of the wraparound branch. -/
theorem C26_month_length_constant (selfB : SiteBuildingSurfaceGroundTemps)
    (selfD : SiteDeepGroundTemps) (depth seconds : Real64) (hs : 31536000 < seconds) :
    ((wrapInt32 (365 * 3600) = 365 * 3600 ∧ wrapInt32 (365 * 3600 * 24) = 365 * 3600 * 24 ∧
      secPerMonthInt32 = 2628000 ∧ (365 * 3600 * 24 : Int) % 12 = 0 ∧
      (365 * 3600 * 24 / 12 : Int) = secPerMonthInt32) ∧
    (((365 * 3600 * 24 / 12 : Int) : ℚ) = 2628000 ∧
      ((365 * 3600 * 24 / 12 : Int) : ℚ) * 12 = 31536000 ∧
      (31536000 : Int) = 365 * 24 * 3600) ∧
    (monthOfSeconds 31536000 = some 1 ∧
      SiteBuildingSurfaceGroundTemps.getGroundTempAtTimeInSeconds selfB depth 31536000 =
        (Outcome.value (selfB.buildingSurfaceGroundTemps 0),
          { selfB with timeOfSimInMonths := 1 }) ∧
      SiteDeepGroundTemps.getGroundTempAtTimeInSeconds selfD depth 31536000 =
        (Outcome.value (selfD.deepGroundTemps 0), { selfD with timeOfSimInMonths := 1 })) ∧
    (¬ (seconds > 0 ∧ seconds ≤ ((365 * 3600 * 24 / 12 : Int) : ℚ) * 12) ∧
      seconds > ((365 * 3600 * 24 / 12 : Int) : ℚ) * 12 ∧
      monthOfSeconds seconds =
        (match toInt (ceil (seconds / 31536000)) with
         | some month0 => toInt (remainder (month0 : ℚ) 12)
         | none => none))) := by
  have hm1 : monthOfSeconds 31536000 = some 1 :=
    monthOfSeconds_first_year 31536000 (by norm_num) (by norm_num)
  refine ⟨⟨by decide, by decide, by decide, by decide, by decide⟩,
    ⟨by norm_num, secPerMonth_mul_twelve, by norm_num⟩, ⟨hm1, ?_, ?_⟩, ?_⟩
  · rw [buildingSurface_seconds_eq_months selfB depth _ (by norm_num), hm1]
    rfl
  · rw [deep_seconds_eq_months selfD depth _ (by norm_num), hm1]
    rfl
  · rw [secPerMonth_mul_twelve]
    have hc : ¬ (seconds > 0 ∧ seconds ≤ 31536000) := fun hc => absurd hc.2 (not_le.mpr hs)
    refine ⟨hc, hs, ?_⟩
    unfold monthOfSeconds
    simp only [secPerMonth_mul_twelve, hc, if_false, gt_iff_lt, hs, if_true]

open SiteBuildingSurfaceGroundTemps SiteDeepGroundTemps in
/-- Witness of C26: `seconds = 31536001`, one second after the threshold. -/
theorem C26_month_length_constant_witness :
    (31536000 : ℚ) < 31536001 ∧
    ((wrapInt32 (365 * 3600) = 365 * 3600 ∧ wrapInt32 (365 * 3600 * 24) = 365 * 3600 * 24 ∧
      secPerMonthInt32 = 2628000 ∧ (365 * 3600 * 24 : Int) % 12 = 0 ∧
      (365 * 3600 * 24 / 12 : Int) = secPerMonthInt32) ∧
    (((365 * 3600 * 24 / 12 : Int) : ℚ) = 2628000 ∧
      ((365 * 3600 * 24 / 12 : Int) : ℚ) * 12 = 31536000 ∧
      (31536000 : Int) = 365 * 24 * 3600) ∧
    (monthOfSeconds 31536000 = some 1 ∧
      SiteBuildingSurfaceGroundTemps.getGroundTempAtTimeInSeconds sampleBuildingSurface 0 31536000 =
        (Outcome.value (sampleBuildingSurface.buildingSurfaceGroundTemps 0),
          { sampleBuildingSurface with timeOfSimInMonths := 1 }) ∧
      SiteDeepGroundTemps.getGroundTempAtTimeInSeconds sampleDeep 0 31536000 =
        (Outcome.value (sampleDeep.deepGroundTemps 0), { sampleDeep with timeOfSimInMonths := 1 })) ∧
    (¬ ((31536001 : ℚ) > 0 ∧ (31536001 : ℚ) ≤ ((365 * 3600 * 24 / 12 : Int) : ℚ) * 12) ∧
      (31536001 : ℚ) > ((365 * 3600 * 24 / 12 : Int) : ℚ) * 12 ∧
      monthOfSeconds (31536001 : ℚ) =
        (match toInt (ceil ((31536001 : ℚ) / 31536000)) with
         | some month0 => toInt (remainder (month0 : ℚ) 12)
         | none => none))) :=
  ⟨by norm_num,
    C26_month_length_constant sampleBuildingSurface sampleDeep 0 31536001 (by norm_num)⟩

/-- C22 (the two variants are equivalent up to the named differences). For every object
count, field count and numeric values, the fresh objects agreeing on `errorsFound`:
both factories make the same admission decision and end with the same `errorsFound`; for a
count of 1 they store the same 12 values, for a count of 0 BuildingSurface stores 18 and Deep 16
in every slot; the messages of Deep are those of BuildingSurface without the range advisory and
with the variant name replaced; each factory sets its own flag, under the same condition, and
leaves the other flag alone. And for objects with equal temperatures and equal month index and
for equal arguments, the three look-ups of the two variants give equal outcomes and equal month
index afterwards, the only difference being the variant name in the fatal message. -/
theorem C22_variant_equivalence (freshB : SiteBuildingSurfaceGroundTemps)
    (freshD : SiteDeepGroundTemps) (inp : InputProcessor) (w : State)
    (selfB : SiteBuildingSurfaceGroundTemps) (selfD : SiteDeepGroundTemps)
    (depth seconds : Real64) (month : Int)
    (hf : freshD.errorsFound = freshB.errorsFound)
    (ht : selfD.deepGroundTemps = selfB.buildingSurfaceGroundTemps)
    (hi : selfD.timeOfSimInMonths = selfB.timeOfSimInMonths) :
    ((SiteBuildingSurfaceGroundTemps.BuildingSurfaceGTMFactory freshB inp w).returned.isSome
        = (SiteDeepGroundTemps.DeepGTMFactory freshD inp w).returned.isSome ∧
      (SiteDeepGroundTemps.DeepGTMFactory freshD inp w).thisModel.errorsFound
        = (SiteBuildingSurfaceGroundTemps.BuildingSurfaceGTMFactory freshB inp w).thisModel.errorsFound ∧
      (inp.GetNumObjectsFound ≠ 1 ∨
        ∀ j : Fin 12,
          (SiteDeepGroundTemps.DeepGTMFactory freshD inp w).thisModel.deepGroundTemps j
            = (SiteBuildingSurfaceGroundTemps.BuildingSurfaceGTMFactory freshB inp
                w).thisModel.buildingSurfaceGroundTemps j) ∧
      (∀ j : Fin 12,
        (SiteBuildingSurfaceGroundTemps.BuildingSurfaceGTMFactory freshB inp
            w).thisModel.buildingSurfaceGroundTemps j =
          (if inp.GetNumObjectsFound = 1 then inp.rNumericArgs (j.val + 1)
           else if inp.GetNumObjectsFound = 0 then 18 else freshB.buildingSurfaceGroundTemps j)) ∧
      (∀ j : Fin 12,
        (SiteDeepGroundTemps.DeepGTMFactory freshD inp w).thisModel.deepGroundTemps j =
          (if inp.GetNumObjectsFound = 1 then inp.rNumericArgs (j.val + 1)
           else if inp.GetNumObjectsFound = 0 then 16 else freshD.deepGroundTemps j)) ∧
      emittedSince w (SiteDeepGroundTemps.DeepGTMFactory freshD inp w).state =
        (dropRangeAdvisory (emittedSince w
          (SiteBuildingSurfaceGroundTemps.BuildingSurfaceGTMFactory freshB inp w).state)).map
            Diagnostic.renameVariant ∧
      ((SiteBuildingSurfaceGroundTemps.BuildingSurfaceGTMFactory freshB inp w).state.GroundTempObjInput
          = (if inp.GetNumObjectsFound = 1 then true else w.GroundTempObjInput) ∧
        (SiteBuildingSurfaceGroundTemps.BuildingSurfaceGTMFactory freshB inp
            w).state.GroundTemp_DeepObjInput = w.GroundTemp_DeepObjInput) ∧
      ((SiteDeepGroundTemps.DeepGTMFactory freshD inp w).state.GroundTemp_DeepObjInput
          = (if inp.GetNumObjectsFound = 1 then true else w.GroundTemp_DeepObjInput) ∧
        (SiteDeepGroundTemps.DeepGTMFactory freshD inp w).state.GroundTempObjInput
          = w.GroundTempObjInput)) ∧
    (SiteDeepGroundTemps.getGroundTemp selfD = SiteBuildingSurfaceGroundTemps.getGroundTemp selfB ∧
      (SiteDeepGroundTemps.getGroundTempAtTimeInMonths selfD depth month).1
        = (SiteBuildingSurfaceGroundTemps.getGroundTempAtTimeInMonths selfB depth month).1 ∧
      (SiteDeepGroundTemps.getGroundTempAtTimeInMonths selfD depth month).2.timeOfSimInMonths
        = (SiteBuildingSurfaceGroundTemps.getGroundTempAtTimeInMonths selfB depth
            month).2.timeOfSimInMonths ∧
      (SiteDeepGroundTemps.getGroundTempAtTimeInSeconds selfD depth seconds).2.timeOfSimInMonths
        = (SiteBuildingSurfaceGroundTemps.getGroundTempAtTimeInSeconds selfB depth
            seconds).2.timeOfSimInMonths ∧
      ((SiteDeepGroundTemps.getGroundTempAtTimeInSeconds selfD depth seconds).1
          = (SiteBuildingSurfaceGroundTemps.getGroundTempAtTimeInSeconds selfB depth seconds).1 ∨
        (seconds ≤ 0 ∧
          (SiteBuildingSurfaceGroundTemps.getGroundTempAtTimeInSeconds selfB depth seconds).1
            = Outcome.fatal
              "Site:GroundTemperature:BuildingSurface--Invalid time passed to ground temperature model" ∧
          (SiteDeepGroundTemps.getGroundTempAtTimeInSeconds selfD depth seconds).1
            = Outcome.fatal
              "Site:GroundTemperature:Deep--Invalid time passed to ground temperature model"))) := by
  have hret : (SiteBuildingSurfaceGroundTemps.BuildingSurfaceGTMFactory freshB inp w).returned.isSome
      = (SiteDeepGroundTemps.DeepGTMFactory freshD inp w).returned.isSome := by
    rw [SiteBuildingSurfaceGroundTemps.buildingSurface_factory_returned,
      SiteDeepGroundTemps.deep_factory_returned,
      SiteBuildingSurfaceGroundTemps.buildingSurface_readInput_errorsFound,
      SiteDeepGroundTemps.deep_readInput_errorsFound, hf]
    split_ifs <;> rfl
  have herr : (SiteDeepGroundTemps.DeepGTMFactory freshD inp w).thisModel.errorsFound
      = (SiteBuildingSurfaceGroundTemps.BuildingSurfaceGTMFactory freshB inp
          w).thisModel.errorsFound := by
    rw [SiteBuildingSurfaceGroundTemps.buildingSurface_factory_thisModel,
      SiteDeepGroundTemps.deep_factory_thisModel,
      SiteBuildingSurfaceGroundTemps.buildingSurface_readInput_errorsFound,
      SiteDeepGroundTemps.deep_readInput_errorsFound, hf]
  refine ⟨⟨hret, herr, ?_, fun j => buildingSurface_thisModel_temps freshB inp w j,
    fun j => deep_thisModel_temps freshD inp w j,
    deep_emitted_of_buildingSurface freshB freshD inp w hf,
    SiteBuildingSurfaceGroundTemps.buildingSurface_factory_flags freshB inp w,
    SiteDeepGroundTemps.deep_factory_flags freshD inp w⟩,
    lookups_agree selfB selfD depth seconds month ht hi⟩
  by_cases h1 : inp.GetNumObjectsFound = 1
  · right
    intro j
    rw [buildingSurface_thisModel_temps, deep_thisModel_temps]
    simp [h1]
  · left
    exact h1

/-- Witness of C22: one object with 12 values for the factories; for the look-ups the two
sample objects, one million seconds and month 3. -/
theorem C22_variant_equivalence_witness :
    (sampleDeep.errorsFound = sampleBuildingSurface.errorsFound ∧
      sampleDeep.deepGroundTemps = sampleBuildingSurface.buildingSurfaceGroundTemps ∧
      sampleDeep.timeOfSimInMonths = sampleBuildingSurface.timeOfSimInMonths) ∧
    (((SiteBuildingSurfaceGroundTemps.BuildingSurfaceGTMFactory sampleBuildingSurface inputTwelve emptyState).returned.isSome
        = (SiteDeepGroundTemps.DeepGTMFactory sampleDeep inputTwelve emptyState).returned.isSome ∧
      (SiteDeepGroundTemps.DeepGTMFactory sampleDeep inputTwelve emptyState).thisModel.errorsFound
        = (SiteBuildingSurfaceGroundTemps.BuildingSurfaceGTMFactory sampleBuildingSurface inputTwelve emptyState).thisModel.errorsFound ∧
      (inputTwelve.GetNumObjectsFound ≠ 1 ∨
        ∀ j : Fin 12,
          (SiteDeepGroundTemps.DeepGTMFactory sampleDeep inputTwelve emptyState).thisModel.deepGroundTemps j
            = (SiteBuildingSurfaceGroundTemps.BuildingSurfaceGTMFactory sampleBuildingSurface inputTwelve
                emptyState).thisModel.buildingSurfaceGroundTemps j) ∧
      (∀ j : Fin 12,
        (SiteBuildingSurfaceGroundTemps.BuildingSurfaceGTMFactory sampleBuildingSurface inputTwelve
            emptyState).thisModel.buildingSurfaceGroundTemps j =
          (if inputTwelve.GetNumObjectsFound = 1 then inputTwelve.rNumericArgs (j.val + 1)
           else if inputTwelve.GetNumObjectsFound = 0 then 18 else sampleBuildingSurface.buildingSurfaceGroundTemps j)) ∧
      (∀ j : Fin 12,
        (SiteDeepGroundTemps.DeepGTMFactory sampleDeep inputTwelve emptyState).thisModel.deepGroundTemps j =
          (if inputTwelve.GetNumObjectsFound = 1 then inputTwelve.rNumericArgs (j.val + 1)
           else if inputTwelve.GetNumObjectsFound = 0 then 16 else sampleDeep.deepGroundTemps j)) ∧
      emittedSince emptyState (SiteDeepGroundTemps.DeepGTMFactory sampleDeep inputTwelve emptyState).state =
        (dropRangeAdvisory (emittedSince emptyState
          (SiteBuildingSurfaceGroundTemps.BuildingSurfaceGTMFactory sampleBuildingSurface inputTwelve emptyState).state)).map
            Diagnostic.renameVariant ∧
      ((SiteBuildingSurfaceGroundTemps.BuildingSurfaceGTMFactory sampleBuildingSurface inputTwelve emptyState).state.GroundTempObjInput
          = (if inputTwelve.GetNumObjectsFound = 1 then true else emptyState.GroundTempObjInput) ∧
        (SiteBuildingSurfaceGroundTemps.BuildingSurfaceGTMFactory sampleBuildingSurface inputTwelve
            emptyState).state.GroundTemp_DeepObjInput = emptyState.GroundTemp_DeepObjInput) ∧
      ((SiteDeepGroundTemps.DeepGTMFactory sampleDeep inputTwelve emptyState).state.GroundTemp_DeepObjInput
          = (if inputTwelve.GetNumObjectsFound = 1 then true else emptyState.GroundTemp_DeepObjInput) ∧
        (SiteDeepGroundTemps.DeepGTMFactory sampleDeep inputTwelve emptyState).state.GroundTempObjInput
          = emptyState.GroundTempObjInput)) ∧
    (SiteDeepGroundTemps.getGroundTemp sampleDeep = SiteBuildingSurfaceGroundTemps.getGroundTemp sampleBuildingSurface ∧
      (SiteDeepGroundTemps.getGroundTempAtTimeInMonths sampleDeep 0 3).1
        = (SiteBuildingSurfaceGroundTemps.getGroundTempAtTimeInMonths sampleBuildingSurface 0 3).1 ∧
      (SiteDeepGroundTemps.getGroundTempAtTimeInMonths sampleDeep 0 3).2.timeOfSimInMonths
        = (SiteBuildingSurfaceGroundTemps.getGroundTempAtTimeInMonths sampleBuildingSurface 0
            3).2.timeOfSimInMonths ∧
      (SiteDeepGroundTemps.getGroundTempAtTimeInSeconds sampleDeep 0 (1000000 : ℚ)).2.timeOfSimInMonths
        = (SiteBuildingSurfaceGroundTemps.getGroundTempAtTimeInSeconds sampleBuildingSurface 0
            (1000000 : ℚ)).2.timeOfSimInMonths ∧
      ((SiteDeepGroundTemps.getGroundTempAtTimeInSeconds sampleDeep 0 (1000000 : ℚ)).1
          = (SiteBuildingSurfaceGroundTemps.getGroundTempAtTimeInSeconds sampleBuildingSurface 0 (1000000 : ℚ)).1 ∨
        ((1000000 : ℚ) ≤ 0 ∧
          (SiteBuildingSurfaceGroundTemps.getGroundTempAtTimeInSeconds sampleBuildingSurface 0 (1000000 : ℚ)).1
            = Outcome.fatal
              "Site:GroundTemperature:BuildingSurface--Invalid time passed to ground temperature model" ∧
          (SiteDeepGroundTemps.getGroundTempAtTimeInSeconds sampleDeep 0 (1000000 : ℚ)).1
            = Outcome.fatal
              "Site:GroundTemperature:Deep--Invalid time passed to ground temperature model")))) :=
  ⟨⟨rfl, rfl, rfl⟩,
    C22_variant_equivalence sampleBuildingSurface sampleDeep inputTwelve emptyState
      sampleBuildingSurface sampleDeep 0 1000000 3 rfl rfl rfl⟩

end EnergyPlus
